import Mathlib

/-!
# yarr: the HTTP handlers of src/server/routes.go

A shallow embedding of the request handlers of the feed reader.  A handler is a
function of the request context and of a handler state that carries

* the *world*: whatever the storage (s.db), the worker (s.worker) and the
  network hold; it is an abstract type, changed only through the operations of
  the environment;
* the *trace*: the calls made on s.db and s.worker, in program order, with the
  hand-overs to the static file server and the page fetches of worker.GetBody;
* the response written so far (status code, headers and payload);
* the icon cache of the server.

Code that lives outside routes.go (storage, worker, router, json, opml) is a
parameter of the embedding: the record Env.
-/

namespace Yarr

/-! ## Data -/

/-- A Go value as encoding/json decodes it into an interface: nil, bool,
float64, string, slice, map.  A float64 that comes out of the JSON decoder is
finite, hence a rational number. -/
inductive GoValue where
  | null
  | bool (b : Bool)
  | float64 (x : ℚ)
  | string (s : String)
  | array (xs : List GoValue)
  | object (kvs : List (String × GoValue))

/-- A Go map from string to interface values, as an association list read
through its first binding of a key. -/
abbrev GoMap := List (String × GoValue)

/-- The kinds reflect reports for decoded JSON values. -/
inductive Kind where
  | Bool
  | Float64
  | String
  | Slice
  | Map
  deriving DecidableEq, Repr

/-- The kind of reflect.TypeOf(v): TypeOf(nil) is the nil Type, on which Kind()
cannot be called (none). -/
def GoValue.kind : GoValue → Option Kind
  | .null => none
  | .bool _ => some Kind.Bool
  | .float64 _ => some Kind.Float64
  | .string _ => some Kind.String
  | .array _ => some Kind.Slice
  | .object _ => some Kind.Map

/-- storage.Folder. -/
structure Folder where
  Id : Int
  Title : String
  IsExpanded : Bool
  deriving DecidableEq, Repr

/-- storage.Feed, with the fields routes.go reads. -/
structure Feed where
  Id : Int
  FolderId : Option Int
  Title : String
  Link : String
  FeedLink : String
  Icon : Option (List Nat)
  deriving DecidableEq, Repr

/-- storage.Item, with the fields routes.go reads. -/
structure Item where
  FeedId : Int
  Link : String
  Content : String
  deriving DecidableEq, Repr

/-- opml.Feed. -/
structure OpmlFeed where
  Title : String
  FeedUrl : String
  SiteUrl : String
  deriving DecidableEq, Repr

/-- opml.Folder: a title, feeds and sub-folders.  A parsed document is the
root folder. -/
inductive OpmlFolder where
  | mk (title : String) (feeds : List OpmlFeed) (folders : List OpmlFolder)

/-- Field Title of opml.Folder. -/
def OpmlFolder.Title : OpmlFolder → String
  | .mk t _ _ => t

/-- Field Feeds of opml.Folder. -/
def OpmlFolder.Feeds : OpmlFolder → List OpmlFeed
  | .mk _ fs _ => fs

/-- Field Folders of opml.Folder. -/
def OpmlFolder.Folders : OpmlFolder → List OpmlFolder
  | .mk _ _ fs => fs

/-- The parsed feed inside a discovery result (parser.Feed); PI is the type of
parsed items, which routes.go only hands to ConvertItems. -/
structure ParserFeed (PI : Type) where
  Title : String
  SiteURL : String
  Items : List PI

/-- The result of worker.DiscoverFeed; Src is the type of a candidate source,
which routes.go only copies into the response. -/
structure DiscoverResult (PI Src : Type) where
  Feed : Option (ParserFeed PI)
  FeedLink : String
  Sources : List Src

/-- The body of POST /api/folders. -/
structure FolderCreateForm where
  Title : String
  deriving DecidableEq, Repr

/-- The body of POST /api/feeds. -/
structure FeedCreateForm where
  Url : String
  FolderID : Option Int
  deriving DecidableEq, Repr

/-- The body of PUT /api/folders/:id: both fields are pointers. -/
structure FolderUpdateForm where
  Title : Option String
  IsExpanded : Option Bool
  deriving DecidableEq, Repr

/-- The body of PUT /api/items/:id: the status is a pointer to an item status
(an integer type). -/
structure ItemUpdateForm where
  Status : Option Int
  deriving DecidableEq, Repr

/-- storage.ItemFilter, as handleItemList fills it. -/
structure ItemFilter where
  FolderID : Option Int
  FeedID : Option Int
  After : Option Int
  Status : Option Int
  Search : Option String
  deriving DecidableEq, Repr

/-- storage.MarkFilter, as handleItemList fills it. -/
structure MarkFilter where
  FolderID : Option Int
  FeedID : Option Int
  deriving DecidableEq, Repr

/-- The type feedicon of routes.go: an entry of the icon cache. -/
structure FeedIcon where
  ctype : String
  bytes : List Nat
  etag : String
  deriving DecidableEq, Repr

/-- The fields of Server that the handlers read besides db, worker and cache. -/
structure Config where
  BasePath : String
  Username : String
  Password : String
  deriving DecidableEq, Repr

/-- What a handler reads of router.Context: the method and body of the request,
the integer path variables (none when VarInt64 returns an error) and the
uploaded form files (none when FormFile returns an error). -/
structure Context where
  Method : String
  Body : String
  VarInt64 : String → Option Int
  FormFile : String → Option String
  /-- The path variables c.Vars, empty when absent. -/
  Vars : String → String := fun _ => ""
  /-- The request headers, c.Req.Header.Get, empty when absent. -/
  Header : String → String := fun _ => ""
  /-- The query parameters, c.Req.URL.Query().Get, empty when absent. -/
  Query : String → String := fun _ => ""
  /-- The integer query parameters, c.QueryInt64 (none when it returns an error). -/
  QueryInt64 : String → Option Int := fun _ => none

/-! ## Calls and responses -/

/-- A call on s.db or s.worker, with its arguments, or the hand-over of the
request to the static file server, or the fetch of a page by worker.GetBody.
CreateFolder also keeps the folder it returned, since later calls of an import
refer to its id. -/
inductive Call where
  | ListFolders
  | CreateFolder (title : String) (returned : Option Folder)
  | ListFeeds
  | GetFeed (id : Int)
  | CreateFeed (title description link feedLink : String) (folderId : Option Int)
  | RenameFeed (id : Int) (title : String)
  | UpdateFeedFolder (id : Int) (folderId : Option Int)
  | DeleteFeed (id : Int)
  | CreateItems (items : List Item)
  | SetFeedSize (id : Int) (size : Int)
  | SyncSearch
  | GetSettings
  | UpdateSettings (settings : GoMap)
  | GetSettingsValueInt64 (key : String)
  | RefreshFeeds
  | SetRefreshRate (rate : Int)
  | FindFavicons
  | FindFeedFavicon (feed : Feed)
  | RenameFolder (id : Int) (title : String)
  | ToggleFolderExpanded (id : Int) (isExpanded : Bool)
  | DeleteFolder (id : Int)
  | GetFeedErrors
  | FeedStats
  | GetItem (id : Int)
  | UpdateItemStatus (id : Int) (status : Int)
  | ListItems (filter : ItemFilter) (limit : Int) (newestFirst withContent : Bool)
  | MarkItemsRead (filter : MarkFilter)
  | FeedsPending
  | FileServer
  | GetBody (url : String)

namespace Call

/-- Is this a CreateFolder call. -/
def isCreateFolder : Call → Bool
  | .CreateFolder _ _ => true
  | _ => false

/-- Is this a CreateFeed call. -/
def isCreateFeed : Call → Bool
  | .CreateFeed _ _ _ _ _ => true
  | _ => false

/-- Is this a RenameFeed call. -/
def isRenameFeed : Call → Bool
  | .RenameFeed _ _ => true
  | _ => false

/-- Is this an UpdateFeedFolder call. -/
def isUpdateFeedFolder : Call → Bool
  | .UpdateFeedFolder _ _ => true
  | _ => false

/-- Is this a CreateItems call. -/
def isCreateItems : Call → Bool
  | .CreateItems _ => true
  | _ => false

/-- Is this a SetFeedSize call. -/
def isSetFeedSize : Call → Bool
  | .SetFeedSize _ _ => true
  | _ => false

/-- Is this a SyncSearch call. -/
def isSyncSearch : Call → Bool
  | .SyncSearch => true
  | _ => false

/-- Is this a SetRefreshRate call. -/
def isSetRefreshRate : Call → Bool
  | .SetRefreshRate _ => true
  | _ => false

/-- Is this a RefreshFeeds call. -/
def isRefreshFeeds : Call → Bool
  | .RefreshFeeds => true
  | _ => false

/-- Is this a FindFavicons call. -/
def isFindFavicons : Call → Bool
  | .FindFavicons => true
  | _ => false

/-- Is this a FindFeedFavicon call. -/
def isFindFeedFavicon : Call → Bool
  | .FindFeedFavicon _ => true
  | _ => false

/-- Is this a RenameFolder call. -/
def isRenameFolder : Call → Bool
  | .RenameFolder _ _ => true
  | _ => false

/-- Is this a call of a method of the worker: FeedsPending, RefreshFeeds,
SetRefreshRate, FindFavicons, FindFeedFavicon. -/
def isWorker : Call → Bool
  | .FeedsPending => true
  | .RefreshFeeds => true
  | .SetRefreshRate _ => true
  | .FindFavicons => true
  | .FindFeedFavicon _ => true
  | _ => false

/-- Is this a call of a method of the storage that writes: every call that is
neither a call of the worker, nor the file server, nor a read of the storage. -/
def isStorageWrite : Call → Bool
  | .CreateFolder _ _ => true
  | .CreateFeed _ _ _ _ _ => true
  | .RenameFeed _ _ => true
  | .UpdateFeedFolder _ _ => true
  | .DeleteFeed _ => true
  | .CreateItems _ => true
  | .SetFeedSize _ _ => true
  | .SyncSearch => true
  | .UpdateSettings _ => true
  | .RenameFolder _ _ => true
  | .ToggleFolderExpanded _ _ => true
  | .DeleteFolder _ => true
  | .UpdateItemStatus _ _ => true
  | .MarkItemsRead _ => true
  | _ => false

end Call

/-- The Go value a handler hands to c.JSON. -/
inductive Payload (Src : Type) where
  | folderList (l : List Folder)
  | folder (f : Option Folder)
  | feedList (l : List Feed)
  | stringMap (kvs : List (String × String))
  | multiple (choice : List Src)
  | success (feed : Option Feed)
  | settings (m : GoMap)
  | value (v : GoValue)
  | running (pending : Int) (stats : GoValue)
  | manifest (basePath : String)
  | html (template : String) (settings : GoMap) (authenticated : Bool)
  | item (i : Option Item)
  | itemList (list : List Item) (hasMore : Bool)
  | bytes (b : List Nat)
  | text (t : String)

/-- The handler state: world, calls made so far, and the response. status is
none as long as no header was written.  headers are the response headers set,
the latest first; cache is the map s.cache of the server, read through the
first binding of a key. -/
structure St (ω Src : Type) where
  world : ω
  trace : List Call
  status : Option Nat
  payload : Option (Payload Src)
  headers : List (String × String) := []
  cache : List (String × FeedIcon) := []

/-- How a handler ends: by returning, or by a run-time panic (nil dereference). -/
structure Outcome (ω Src : Type) where
  st : St ω Src
  panicked : Bool

/-! ## The environment -/

/-- The methods of s.db that the handlers call.  Each takes the world and gives
the next world; a method that returns a pointer gives an Option. -/
structure Storage (ω : Type) where
  ListFolders : ω → ω × List Folder
  CreateFolder : ω → String → ω × Option Folder
  ListFeeds : ω → ω × List Feed
  GetFeed : ω → Int → ω × Option Feed
  CreateFeed : ω → String → String → String → String → Option Int → ω × Option Feed
  RenameFeed : ω → Int → String → ω
  UpdateFeedFolder : ω → Int → Option Int → ω
  DeleteFeed : ω → Int → ω
  CreateItems : ω → List Item → ω
  SetFeedSize : ω → Int → Int → ω
  SyncSearch : ω → ω
  GetSettings : ω → ω × GoMap
  UpdateSettings : ω → GoMap → ω × Bool
  GetSettingsValueInt64 : ω → String → ω × Int
  RenameFolder : ω → Int → String → ω
  ToggleFolderExpanded : ω → Int → Bool → ω
  DeleteFolder : ω → Int → ω
  GetFeedErrors : ω → ω × GoValue
  FeedStats : ω → ω × GoValue
  GetItem : ω → Int → ω × Option Item
  UpdateItemStatus : ω → Int → Int → ω
  ListItems : ω → ItemFilter → Int → Bool → Bool → ω × List Item
  MarkItemsRead : ω → MarkFilter → ω

/-- The methods of s.worker that the handlers call; only FeedsPending returns a
value. -/
structure Worker (ω : Type) where
  RefreshFeeds : ω → ω
  SetRefreshRate : ω → Int → ω
  FindFavicons : ω → ω
  FindFeedFavicon : ω → Feed → ω
  FeedsPending : ω → ω × Int

/-- Everything routes.go calls but does not define. -/
structure Env (ω PI Src : Type) where
  db : Storage ω
  worker : Worker ω
  /-- worker.DiscoverFeed: an error, or a result. -/
  DiscoverFeed : ω → String → ω × Except String (DiscoverResult PI Src)
  /-- worker.ConvertItems. -/
  ConvertItems : ω → List PI → Feed → ω × List Item
  /-- json decoding of a request body into FolderCreateForm (none: error). -/
  decodeFolderCreateForm : String → Option FolderCreateForm
  /-- json decoding of a request body into FeedCreateForm (none: error). -/
  decodeFeedCreateForm : String → Option FeedCreateForm
  /-- json decoding of a request body into a fresh map (none: error). -/
  decodeMap : String → Option GoMap
  /-- opml.Parse (none: error). -/
  opmlParse : String → Option OpmlFolder
  /-- Method AllFeeds of opml.Folder. -/
  AllFeeds : OpmlFolder → List OpmlFeed
  /-- The implementation-dependent result of converting to int64 a float64
  whose integer part is not an int64. -/
  int64OutOfRange : ℚ → Int
  /-- json decoding of a request body into FolderUpdateForm (none: error). -/
  decodeFolderUpdateForm : String → Option FolderUpdateForm
  /-- json decoding of a request body into ItemUpdateForm (none: error). -/
  decodeItemUpdateForm : String → Option ItemUpdateForm
  /-- htmlutil.IsAPossibleLink. -/
  IsAPossibleLink : String → Bool
  /-- htmlutil.AbsoluteUrl(link, base). -/
  AbsoluteUrl : String → String → String
  /-- sanitizer.Sanitize(baseURL, input). -/
  Sanitize : String → String → String
  /-- silo.RedirectURL. -/
  RedirectURL : String → String
  /-- silo.VideoIFrame. -/
  VideoIFrame : String → String
  /-- worker.GetBody: an error, or the body of the page. -/
  GetBody : ω → String → ω × Except String String
  /-- readability.ExtractContent: an error text, or the content. -/
  ExtractContent : String → Except String String
  /-- The digest md5 of a sequence of bytes. -/
  md5Sum : List Nat → List Nat
  /-- http.DetectContentType. -/
  DetectContentType : List Nat → String
  /-- The file server of the static assets, serving the request: it gives a
  status and a body. -/
  FileServer : ω → Context → ω × Nat × List Nat
  /-- The table storage.StatusValues (none: the key is absent). -/
  StatusValues : String → Option Int
  /-- Method OPML of opml.Folder: the document as text. -/
  OPML : OpmlFolder → String
  /-- The response headers that auth.Logout(c.Out, basePath) sets. -/
  Logout : String → List (String × String)

/-! ## Primitive steps -/

section Steps

variable {ω PI Src : Type}

/-- The state in which a handler starts: nothing called, nothing written. -/
def St.init (w : ω) : St ω Src :=
  { world := w, trace := [], status := none, payload := none }

/-- Record a call and the world it left. -/
def St.call (s : St ω Src) (c : Call) (w : ω) : St ω Src :=
  { s with world := w, trace := s.trace ++ [c] }

/-- c.Out.WriteHeader(code): the first header written is the one sent. -/
def St.WriteHeader (s : St ω Src) (code : Nat) : St ω Src :=
  match s.status with
  | none => { s with status := some code }
  | some _ => s

/-- c.JSON(code, data): write the header, then the encoded data. -/
def St.JSON (s : St ω Src) (code : Nat) (data : Payload Src) : St ω Src :=
  { s.WriteHeader code with payload := some data }

/-- The handler returns. -/
def Outcome.done (s : St ω Src) : Outcome ω Src :=
  { st := s, panicked := false }

/-- The handler panics. -/
def Outcome.panic (s : St ω Src) : Outcome ω Src :=
  { st := s, panicked := true }

/-- s.db.ListFolders(). -/
def dbListFolders (E : Env ω PI Src) (s : St ω Src) : St ω Src × List Folder :=
  let r := E.db.ListFolders s.world
  (s.call Call.ListFolders r.1, r.2)

/-- s.db.CreateFolder(title). -/
def dbCreateFolder (E : Env ω PI Src) (s : St ω Src) (title : String) :
    St ω Src × Option Folder :=
  let r := E.db.CreateFolder s.world title
  (s.call (Call.CreateFolder title r.2) r.1, r.2)

/-- s.db.ListFeeds(). -/
def dbListFeeds (E : Env ω PI Src) (s : St ω Src) : St ω Src × List Feed :=
  let r := E.db.ListFeeds s.world
  (s.call Call.ListFeeds r.1, r.2)

/-- s.db.GetFeed(id). -/
def dbGetFeed (E : Env ω PI Src) (s : St ω Src) (id : Int) : St ω Src × Option Feed :=
  let r := E.db.GetFeed s.world id
  (s.call (Call.GetFeed id) r.1, r.2)

/-- s.db.CreateFeed(title, description, link, feedLink, folderId). -/
def dbCreateFeed (E : Env ω PI Src) (s : St ω Src)
    (title description link feedLink : String) (folderId : Option Int) :
    St ω Src × Option Feed :=
  let r := E.db.CreateFeed s.world title description link feedLink folderId
  (s.call (Call.CreateFeed title description link feedLink folderId) r.1, r.2)

/-- s.db.RenameFeed(id, title). -/
def dbRenameFeed (E : Env ω PI Src) (s : St ω Src) (id : Int) (title : String) : St ω Src :=
  s.call (Call.RenameFeed id title) (E.db.RenameFeed s.world id title)

/-- s.db.UpdateFeedFolder(id, folderId). -/
def dbUpdateFeedFolder (E : Env ω PI Src) (s : St ω Src) (id : Int) (folderId : Option Int) :
    St ω Src :=
  s.call (Call.UpdateFeedFolder id folderId) (E.db.UpdateFeedFolder s.world id folderId)

/-- s.db.DeleteFeed(id). -/
def dbDeleteFeed (E : Env ω PI Src) (s : St ω Src) (id : Int) : St ω Src :=
  s.call (Call.DeleteFeed id) (E.db.DeleteFeed s.world id)

/-- s.db.CreateItems(items). -/
def dbCreateItems (E : Env ω PI Src) (s : St ω Src) (items : List Item) : St ω Src :=
  s.call (Call.CreateItems items) (E.db.CreateItems s.world items)

/-- s.db.SetFeedSize(id, size). -/
def dbSetFeedSize (E : Env ω PI Src) (s : St ω Src) (id : Int) (size : Int) : St ω Src :=
  s.call (Call.SetFeedSize id size) (E.db.SetFeedSize s.world id size)

/-- s.db.SyncSearch(). -/
def dbSyncSearch (E : Env ω PI Src) (s : St ω Src) : St ω Src :=
  s.call Call.SyncSearch (E.db.SyncSearch s.world)

/-- s.db.GetSettings(). -/
def dbGetSettings (E : Env ω PI Src) (s : St ω Src) : St ω Src × GoMap :=
  let r := E.db.GetSettings s.world
  (s.call Call.GetSettings r.1, r.2)

/-- s.db.UpdateSettings(settings). -/
def dbUpdateSettings (E : Env ω PI Src) (s : St ω Src) (settings : GoMap) : St ω Src × Bool :=
  let r := E.db.UpdateSettings s.world settings
  (s.call (Call.UpdateSettings settings) r.1, r.2)

/-- s.db.GetSettingsValueInt64(key). -/
def dbGetSettingsValueInt64 (E : Env ω PI Src) (s : St ω Src) (key : String) : St ω Src × Int :=
  let r := E.db.GetSettingsValueInt64 s.world key
  (s.call (Call.GetSettingsValueInt64 key) r.1, r.2)

/-- s.worker.RefreshFeeds(). -/
def workerRefreshFeeds (E : Env ω PI Src) (s : St ω Src) : St ω Src :=
  s.call Call.RefreshFeeds (E.worker.RefreshFeeds s.world)

/-- s.worker.SetRefreshRate(rate). -/
def workerSetRefreshRate (E : Env ω PI Src) (s : St ω Src) (rate : Int) : St ω Src :=
  s.call (Call.SetRefreshRate rate) (E.worker.SetRefreshRate s.world rate)

/-- s.worker.FindFavicons(). -/
def workerFindFavicons (E : Env ω PI Src) (s : St ω Src) : St ω Src :=
  s.call Call.FindFavicons (E.worker.FindFavicons s.world)

/-- s.worker.FindFeedFavicon(feed). -/
def workerFindFeedFavicon (E : Env ω PI Src) (s : St ω Src) (feed : Feed) : St ω Src :=
  s.call (Call.FindFeedFavicon feed) (E.worker.FindFeedFavicon s.world feed)

/-- worker.DiscoverFeed(url): a package function, not a call on s.db or
s.worker; it moves the world and leaves the trace alone. -/
def discoverFeed (E : Env ω PI Src) (s : St ω Src) (url : String) :
    St ω Src × Except String (DiscoverResult PI Src) :=
  let r := E.DiscoverFeed s.world url
  ({ s with world := r.1 }, r.2)

/-- worker.ConvertItems(items, feed): a package function as well. -/
def convertItems (E : Env ω PI Src) (s : St ω Src) (items : List PI) (feed : Feed) :
    St ω Src × List Item :=
  let r := E.ConvertItems s.world items feed
  ({ s with world := r.1 }, r.2)

/-- The conversion int64(x) of a float64: the integer part of x when that is
an int64, an implementation-dependent value otherwise. -/
def int64OfFloat64 (outOfRange : ℚ → Int) (x : ℚ) : Int :=
  let t := Int.tdiv x.num (x.den : Int)
  if -(2 : Int) ^ 63 ≤ t ∧ t < (2 : Int) ^ 63 then t else outOfRange x

/-! ## Handlers -/

/-- The handler handleFolderList of /api/folders (routes.go, 273-301). -/
def handleFolderList (E : Env ω PI Src) (c : Context) (s : St ω Src) : Outcome ω Src :=
  if c.Method = "GET" then
    let (s1, list) := dbListFolders E s
    Outcome.done (s1.JSON 200 (Payload.folderList list))
  else if c.Method = "POST" then
    match E.decodeFolderCreateForm c.Body with
    | none => Outcome.done (s.WriteHeader 400)
    | some body =>
      if body.Title.utf8ByteSize = 0 then
        Outcome.done (s.JSON 400 (Payload.stringMap [("error", "Folder title missing.")]))
      else
        let (s1, folder) := dbCreateFolder E s body.Title
        Outcome.done (s1.JSON 201 (Payload.folder folder))
  else
    Outcome.done (s.WriteHeader 405)

/-- The handler handleFeedRefresh of /api/feeds/refresh (routes.go, 389-404). -/
def handleFeedRefresh (E : Env ω PI Src) (c : Context) (s : St ω Src) : Outcome ω Src :=
  if c.Method = "POST" then
    let s1 := workerRefreshFeeds E s
    Outcome.done (s1.WriteHeader 200)
  else
    Outcome.done (s.WriteHeader 405)

/-- The body of the success case of handleFeedList, after CreateFeed returned
the pointer feed (routes.go, 591-602).  A nil feed panics at its first
dereference, in the arguments of ConvertItems. -/
def subscribe (E : Env ω PI Src) (s : St ω Src) (parsed : ParserFeed PI)
    (feed : Option Feed) : Outcome ω Src :=
  match feed with
  | none => Outcome.panic s
  | some fd =>
    let (s1, items) := convertItems E s parsed.Items fd
    let s2 :=
      if items.length > 0 then
        let a := dbCreateItems E s1 items
        let b := dbSetFeedSize E a fd.Id (items.length : Int)
        dbSyncSearch E b
      else s1
    let s3 := workerFindFeedFavicon E s2 fd
    Outcome.done (s3.JSON 200 (Payload.success (some fd)))

/-- The handler handleFeedList of /api/feeds (routes.go, 556-607). -/
def handleFeedList (E : Env ω PI Src) (c : Context) (s : St ω Src) : Outcome ω Src :=
  if c.Method = "GET" then
    let (s1, list) := dbListFeeds E s
    Outcome.done (s1.JSON 200 (Payload.feedList list))
  else if c.Method = "POST" then
    match E.decodeFeedCreateForm c.Body with
    | none => Outcome.done (s.WriteHeader 400)
    | some form =>
      match discoverFeed E s form.Url with
      | (s1, Except.error _) =>
        Outcome.done (s1.JSON 200 (Payload.stringMap [("status", "notfound")]))
      | (s1, Except.ok result) =>
        if result.Sources.length > 0 then
          Outcome.done (s1.JSON 200 (Payload.multiple result.Sources))
        else
          match result.Feed with
          | some parsed =>
            let (s2, feed) :=
              dbCreateFeed E s1 parsed.Title "" parsed.SiteURL result.FeedLink form.FolderID
            subscribe E s2 parsed feed
          | none => Outcome.done (s1.JSON 200 (Payload.stringMap [("status", "notfound")]))
  else
    Outcome.done s

/-- The type assertion v.(string): none when it panics. -/
def GoValue.assertString : GoValue → Option String
  | .string t => some t
  | _ => none

/-- The type assertion v.(float64): none when it panics. -/
def GoValue.assertFloat64 : GoValue → Option ℚ
  | .float64 x => some x
  | _ => none

/-- The comparison v == nil of an interface value. -/
def GoValue.isNil : GoValue → Bool
  | .null => true
  | _ => false

/-- The rename of a PUT on /api/feeds/:id (routes.go, 661-665); none is a
panic: reflect.TypeOf(title) is the nil Type for a nil title, and calling
Kind() on it panics. -/
def renameStep (E : Env ω PI Src) (s : St ω Src) (id : Int) (body : GoMap) : Option (St ω Src) :=
  match body.lookup "title" with
  | some title =>
    match title.kind with
    | none => none
    | some k =>
      if k = Kind.String then
        match title.assertString with
        | some t => some (dbRenameFeed E s id t)
        | none => none
      else some s
  | none => some s

/-- The move of a PUT on /api/feeds/:id (routes.go, 666-673); none is a panic. -/
def moveStep (E : Env ω PI Src) (s : St ω Src) (id : Int) (body : GoMap) : Option (St ω Src) :=
  match body.lookup "folder_id" with
  | some f_id =>
    if f_id.isNil then some (dbUpdateFeedFolder E s id none)
    else
      match f_id.kind with
      | none => none
      | some k =>
        if k = Kind.Float64 then
          match f_id.assertFloat64 with
          | some x => some (dbUpdateFeedFolder E s id (some (int64OfFloat64 E.int64OutOfRange x)))
          | none => none
        else some s
  | none => some s

/-- The two edits of a PUT on /api/feeds/:id, once the body is decoded, and the
answer 200 (routes.go, 661-674). -/
def editFeed (E : Env ω PI Src) (s : St ω Src) (id : Int) (body : GoMap) : Outcome ω Src :=
  match renameStep E s id body with
  | none => Outcome.panic s
  | some s1 =>
    match moveStep E s1 id body with
    | none => Outcome.panic s1
    | some s2 => Outcome.done (s2.WriteHeader 200)

/-- The handler handleFeed of /api/feeds/:id (routes.go, 635-681). -/
def handleFeed (E : Env ω PI Src) (c : Context) (s : St ω Src) : Outcome ω Src :=
  match c.VarInt64 "id" with
  | none => Outcome.done (s.WriteHeader 400)
  | some id =>
    if c.Method = "PUT" then
      match dbGetFeed E s id with
      | (s1, none) => Outcome.done (s1.WriteHeader 400)
      | (s1, some _) =>
        match E.decodeMap c.Body with
        | none => Outcome.done (s1.WriteHeader 400)
        | some body => editFeed E s1 id body
    else if c.Method = "DELETE" then
      let s1 := dbDeleteFeed E s id
      Outcome.done (s1.WriteHeader 204)
    else
      Outcome.done (s.WriteHeader 405)

/-- The handler handleSettings of /api/settings (routes.go, 866-892). -/
def handleSettings (E : Env ω PI Src) (c : Context) (s : St ω Src) : Outcome ω Src :=
  if c.Method = "GET" then
    let (s1, m) := dbGetSettings E s
    Outcome.done (s1.JSON 200 (Payload.settings m))
  else if c.Method = "PUT" then
    match E.decodeMap c.Body with
    | none => Outcome.done (s.WriteHeader 400)
    | some settings =>
      match dbUpdateSettings E s settings with
      | (s1, true) =>
        let s2 :=
          match settings.lookup "refresh_rate" with
          | some _ =>
            let (a, rate) := dbGetSettingsValueInt64 E s1 "refresh_rate"
            workerSetRefreshRate E a rate
          | none => s1
        Outcome.done (s2.WriteHeader 200)
      | (s1, false) => Outcome.done (s1.WriteHeader 400)
  else
    Outcome.done s

/-- The first loop of an import: the feeds at the top level of the document,
created without a folder (routes.go, 941-943). -/
def importFeeds (E : Env ω PI Src) : List OpmlFeed → St ω Src → St ω Src
  | [], s => s
  | f :: rest, s => importFeeds E rest (dbCreateFeed E s f.Title "" f.SiteUrl f.FeedUrl none).1

/-- The inner loop of an import: the feeds of one folder, created under the
pointer folder that CreateFolder returned (routes.go, 946-948).  Taking
the address of folder.Id panics when folder is nil. -/
def importFolderFeeds (E : Env ω PI Src) (folder : Option Folder) :
    List OpmlFeed → St ω Src → Outcome ω Src
  | [], s => Outcome.done s
  | ff :: rest, s =>
    match folder with
    | none => Outcome.panic s
    | some fo =>
      importFolderFeeds E folder rest
        (dbCreateFeed E s ff.Title "" ff.SiteUrl ff.FeedUrl (some fo.Id)).1

/-- The second loop of an import: the folders of the document
(routes.go, 944-949). -/
def importFolders (E : Env ω PI Src) : List OpmlFolder → St ω Src → Outcome ω Src
  | [], s => Outcome.done s
  | f :: rest, s =>
    let (s1, folder) := dbCreateFolder E s f.Title
    let o := importFolderFeeds E folder (E.AllFeeds f) s1
    if o.panicked then o else importFolders E rest o.st

/-- The handler handleOPMLImport of /opml/import (routes.go, 920-958). -/
def handleOPMLImport (E : Env ω PI Src) (c : Context) (s : St ω Src) : Outcome ω Src :=
  if c.Method = "POST" then
    match c.FormFile "opml" with
    | none => Outcome.done s
    | some file =>
      match E.opmlParse file with
      | none => Outcome.done (s.WriteHeader 400)
      | some doc =>
        let s1 := importFeeds E doc.Feeds s
        let o := importFolders E doc.Folders s1
        if o.panicked then o
        else
          let s2 := workerFindFavicons E o.st
          let s3 := workerRefreshFeeds E s2
          Outcome.done (s3.WriteHeader 200)
  else
    Outcome.done (s.WriteHeader 405)

/-! ## More primitive steps -/

/-- A new request on a server whose world is w and whose icon cache is cache:
nothing called, nothing written. -/
def St.start (w : ω) (cache : List (String × FeedIcon)) : St ω Src :=
  { world := w, trace := [], status := none, payload := none, headers := [], cache := cache }

/-- c.Out.Header().Set(key, value). -/
def St.setHeader (s : St ω Src) (key value : String) : St ω Src :=
  { s with headers := (key, value) :: s.headers }

/-- c.Out.Write(data): a write without a header written sends 200 first. -/
def St.Write (s : St ω Src) (data : Payload Src) : St ω Src :=
  { s.WriteHeader 200 with payload := some data }

/-- The assignment s.cache[key] = icon. -/
def St.cacheSet (s : St ω Src) (key : String) (icon : FeedIcon) : St ω Src :=
  { s with cache := (key, icon) :: s.cache }

/-- s.db.RenameFolder(id, title). -/
def dbRenameFolder (E : Env ω PI Src) (s : St ω Src) (id : Int) (title : String) : St ω Src :=
  s.call (Call.RenameFolder id title) (E.db.RenameFolder s.world id title)

/-- s.db.ToggleFolderExpanded(id, isExpanded). -/
def dbToggleFolderExpanded (E : Env ω PI Src) (s : St ω Src) (id : Int) (isExpanded : Bool) :
    St ω Src :=
  s.call (Call.ToggleFolderExpanded id isExpanded)
    (E.db.ToggleFolderExpanded s.world id isExpanded)

/-- s.db.DeleteFolder(id). -/
def dbDeleteFolder (E : Env ω PI Src) (s : St ω Src) (id : Int) : St ω Src :=
  s.call (Call.DeleteFolder id) (E.db.DeleteFolder s.world id)

/-- s.db.GetFeedErrors(). -/
def dbGetFeedErrors (E : Env ω PI Src) (s : St ω Src) : St ω Src × GoValue :=
  let r := E.db.GetFeedErrors s.world
  (s.call Call.GetFeedErrors r.1, r.2)

/-- s.db.FeedStats(). -/
def dbFeedStats (E : Env ω PI Src) (s : St ω Src) : St ω Src × GoValue :=
  let r := E.db.FeedStats s.world
  (s.call Call.FeedStats r.1, r.2)

/-- s.db.GetItem(id). -/
def dbGetItem (E : Env ω PI Src) (s : St ω Src) (id : Int) : St ω Src × Option Item :=
  let r := E.db.GetItem s.world id
  (s.call (Call.GetItem id) r.1, r.2)

/-- s.db.UpdateItemStatus(id, status). -/
def dbUpdateItemStatus (E : Env ω PI Src) (s : St ω Src) (id : Int) (status : Int) : St ω Src :=
  s.call (Call.UpdateItemStatus id status) (E.db.UpdateItemStatus s.world id status)

/-- s.db.ListItems(filter, limit, newestFirst, withContent). -/
def dbListItems (E : Env ω PI Src) (s : St ω Src) (filter : ItemFilter) (limit : Int)
    (newestFirst withContent : Bool) : St ω Src × List Item :=
  let r := E.db.ListItems s.world filter limit newestFirst withContent
  (s.call (Call.ListItems filter limit newestFirst withContent) r.1, r.2)

/-- s.db.MarkItemsRead(filter). -/
def dbMarkItemsRead (E : Env ω PI Src) (s : St ω Src) (filter : MarkFilter) : St ω Src :=
  s.call (Call.MarkItemsRead filter) (E.db.MarkItemsRead s.world filter)

/-- s.worker.FeedsPending(). -/
def workerFeedsPending (E : Env ω PI Src) (s : St ω Src) : St ω Src × Int :=
  let r := E.worker.FeedsPending s.world
  (s.call Call.FeedsPending r.1, r.2)

/-- worker.GetBody(url): a package function that fetches the page; the fetch is
recorded in the trace. -/
def getBody (E : Env ω PI Src) (s : St ω Src) (url : String) :
    St ω Src × Except String String :=
  let r := E.GetBody s.world url
  (s.call (Call.GetBody url) r.1, r.2)

/-- The file server serves the request: it writes its status and its body. -/
def fileServer (E : Env ω PI Src) (c : Context) (s : St ω Src) : St ω Src :=
  let r := E.FileServer s.world c
  ((s.call Call.FileServer r.1).WriteHeader r.2.1).Write (Payload.bytes r.2.2)

/-- The function filepath.Split on a system whose path separator is the slash
and that has no volume names: the path is cut after its last separator. -/
def filepathSplit (path : String) : String × String :=
  (String.mk (path.toList.reverse.dropWhile (fun ch => ch != '/')).reverse,
   String.mk (path.toList.reverse.takeWhile (fun ch => ch != '/')).reverse)

/-- The function strings.HasSuffix. -/
def hasSuffix (t suffix : String) : Bool :=
  suffix.toList.isSuffixOf t.toList

/-- One lowercase hexadecimal digit. -/
def hexDigit (n : Nat) : Char :=
  if n < 10 then Char.ofNat (48 + n) else Char.ofNat (87 + n)

/-- The verb %x of fmt on a slice of bytes: two lowercase hexadecimal digits per
byte. -/
def hexChars (bytes : List Nat) : List Char :=
  bytes.flatMap (fun b => [hexDigit (b / 16 % 16), hexDigit (b % 16)])

/-- The etag of a digest: the slice [:16] of its hexadecimal text; slicing a
shorter text panics (none). -/
def etagOf (digest : List Nat) : Option String :=
  if (hexChars digest).length < 16 then none
  else some (String.mk ((hexChars digest).take 16))

/-- The key of a feed in the icon cache: "icon:" and the id in base 10. -/
def cacheKey (id : Int) : String :=
  "icon:" ++ toString id

/-! ## More handlers -/

/-- The handler handleIndex of / (routes.go, 95-108). -/
def handleIndex (cfg : Config) (E : Env ω PI Src) (_c : Context) (s : St ω Src) :
    Outcome ω Src :=
  let (s1, settings) := dbGetSettings E s
  Outcome.done (s1.JSON 200
    (Payload.html "index.html" settings (cfg.Username != "" && cfg.Password != "")))

/-- The handler handleStatic of /static/*path (routes.go, 136-152). -/
def handleStatic (E : Env ω PI Src) (c : Context) (s : St ω Src) : Outcome ω Src :=
  let (dir, name) := filepathSplit (c.Vars "path")
  if dir = "" ∧ hasSuffix name ".html" = true then
    Outcome.done (s.WriteHeader 404)
  else
    Outcome.done (fileServer E c s)

/-- The handler handleManifest of /manifest.json (routes.go, 180-204). -/
def handleManifest (cfg : Config) (_E : Env ω PI Src) (_c : Context) (s : St ω Src) :
    Outcome ω Src :=
  Outcome.done (s.JSON 200 (Payload.manifest cfg.BasePath))

/-- The handler handleStatus of /api/status (routes.go, 232-245). -/
def handleStatus (E : Env ω PI Src) (_c : Context) (s : St ω Src) : Outcome ω Src :=
  let (s1, pending) := workerFeedsPending E s
  let (s2, stats) := dbFeedStats E s1
  Outcome.done (s2.JSON 200 (Payload.running pending stats))

/-- The handler handleFolder of /api/folders/:id (routes.go, 329-361). -/
def handleFolder (E : Env ω PI Src) (c : Context) (s : St ω Src) : Outcome ω Src :=
  match c.VarInt64 "id" with
  | none => Outcome.done (s.WriteHeader 400)
  | some id =>
    if c.Method = "PUT" then
      match E.decodeFolderUpdateForm c.Body with
      | none => Outcome.done (s.WriteHeader 400)
      | some body =>
        let s1 :=
          match body.Title with
          | some title => dbRenameFolder E s id title
          | none => s
        let s2 :=
          match body.IsExpanded with
          | some isExpanded => dbToggleFolderExpanded E s1 id isExpanded
          | none => s1
        Outcome.done (s2.WriteHeader 200)
    else if c.Method = "DELETE" then
      let s1 := dbDeleteFolder E s id
      Outcome.done (s1.WriteHeader 204)
    else
      Outcome.done s

/-- The handler handleFeedErrors of /api/feeds/errors (routes.go, 432-443). -/
def handleFeedErrors (E : Env ω PI Src) (_c : Context) (s : St ω Src) : Outcome ω Src :=
  let (s1, errors) := dbGetFeedErrors E s
  Outcome.done (s1.JSON 200 (Payload.value errors))

/-- The end of handleFeedIcon, once the icon is at hand (routes.go, 519-527). -/
def serveIcon (c : Context) (s : St ω Src) (icon : FeedIcon) : Outcome ω Src :=
  if c.Header "If-None-Match" = icon.etag then
    Outcome.done (s.WriteHeader 304)
  else
    Outcome.done
      (((s.setHeader "Content-Type" icon.ctype).setHeader "Etag" icon.etag).Write
        (Payload.bytes icon.bytes))

/-- The handler handleFeedIcon of /api/feeds/:id/icon (routes.go, 477-528). -/
def handleFeedIcon (E : Env ω PI Src) (c : Context) (s : St ω Src) : Outcome ω Src :=
  match c.VarInt64 "id" with
  | none => Outcome.done (s.WriteHeader 400)
  | some id =>
    let cachekey := cacheKey id
    match s.cache.lookup cachekey with
    | some cachedat => serveIcon c s cachedat
    | none =>
      match dbGetFeed E s id with
      | (s1, none) => Outcome.done (s1.WriteHeader 404)
      | (s1, some feed) =>
        match feed.Icon with
        | none => Outcome.done (s1.WriteHeader 404)
        | some icon =>
          match etagOf (E.md5Sum icon) with
          | none => Outcome.panic s1
          | some etag =>
            let cachedat : FeedIcon :=
              { ctype := E.DetectContentType icon, bytes := icon, etag := etag }
            serveIcon c (s1.cacheSet cachekey cachedat) cachedat

/-- The handler handleItem of /api/items/:id (routes.go, 709-754). -/
def handleItem (E : Env ω PI Src) (c : Context) (s : St ω Src) : Outcome ω Src :=
  match c.VarInt64 "id" with
  | none => Outcome.done (s.WriteHeader 400)
  | some id =>
    if c.Method = "GET" then
      match dbGetItem E s id with
      | (s1, none) => Outcome.done (s1.WriteHeader 400)
      | (s1, some item) =>
        let (s2, item1) :=
          if E.IsAPossibleLink item.Link = false then
            match dbGetFeed E s1 item.FeedId with
            | (a, some feed) => (a, { item with Link := E.AbsoluteUrl item.Link feed.Link })
            | (a, none) => (a, item)
          else (s1, item)
        let item2 := { item1 with Content := E.Sanitize item1.Link item1.Content }
        Outcome.done (s2.JSON 200 (Payload.item (some item2)))
    else if c.Method = "PUT" then
      match E.decodeItemUpdateForm c.Body with
      | none => Outcome.done (s.WriteHeader 400)
      | some body =>
        let s1 :=
          match body.Status with
          | some status => dbUpdateItemStatus E s id status
          | none => s
        Outcome.done (s1.WriteHeader 200)
    else
      Outcome.done (s.WriteHeader 405)

/-- The filter that a GET on /api/items builds from the query
(routes.go, 795-810); a status that is not in StatusValues gives the zero
status. -/
def itemFilter (E : Env ω PI Src) (c : Context) : ItemFilter :=
  { FolderID := c.QueryInt64 "folder_id"
    FeedID := c.QueryInt64 "feed_id"
    After := c.QueryInt64 "after"
    Status :=
      if (c.Query "status").utf8ByteSize ≠ 0 then
        some ((E.StatusValues (c.Query "status")).getD 0)
      else none
    Search :=
      if (c.Query "search").utf8ByteSize ≠ 0 then some (c.Query "search") else none }

/-- The handler handleItemList of /api/items (routes.go, 782-838). -/
def handleItemList (E : Env ω PI Src) (c : Context) (s : St ω Src) : Outcome ω Src :=
  if c.Method = "GET" then
    let perPage : Nat := 20
    let filter := itemFilter E c
    let newestFirst : Bool := c.Query "oldest_first" != "true"
    let (s1, items) := dbListItems E s filter ((perPage + 1 : Nat) : Int) newestFirst false
    let (hasMore, items1) :=
      if items.length = perPage + 1 then (true, items.take perPage) else (false, items)
    Outcome.done (s1.JSON 200 (Payload.itemList items1 hasMore))
  else if c.Method = "PUT" then
    let filter : MarkFilter :=
      { FolderID := c.QueryInt64 "folder_id", FeedID := c.QueryInt64 "feed_id" }
    let s1 := dbMarkItemsRead E s filter
    Outcome.done (s1.WriteHeader 200)
  else
    Outcome.done (s.WriteHeader 405)

/-- The entry of a feed in an exported document. -/
def exportFeed (feed : Feed) : OpmlFeed :=
  { Title := feed.Title, FeedUrl := feed.FeedLink, SiteUrl := feed.Link }

/-- The read m[id] of the map feedsByFolderID: the empty slice for a missing
key. -/
def mapGet (m : List (Int × List Feed)) (id : Int) : List Feed :=
  (m.lookup id).getD []

/-- The assignment m[id] = feeds of the map feedsByFolderID. -/
def mapSet (m : List (Int × List Feed)) (id : Int) (feeds : List Feed) :
    List (Int × List Feed) :=
  (id, feeds) :: m.filter (fun p => p.1 != id)

/-- The first loop of an export: the feeds without folder go to the top level
of the document, the others to the map, under their folder
(routes.go, 1002-1014). -/
def exportSplit : List Feed → List OpmlFeed × List (Int × List Feed) →
    List OpmlFeed × List (Int × List Feed)
  | [], acc => acc
  | feed :: rest, (top, byFolder) =>
    match feed.FolderId with
    | none => exportSplit rest (top ++ [exportFeed feed], byFolder)
    | some id => exportSplit rest (top, mapSet byFolder id (mapGet byFolder id ++ [feed]))

/-- The second loop of an export: one entry per folder that has feeds
(routes.go, 1016-1030). -/
def exportFolders (byFolder : List (Int × List Feed)) :
    List Folder → List OpmlFolder → List OpmlFolder
  | [], acc => acc
  | folder :: rest, acc =>
    if (mapGet byFolder folder.Id).length = 0 then exportFolders byFolder rest acc
    else
      exportFolders byFolder rest
        (acc ++ [OpmlFolder.mk folder.Title ((mapGet byFolder folder.Id).map exportFeed) []])

/-- The document that an export builds from the feeds and folders of the
storage. -/
def exportDoc (feeds : List Feed) (folders : List Folder) : OpmlFolder :=
  let r := exportSplit feeds ([], [])
  OpmlFolder.mk "" r.1 (exportFolders r.2 folders [])

/-- The handler handleOPMLExport of /opml/export (routes.go, 986-1034). -/
def handleOPMLExport (E : Env ω PI Src) (c : Context) (s : St ω Src) : Outcome ω Src :=
  if c.Method = "GET" then
    let s1 := s.setHeader "Content-Type" "application/xml; charset=utf-8"
    let s2 := s1.setHeader "Content-Disposition" "attachment; filename=\"subscriptions.opml\""
    let (s3, feeds) := dbListFeeds E s2
    let (s4, folders) := dbListFolders E s3
    Outcome.done (s4.Write (Payload.text (E.OPML (exportDoc feeds folders))))
  else
    Outcome.done s

/-- The handler handlePageCrawl of /page (routes.go, 1062-1098). -/
def handlePageCrawl (E : Env ω PI Src) (c : Context) (s : St ω Src) : Outcome ω Src :=
  let url0 := c.Query "url"
  let url := if E.RedirectURL url0 ≠ "" then E.RedirectURL url0 else url0
  if E.VideoIFrame url ≠ "" then
    Outcome.done (s.JSON 200
      (Payload.stringMap [("content", E.Sanitize url (E.VideoIFrame url))]))
  else
    match getBody E s url with
    | (s1, Except.error _) => Outcome.done (s1.WriteHeader 400)
    | (s1, Except.ok body) =>
      match E.ExtractContent body with
      | Except.error err =>
        Outcome.done (s1.JSON 200 (Payload.stringMap [("content", "error: " ++ err)]))
      | Except.ok content =>
        Outcome.done (s1.JSON 200 (Payload.stringMap [("content", E.Sanitize url content)]))

/-- The handler handleLogout of /logout (routes.go, 1126-1137). -/
def handleLogout (cfg : Config) (E : Env ω PI Src) (_c : Context) (s : St ω Src) :
    Outcome ω Src :=
  let s1 := { s with headers := E.Logout cfg.BasePath ++ s.headers }
  Outcome.done (s1.WriteHeader 204)

/-- The handlers that routes.go defines. -/
inductive Route where
  | index
  | static
  | manifest
  | status
  | folderList
  | folder
  | feedRefresh
  | feedErrors
  | feedIcon
  | feedList
  | feed
  | item
  | itemList
  | settings
  | opmlImport
  | opmlExport
  | pageCrawl
  | logout
  deriving DecidableEq, Repr

/-- The handler of a route. -/
def serve (cfg : Config) (E : Env ω PI Src) : Route → Context → St ω Src → Outcome ω Src
  | .index => handleIndex cfg E
  | .static => handleStatic E
  | .manifest => handleManifest cfg E
  | .status => handleStatus E
  | .folderList => handleFolderList E
  | .folder => handleFolder E
  | .feedRefresh => handleFeedRefresh E
  | .feedErrors => handleFeedErrors E
  | .feedIcon => handleFeedIcon E
  | .feedList => handleFeedList E
  | .feed => handleFeed E
  | .item => handleItem E
  | .itemList => handleItemList E
  | .settings => handleSettings E
  | .opmlImport => handleOPMLImport E
  | .opmlExport => handleOPMLExport E
  | .pageCrawl => handlePageCrawl E
  | .logout => handleLogout cfg E

/-! ## The router -/

/-- A middleware that handler() installs: the gzip middleware, or the
authentication middleware with its fields. -/
inductive Middleware where
  | gzip
  | auth (BasePath Username Password : String) (Public : List String)
  deriving DecidableEq, Repr

/-- Is this the authentication middleware. -/
def Middleware.isAuth : Middleware → Bool
  | .auth _ _ _ _ => true
  | .gzip => false

/-- What a path of the router leads to: a handler of routes.go, or handleFever,
which another file defines. -/
inductive Target where
  | route (r : Route)
  | fever
  deriving DecidableEq, Repr

/-- The router that handler() builds: its base path, the middlewares in the
order of their installation, the paths in the order of their registration. -/
structure Router where
  BasePath : String
  middlewares : List Middleware
  routes : List (String × Target)
  deriving DecidableEq, Repr

/-- router.NewRouter(basePath). -/
def NewRouter (basePath : String) : Router :=
  { BasePath := basePath, middlewares := [], routes := [] }

/-- Method Use of the router: install a middleware. -/
def Router.Use (r : Router) (m : Middleware) : Router :=
  { r with middlewares := r.middlewares ++ [m] }

/-- Method For of the router: register the handler of a path. -/
def Router.For (r : Router) (path : String) (t : Target) : Router :=
  { r with routes := r.routes ++ [(path, t)] }

/-- The function handler of the server (routes.go, 31-67). -/
def handler (cfg : Config) : Router :=
  let r := NewRouter cfg.BasePath
  let r := r.Use Middleware.gzip
  let r :=
    if cfg.Username ≠ "" ∧ cfg.Password ≠ "" then
      r.Use (Middleware.auth cfg.BasePath cfg.Username cfg.Password ["/static", "/fever"])
    else r
  let r := r.For "/" (Target.route Route.index)
  let r := r.For "/manifest.json" (Target.route Route.manifest)
  let r := r.For "/static/*path" (Target.route Route.static)
  let r := r.For "/api/status" (Target.route Route.status)
  let r := r.For "/api/folders" (Target.route Route.folderList)
  let r := r.For "/api/folders/:id" (Target.route Route.folder)
  let r := r.For "/api/feeds" (Target.route Route.feedList)
  let r := r.For "/api/feeds/refresh" (Target.route Route.feedRefresh)
  let r := r.For "/api/feeds/errors" (Target.route Route.feedErrors)
  let r := r.For "/api/feeds/:id/icon" (Target.route Route.feedIcon)
  let r := r.For "/api/feeds/:id" (Target.route Route.feed)
  let r := r.For "/api/items" (Target.route Route.itemList)
  let r := r.For "/api/items/:id" (Target.route Route.item)
  let r := r.For "/api/settings" (Target.route Route.settings)
  let r := r.For "/opml/import" (Target.route Route.opmlImport)
  let r := r.For "/opml/export" (Target.route Route.opmlExport)
  let r := r.For "/page" (Target.route Route.pageCrawl)
  let r := r.For "/logout" (Target.route Route.logout)
  let r := r.For "/fever/" Target.fever
  r

/-! ## Conditions on the environment -/

/-- The storage returns a folder (not nil) from CreateFolder for the title of
every folder of the list that has feeds. -/
def FoldersCreated (E : Env ω PI Src) (fs : List OpmlFolder) : Prop :=
  ∀ (w : ω) (f : OpmlFolder), f ∈ fs → E.AllFeeds f ≠ [] →
    (E.db.CreateFolder w f.Title).2 ≠ none

/-- The rename that the body of a PUT on /api/feeds/:id asks for: RenameFeed
with the title, when the key title has a string value. -/
def renameCalls (id : Int) (body : GoMap) : List Call :=
  match body.lookup "title" with
  | some (GoValue.string t) => [Call.RenameFeed id t]
  | _ => []

/-- The move that the body of a PUT on /api/feeds/:id asks for: UpdateFeedFolder
with nil when the key folder_id is null, with the number converted to int64
when it is a number. -/
def moveCalls (outOfRange : ℚ → Int) (id : Int) (body : GoMap) : List Call :=
  match body.lookup "folder_id" with
  | some GoValue.null => [Call.UpdateFeedFolder id none]
  | some (GoValue.float64 x) => [Call.UpdateFeedFolder id (some (int64OfFloat64 outOfRange x))]
  | _ => []

/-- The feeds of the folder id, in the order of the list. -/
def feedsOfFolder (feeds : List Feed) (id : Int) : List Feed :=
  feeds.filter (fun f => f.FolderId = some id)

/-- The feeds without folder, in the order of the list. -/
def feedsWithoutFolder (feeds : List Feed) : List Feed :=
  feeds.filter (fun f => f.FolderId = none)

/-- The folders that have at least one feed, in the order of the list. -/
def foldersWithFeeds (feeds : List Feed) (folders : List Folder) : List Folder :=
  folders.filter (fun fo => !(feedsOfFolder feeds fo.Id).isEmpty)

/-- All the feed entries of a document: those at the top level, then those of
its folders. -/
def docEntries (doc : OpmlFolder) : List OpmlFeed :=
  doc.Feeds ++ doc.Folders.flatMap (fun f => f.Feeds)

/-- The referential condition of an export: the ids of the folders are pairwise
distinct and the folder of every feed is nil or one of them. -/
def Referential (feeds : List Feed) (folders : List Folder) : Prop :=
  (folders.map (fun fo => fo.Id)).Nodup ∧
  ∀ f ∈ feeds, ∀ id : Int, f.FolderId = some id → id ∈ folders.map (fun fo => fo.Id)

/-- The calls that importing the exported entry of a folder makes, when
CreateFolder returned the folder created: the CreateFolder with the title of
the folder, then one CreateFeed under the id of created for every feed of the
folder, with its title, site url and feed url. -/
def reimportCalls (feeds : List Feed) (fo : Folder) (created : Folder) : List Call :=
  Call.CreateFolder fo.Title (some created) ::
    (feedsOfFolder feeds fo.Id).map
      (fun f => Call.CreateFeed f.Title "" f.Link f.FeedLink (some created.Id))

/-- The entries of an icon cache are well formed when the etag of each is the
one that handleFeedIcon computes from its bytes. -/
def CacheWellFormed (E : Env ω PI Src) (cache : List (String × FeedIcon)) : Prop :=
  ∀ p ∈ cache, etagOf (E.md5Sum p.2.bytes) = some p.2.etag

/-- The bytes of the icon that a request for the icon of a feed finds: those of
the entry of the cache or else, those of the feed in the storage. -/
def foundIconBytes (E : Env ω PI Src) (w : ω) (cache : List (String × FeedIcon)) (id : Int) :
    Option (List Nat) :=
  match cache.lookup (cacheKey id) with
  | some icon => some icon.bytes
  | none =>
    match (E.db.GetFeed w id).2 with
    | some feed => feed.Icon
    | none => none

/-- The first 16 lowercase hexadecimal characters of the MD5 digest of the
bytes. -/
def md5Etag (E : Env ω PI Src) (bytes : List Nat) : String :=
  String.mk ((hexChars (E.md5Sum bytes)).take 16)

/-- An outcome is clean when it does not end with the status 400 after a call
of a method of the worker. -/
def Clean400 (o : Outcome ω Src) : Prop :=
  o.st.status = some 400 → ∀ k ∈ o.st.trace, k.isWorker = false

/-- The environment E with another worker method FindFeedFavicon. -/
def withFindFeedFavicon (E : Env ω PI Src) (find : ω → Feed → ω) : Env ω PI Src :=
  { E with worker := { E.worker with FindFeedFavicon := find } }

/-- The calls that importing one folder of a document makes, when CreateFolder
returned the folder created: the CreateFolder, then one CreateFeed under the
id of created for every feed of AllFeeds. -/
def folderCalls (allFeeds : OpmlFolder → List OpmlFeed) (f : OpmlFolder) (created : Folder) :
    List Call :=
  Call.CreateFolder f.Title (some created) ::
    (allFeeds f).map (fun ff => Call.CreateFeed ff.Title "" ff.SiteUrl ff.FeedUrl (some created.Id))

/-- The calls that importing one folder of a document makes, for the pointer
that CreateFolder returned: those of folderCalls for a folder, the CreateFolder
alone for nil. -/
def folderCallsOpt (allFeeds : OpmlFolder → List OpmlFeed) (f : OpmlFolder) :
    Option Folder → List Call
  | some created => folderCalls allFeeds f created
  | none => [Call.CreateFolder f.Title none]

/-- The value of a lowercase hexadecimal digit, read from the table of the
digits; no value for any other character. -/
def hexValue (ch : Char) : Option Nat :=
  if ch = '0' then some 0 else if ch = '1' then some 1 else if ch = '2' then some 2
  else if ch = '3' then some 3 else if ch = '4' then some 4 else if ch = '5' then some 5
  else if ch = '6' then some 6 else if ch = '7' then some 7 else if ch = '8' then some 8
  else if ch = '9' then some 9 else if ch = 'a' then some 10 else if ch = 'b' then some 11
  else if ch = 'c' then some 12 else if ch = 'd' then some 13 else if ch = 'e' then some 14
  else if ch = 'f' then some 15 else none

/-- The bytes that a text of lowercase hexadecimal digits writes, two digits per
byte, the high digit first; none when a character is no such digit or a digit
is left over. -/
def decodeHex : List Char → Option (List Nat)
  | [] => some []
  | [_] => none
  | hi :: lo :: rest =>
    match hexValue hi, hexValue lo, decodeHex rest with
    | some h, some l, some bytes => some ((16 * h + l) :: bytes)
    | _, _, _ => none

end Steps

/-! ## A small concrete environment

The world is a counter that numbers the rows created so far. -/

/-- A storage that numbers the folders and feeds it creates, knows no feed by id,
knows the item 7 only, and accepts every settings update but the empty one. -/
def sampleStorage : Storage Nat where
  ListFolders w := (w, [])
  CreateFolder w title := (w + 1, some { Id := (w : Int), Title := title, IsExpanded := true })
  ListFeeds w := (w, [])
  GetFeed w _ := (w, none)
  CreateFeed w title _ link feedLink folderId :=
    (w + 1, some { Id := (w : Int), FolderId := folderId, Title := title, Link := link,
                   FeedLink := feedLink, Icon := none })
  RenameFeed w _ _ := w
  UpdateFeedFolder w _ _ := w
  DeleteFeed w _ := w
  CreateItems w items := w + items.length
  SetFeedSize w _ _ := w
  SyncSearch w := w
  GetSettings w := (w, [])
  UpdateSettings w settings := (w, !settings.isEmpty)
  GetSettingsValueInt64 w _ := (w, 30)
  RenameFolder w _ _ := w
  ToggleFolderExpanded w _ _ := w
  DeleteFolder w _ := w
  GetFeedErrors w := (w, GoValue.object [])
  FeedStats w := (w, GoValue.array [])
  GetItem w id :=
    (w, if id = 7 then some { FeedId := 3, Link := "/post", Content := "text" } else none)
  UpdateItemStatus w _ _ := w
  ListItems w _ _ _ _ := (w, [])
  MarkItemsRead w _ := w

/-- A worker whose methods leave the world alone. -/
def sampleWorker : Worker Nat where
  RefreshFeeds w := w
  SetRefreshRate w _ := w
  FindFavicons w := w
  FindFeedFavicon w _ := w
  FeedsPending w := (w, 0)

/-- An OPML document: one feed at the top level and one folder of two feeds. -/
def sampleDoc : OpmlFolder :=
  OpmlFolder.mk "" [{ Title := "a", FeedUrl := "a.xml", SiteUrl := "a.org" }]
    [OpmlFolder.mk "News"
      [{ Title := "b", FeedUrl := "b.xml", SiteUrl := "b.org" },
       { Title := "c", FeedUrl := "c.xml", SiteUrl := "c.org" }] []]

/-- An environment over sampleStorage: the url "page" has two candidate
sources, the url "feed" is a feed of two items, the url "empty" is a feed
without items, every other url fails; a body decodes to the form whose
title (or url) it is; the body "rate" decodes to a map with the key
refresh_rate, the body "bad" to the empty map; the file "doc" parses to
sampleDoc; a folder update carries the body as its title; a link is possible
when it starts with http; the sanitizer is the identity; the network is down;
the digest of md5 is the MD5 digest for the bytes 1, 2, 3 and a stand-in of
sixteen equal bytes for every other input. -/
def sampleEnv : Env Nat String String where
  db := sampleStorage
  worker := sampleWorker
  DiscoverFeed w url :=
    if url = "page" then
      (w, Except.ok { Feed := none, FeedLink := "", Sources := ["one", "two"] })
    else if url = "feed" then
      (w, Except.ok { Feed := some { Title := "t", SiteURL := "site", Items := ["x", "y"] },
                      FeedLink := "feed", Sources := [] })
    else if url = "empty" then
      (w, Except.ok { Feed := some { Title := "t", SiteURL := "site", Items := [] },
                      FeedLink := "empty", Sources := [] })
    else (w, Except.error "not found")
  ConvertItems w items feed :=
    (w, items.map (fun i => { FeedId := feed.Id, Link := i, Content := "" }))
  decodeFolderCreateForm body := some { Title := body }
  decodeFeedCreateForm body := some { Url := body, FolderID := none }
  decodeMap body :=
    if body = "rate" then some [("refresh_rate", GoValue.float64 30)]
    else if body = "bad" then some []
    else none
  opmlParse file := if file = "doc" then some sampleDoc else none
  AllFeeds f := f.Feeds
  int64OutOfRange _ := 0
  decodeFolderUpdateForm body := some { Title := some body, IsExpanded := none }
  decodeItemUpdateForm _ := some { Status := none }
  IsAPossibleLink link := "http".toList.isPrefixOf link.toList
  AbsoluteUrl link base := base ++ link
  Sanitize _ input := input
  RedirectURL _ := ""
  VideoIFrame _ := ""
  GetBody w _ := (w, Except.error "no network")
  ExtractContent body := Except.ok body
  md5Sum b :=
    if b = [1, 2, 3] then
      [0x52, 0x89, 0xdf, 0x73, 0x7d, 0xf5, 0x73, 0x26, 0xfc, 0xdd, 0x22, 0x59, 0x7a, 0xfb,
       0x1f, 0xac]
    else List.replicate 16 (b.length % 256)
  DetectContentType _ := "image/png"
  FileServer w _ := (w, 200, [])
  StatusValues _ := none
  OPML _ := ""
  Logout _ := []

/-- A request context with the given method and body, the path variable id = 7
and the uploaded file "doc" under the name opml. -/
def sampleContext (method body : String) : Context where
  Method := method
  Body := body
  VarInt64 name := if name = "id" then some 7 else none
  FormFile name := if name = "opml" then some "doc" else none


/-- An environment like sampleEnv whose storage lists the folders 1 (News) and
2 (Empty) and the feeds 10 (without folder), 11 and 12 (in folder 1), whose
OPML text of a document is "export", and whose parser reads that text as the
document exported from these feeds and folders. -/
def exportEnv : Env Nat String String :=
  { sampleEnv with
    db :=
      { sampleStorage with
        ListFolders := fun w =>
          (w, [{ Id := 1, Title := "News", IsExpanded := true },
               { Id := 2, Title := "Empty", IsExpanded := true }])
        ListFeeds := fun w =>
          (w, [{ Id := 10, FolderId := none, Title := "a", Link := "a.org", FeedLink := "a.xml",
                 Icon := none },
               { Id := 11, FolderId := some 1, Title := "b", Link := "b.org",
                 FeedLink := "b.xml", Icon := none },
               { Id := 12, FolderId := some 1, Title := "c", Link := "c.org",
                 FeedLink := "c.xml", Icon := none }]) }
    OPML := fun _ => "export"
    opmlParse := fun file => if file = "export" then some sampleDoc else none }

/-- A request context for /opml/import: a POST that uploads the text "export"
under the name opml. -/
def uploadContext : Context :=
  { sampleContext "POST" "" with
    FormFile := fun name => if name = "opml" then some "export" else none }

/-- A request context for /page: a GET with the query parameter url. -/
def pageContext (url : String) : Context :=
  { sampleContext "GET" "" with Query := fun name => if name = "url" then url else "" }

/-- A request context for /api/items with the given method and the integer
query parameters folder_id = 4 and after = 9 (feed_id does not parse). -/
def itemsContext (method : String) : Context :=
  { sampleContext method "" with
    QueryInt64 := fun name =>
      if name = "folder_id" then some 4 else if name = "after" then some 9 else none }

/-- An environment like sampleEnv whose network is up (the body of a page is
its url) and whose storage lists 21 items. -/
def onlineEnv : Env Nat String String :=
  { sampleEnv with
    db :=
      { sampleStorage with
        ListItems := fun w _ _ _ _ =>
          (w, List.replicate 21 { FeedId := 1, Link := "http://x", Content := "" }) }
    GetBody := fun w url => (w, Except.ok url) }

/-- A request context for the static files: a GET with the path variable
path. -/
def staticContext (path : String) : Context :=
  { sampleContext "GET" "" with Vars := fun name => if name = "path" then path else "" }

/-- An environment like sampleEnv whose storage knows every feed, with an icon
of three bytes; the body "colour" decodes to a map with the keys colour and
title, the body "title" to the same map without the key colour, the body
"null" to a map whose title and folder_id are null, the body "nulltitle" to
a map whose title is null, every other body to the empty map. -/
def knownFeedEnv : Env Nat String String :=
  { sampleEnv with
    db :=
      { sampleStorage with
        GetFeed := fun w id =>
          (w, some { Id := id, FolderId := none, Title := "old", Link := "site",
                     FeedLink := "feed", Icon := some [1, 2, 3] }) }
    decodeMap := fun body =>
      if body = "colour" then
        some [("colour", GoValue.string "red"), ("title", GoValue.string "x")]
      else if body = "title" then some [("title", GoValue.string "x")]
      else if body = "null" then some [("title", GoValue.null), ("folder_id", GoValue.null)]
      else if body = "nulltitle" then some [("title", GoValue.null)]
      else some [] }

/-- An environment like knownFeedEnv whose sanitizer shows what it was given:
the base, a bar, the input. -/
def repairEnv : Env Nat String String :=
  { knownFeedEnv with Sanitize := fun base input => base ++ "|" ++ input }

/-- An environment like sampleEnv whose storage returns nil from every
CreateFeed. -/
def nilFeedEnv : Env Nat String String :=
  { sampleEnv with db := { sampleStorage with CreateFeed := fun w _ _ _ _ _ => (w, none) } }

/-- An environment like sampleEnv whose storage returns nil from every
CreateFolder. -/
def nilFolderEnv : Env Nat String String :=
  { sampleEnv with db := { sampleStorage with CreateFolder := fun w _ => (w, none) } }

/-- An environment like exportEnv whose storage returns nil from every
CreateFolder. -/
def nilFolderExportEnv : Env Nat String String :=
  { exportEnv with db := { exportEnv.db with CreateFolder := fun w _ => (w, none) } }

/-- An OPML document: one feed at the top level, one folder of two feeds and
one folder without feeds. -/
def emptyFolderDoc : OpmlFolder :=
  OpmlFolder.mk "" [{ Title := "a", FeedUrl := "a.xml", SiteUrl := "a.org" }]
    [OpmlFolder.mk "News"
      [{ Title := "b", FeedUrl := "b.xml", SiteUrl := "b.org" },
       { Title := "c", FeedUrl := "c.xml", SiteUrl := "c.org" }] [],
     OpmlFolder.mk "Empty" [] []]

/-- An environment like sampleEnv whose storage returns nil from CreateFolder
for the title "Empty", and whose file "doc" parses to emptyFolderDoc. -/
def emptyFolderEnv : Env Nat String String :=
  { sampleEnv with
    db :=
      { sampleStorage with
        CreateFolder := fun w title =>
          if title = "Empty" then (w, none)
          else (w + 1, some { Id := (w : Int), Title := title, IsExpanded := true }) }
    opmlParse := fun file => if file = "doc" then some emptyFolderDoc else none }

/-! ## The merge step of the worker

The storage and the worker are not in routes.go; the step that persists the
items of a feed is modelled from the specification. -/

/-- Modelled from the spec: the normalized item that the parser produces
(section 4.3), missing from the sources: title, link, publication timestamp if
present, content body, stable source identifier if the format provides one. -/
structure ParsedItem where
  title : String
  link : String
  date : Option String
  content : String
  guid : Option String
  deriving DecidableEq, Repr

/-- Modelled from the spec: the stable identifier of an item within its feed
(section 3), missing from the sources: the permanent identifier of the source
entry or, when absent, a content fingerprint (title+link+date). -/
def fingerprint (i : ParsedItem) : String :=
  match i.guid with
  | some g => g
  | none => i.title ++ i.link ++ i.date.getD ""

/-- Modelled from the spec: a stored item (section 3), missing from the sources:
it belongs to one feed and has its fingerprint. -/
structure StoredItem where
  feedId : Int
  fingerprint : String
  item : ParsedItem
  deriving DecidableEq, Repr

/-- Modelled from the spec: the operation Merge of Item Merge/Dedup (section 4.5),
missing from the sources: compute the fingerprint of each item, ask the storage
which fingerprints exist for the feed, persist only the unseen subset in source
order, return the count of newly inserted items. -/
def Merge (store : List StoredItem) (feedId : Int) (items : List ParsedItem) :
    List StoredItem × Nat :=
  let existing := (store.filter (fun r => r.feedId = feedId)).map (fun r => r.fingerprint)
  let unseen := items.filter (fun i => !(existing.contains (fingerprint i)))
  (store ++ unseen.map (fun i => { feedId := feedId, fingerprint := fingerprint i, item := i }),
   unseen.length)

/-! ## Theorems -/

section Theorems

variable {ω PI Src : Type}

/-- Adding the bytes of the characters of a string gives zero only for the
string without characters. -/
theorem utf8ByteSize_go_eq_zero (cs : List Char) : String.utf8ByteSize.go cs = 0 ↔ cs = [] := by
  cases cs with
  | nil => simp [String.utf8ByteSize.go]
  | cons c cs =>
    have h := Char.utf8Size_pos c
    simp [String.utf8ByteSize.go]
    omega

/-- The length in bytes of a string (Go len) is zero exactly for the empty
string. -/
theorem utf8ByteSize_eq_zero (t : String) : t.utf8ByteSize = 0 ↔ t = "" := by
  cases t with
  | mk cs =>
    rw [String.utf8ByteSize, utf8ByteSize_go_eq_zero]
    constructor
    · intro h; subst h; rfl
    · intro h; exact congrArg String.data h

/-- C1: a POST on /api/folders whose body decodes to a form with an empty title
is answered 400 with the error "Folder title missing." and calls nothing; with
a non-empty title it calls CreateFolder once, with that title, and answers 201
with the folder that the storage returned. -/
theorem handleFolderList_validates_title (E : Env ω PI Src) (c : Context) (w : ω)
    (body : FolderCreateForm) (hm : c.Method = "POST")
    (hd : E.decodeFolderCreateForm c.Body = some body) :
    (body.Title = "" →
      handleFolderList E c (St.init w) = Outcome.done
        { world := w, trace := [], status := some 400,
          payload := some (Payload.stringMap [("error", "Folder title missing.")]) }) ∧
    (body.Title ≠ "" →
      handleFolderList E c (St.init w) = Outcome.done
        { world := (E.db.CreateFolder w body.Title).1,
          trace := [Call.CreateFolder body.Title (E.db.CreateFolder w body.Title).2],
          status := some 201,
          payload := some (Payload.folder (E.db.CreateFolder w body.Title).2) }) := by
  have hg : ¬ c.Method = "GET" := by rw [hm]; decide
  constructor
  · intro ht
    have h0 : body.Title.utf8ByteSize = 0 := (utf8ByteSize_eq_zero _).2 ht
    simp [handleFolderList, hg, hm, hd, h0, St.JSON, St.WriteHeader, St.init]
  · intro ht
    have h0 : ¬ body.Title.utf8ByteSize = 0 := fun h => ht ((utf8ByteSize_eq_zero _).1 h)
    simp [handleFolderList, hg, hm, hd, h0, St.JSON, St.WriteHeader, St.init, dbCreateFolder,
      St.call]

/-- Witness of C1 in the sample environment: the title "News" creates folder 0
and is answered 201; the empty title is answered 400 and creates nothing. -/
theorem handleFolderList_validates_title_witness :
    handleFolderList sampleEnv (sampleContext "POST" "News") (St.init 0) = Outcome.done
      { world := 1,
        trace := [Call.CreateFolder "News" (some { Id := 0, Title := "News", IsExpanded := true })],
        status := some 201,
        payload := some (Payload.folder (some { Id := 0, Title := "News", IsExpanded := true })) } ∧
    handleFolderList sampleEnv (sampleContext "POST" "") (St.init 0) = Outcome.done
      { world := 0, trace := [], status := some 400,
        payload := some (Payload.stringMap [("error", "Folder title missing.")]) } :=
  ⟨(handleFolderList_validates_title sampleEnv (sampleContext "POST" "News") 0
      { Title := "News" } rfl rfl).2 (by decide),
   (handleFolderList_validates_title sampleEnv (sampleContext "POST" "") 0
      { Title := "" } rfl rfl).1 rfl⟩

/-- C2: a PUT on /api/feeds/:id whose id parses and for which GetFeed returns
nil is answered 400, whatever the body; GetFeed is the only call made, so
neither RenameFeed nor UpdateFeedFolder is called. -/
theorem handleFeed_unknown_feed (E : Env ω PI Src) (c : Context) (w : ω) (id : Int)
    (hid : c.VarInt64 "id" = some id) (hm : c.Method = "PUT")
    (hfeed : (E.db.GetFeed w id).2 = none) :
    handleFeed E c (St.init w) = Outcome.done
        { world := (E.db.GetFeed w id).1, trace := [Call.GetFeed id], status := some 400,
          payload := none } ∧
    ∀ k ∈ (handleFeed E c (St.init w)).st.trace,
      k.isRenameFeed = false ∧ k.isUpdateFeedFolder = false := by
  have h : handleFeed E c (St.init w) = Outcome.done
        { world := (E.db.GetFeed w id).1, trace := [Call.GetFeed id], status := some 400,
          payload := none } := by
    simp [handleFeed, hid, hm, dbGetFeed, hfeed, St.call, St.init, St.WriteHeader]
  refine ⟨h, ?_⟩
  rw [h]
  simp [Outcome.done, Call.isRenameFeed, Call.isUpdateFeedFolder]

/-- Witness of C2 in the sample environment, whose storage knows no feed. -/
theorem handleFeed_unknown_feed_witness :
    handleFeed sampleEnv (sampleContext "PUT" "rate") (St.init 0) = Outcome.done
        { world := 0, trace := [Call.GetFeed 7], status := some 400, payload := none } :=
  (handleFeed_unknown_feed sampleEnv (sampleContext "PUT" "rate") 0 7 rfl rfl rfl).1

/-- C3: a POST on /api/feeds for which DiscoverFeed returns no error and a
non-empty list of sources is answered 200 with the status "multiple" and
exactly that list as choice; no call is made on the storage or the worker
(none of CreateFeed, CreateItems, SetFeedSize, SyncSearch, FindFeedFavicon),
whether or not the result carries a feed. -/
theorem handleFeedList_multiple (E : Env ω PI Src) (c : Context) (w : ω)
    (form : FeedCreateForm) (result : DiscoverResult PI Src)
    (hm : c.Method = "POST") (hd : E.decodeFeedCreateForm c.Body = some form)
    (hr : (E.DiscoverFeed w form.Url).2 = Except.ok result)
    (hs : result.Sources ≠ []) :
    handleFeedList E c (St.init w) = Outcome.done
        { world := (E.DiscoverFeed w form.Url).1, trace := [], status := some 200,
          payload := some (Payload.multiple result.Sources) } := by
  have hl : result.Sources.length > 0 := List.length_pos.2 hs
  simp [handleFeedList, hm, hd, discoverFeed, St.init, hr, hl, St.JSON, St.WriteHeader]

/-- Witness of C3 in the sample environment: the url "page" has two sources. -/
theorem handleFeedList_multiple_witness :
    handleFeedList sampleEnv (sampleContext "POST" "page") (St.init 0) = Outcome.done
        { world := 0, trace := [], status := some 200,
          payload := some (Payload.multiple ["one", "two"]) } :=
  handleFeedList_multiple sampleEnv (sampleContext "POST" "page") 0
    { Url := "page", FolderID := none }
    { Feed := none, FeedLink := "", Sources := ["one", "two"] } rfl rfl rfl (by decide)

/-- The success case of a POST on /api/feeds: the handler creates the feed in
the world that DiscoverFeed left and goes on with subscribe. -/
theorem handleFeedList_success (E : Env ω PI Src) (c : Context) (w : ω)
    (form : FeedCreateForm) (result : DiscoverResult PI Src) (parsed : ParserFeed PI)
    (hm : c.Method = "POST") (hd : E.decodeFeedCreateForm c.Body = some form)
    (hr : (E.DiscoverFeed w form.Url).2 = Except.ok result)
    (hs : result.Sources = []) (hf : result.Feed = some parsed) :
    handleFeedList E c (St.init w) =
      subscribe E
        { world := (E.db.CreateFeed (E.DiscoverFeed w form.Url).1 parsed.Title ""
                      parsed.SiteURL result.FeedLink form.FolderID).1,
          trace := [Call.CreateFeed parsed.Title "" parsed.SiteURL result.FeedLink form.FolderID],
          status := none, payload := none }
        parsed
        (E.db.CreateFeed (E.DiscoverFeed w form.Url).1 parsed.Title ""
          parsed.SiteURL result.FeedLink form.FolderID).2 := by
  simp [handleFeedList, hm, hd, discoverFeed, St.init, hr, hs, hf, dbCreateFeed, St.call]

/-- The calls of subscribe on a feed that was created: the three item calls when
ConvertItems returned items, then FindFeedFavicon; it returns, with 200 and
the feed. -/
theorem subscribe_some (E : Env ω PI Src) (s : St ω Src) (parsed : ParserFeed PI) (fd : Feed)
    (hstatus : s.status = none) :
    (subscribe E s parsed (some fd)).st.trace =
      s.trace ++
        (if (E.ConvertItems s.world parsed.Items fd).2 = [] then []
         else [Call.CreateItems (E.ConvertItems s.world parsed.Items fd).2,
               Call.SetFeedSize fd.Id ((E.ConvertItems s.world parsed.Items fd).2.length : Int),
               Call.SyncSearch]) ++
        [Call.FindFeedFavicon fd] ∧
    (subscribe E s parsed (some fd)).panicked = false ∧
    (subscribe E s parsed (some fd)).st.status = some 200 ∧
    (subscribe E s parsed (some fd)).st.payload = some (Payload.success (some fd)) := by
  by_cases h : (E.ConvertItems s.world parsed.Items fd).2 = []
  · simp [subscribe, convertItems, h, workerFindFeedFavicon, St.call, St.JSON, St.WriteHeader,
      Outcome.done, hstatus]
  · have hl : 0 < (E.ConvertItems s.world parsed.Items fd).2.length := List.length_pos.2 h
    simp [subscribe, convertItems, h, hl, workerFindFeedFavicon, dbCreateItems, dbSetFeedSize,
      dbSyncSearch, St.call, St.JSON, St.WriteHeader, Outcome.done, hstatus]

/-- The calls of subscribe on a nil feed: it panics at once, calling nothing. -/
theorem subscribe_none (E : Env ω PI Src) (s : St ω Src) (parsed : ParserFeed PI) :
    subscribe E s parsed none = Outcome.panic s := rfl

/-- The counterexample to C4: a POST on /api/feeds over a storage whose
CreateFeed returns nil; DiscoverFeed returns no error, no source and a feed,
CreateFeed is called, and the handler panics on the nil feed, with no status
and no body written. -/
theorem handleFeedList_nil_feed_panics :
    (nilFeedEnv.decodeFeedCreateForm (sampleContext "POST" "feed").Body =
      some { Url := "feed", FolderID := none }) ∧
    (nilFeedEnv.DiscoverFeed 0 "feed").2 =
      Except.ok { Feed := some { Title := "t", SiteURL := "site", Items := ["x", "y"] },
                  FeedLink := "feed", Sources := [] } ∧
    (handleFeedList nilFeedEnv (sampleContext "POST" "feed") (St.init 0)).st.trace =
      [Call.CreateFeed "t" "" "site" "feed" none] ∧
    (handleFeedList nilFeedEnv (sampleContext "POST" "feed") (St.init 0)).panicked = true ∧
    (handleFeedList nilFeedEnv (sampleContext "POST" "feed") (St.init 0)).st.status = none ∧
    (handleFeedList nilFeedEnv (sampleContext "POST" "feed") (St.init 0)).st.payload = none := by
  refine ⟨rfl, rfl, rfl, rfl, rfl, rfl⟩

/-- C4: a POST on /api/feeds for which DiscoverFeed returns no error, no source
and a feed calls CreateFeed exactly once, with the title and site url of the
feed, an empty description, the feed link of the result and the folder of the
form; when CreateFeed returns a feed (not nil), the response is 200 with the
status "success" and that feed. -/
theorem handleFeedList_subscribes_once (E : Env ω PI Src) (c : Context) (w : ω)
    (form : FeedCreateForm) (result : DiscoverResult PI Src) (parsed : ParserFeed PI)
    (hm : c.Method = "POST") (hd : E.decodeFeedCreateForm c.Body = some form)
    (hr : (E.DiscoverFeed w form.Url).2 = Except.ok result)
    (hs : result.Sources = []) (hf : result.Feed = some parsed) :
    (handleFeedList E c (St.init w)).st.trace.filter Call.isCreateFeed =
      [Call.CreateFeed parsed.Title "" parsed.SiteURL result.FeedLink form.FolderID] ∧
    ∀ feed : Feed,
      (E.db.CreateFeed (E.DiscoverFeed w form.Url).1 parsed.Title "" parsed.SiteURL
        result.FeedLink form.FolderID).2 = some feed →
      (handleFeedList E c (St.init w)).panicked = false ∧
      (handleFeedList E c (St.init w)).st.status = some 200 ∧
      (handleFeedList E c (St.init w)).st.payload = some (Payload.success (some feed)) := by
  rw [handleFeedList_success E c w form result parsed hm hd hr hs hf]
  constructor
  · cases hc : (E.db.CreateFeed (E.DiscoverFeed w form.Url).1 parsed.Title "" parsed.SiteURL
        result.FeedLink form.FolderID).2 with
    | none => simp [subscribe_none, Outcome.panic, Call.isCreateFeed]
    | some fd =>
      rw [(subscribe_some E _ parsed fd rfl).1]
      by_cases h : (E.ConvertItems (E.db.CreateFeed (E.DiscoverFeed w form.Url).1 parsed.Title ""
          parsed.SiteURL result.FeedLink form.FolderID).1 parsed.Items fd).2 = []
      · simp [h, Call.isCreateFeed, List.filter]
      · simp [h, Call.isCreateFeed, List.filter]
  · intro feed hc
    rw [hc]
    have h := subscribe_some E
      { world := (E.db.CreateFeed (E.DiscoverFeed w form.Url).1 parsed.Title ""
                      parsed.SiteURL result.FeedLink form.FolderID).1,
        trace := [Call.CreateFeed parsed.Title "" parsed.SiteURL result.FeedLink form.FolderID],
        status := none, payload := none } parsed feed rfl
    exact h.2

/-- Witness of C4 in the sample environment: the url "feed" is subscribed as
feed 0. -/
theorem handleFeedList_subscribes_once_witness :
    (handleFeedList sampleEnv (sampleContext "POST" "feed") (St.init 0)).panicked = false ∧
    (handleFeedList sampleEnv (sampleContext "POST" "feed") (St.init 0)).st.status = some 200 ∧
    (handleFeedList sampleEnv (sampleContext "POST" "feed") (St.init 0)).st.payload =
      some (Payload.success (some { Id := 0, FolderId := none, Title := "t", Link := "site",
                                     FeedLink := "feed", Icon := none })) :=
  (handleFeedList_subscribes_once sampleEnv (sampleContext "POST" "feed") 0
    { Url := "feed", FolderID := none }
    { Feed := some { Title := "t", SiteURL := "site", Items := ["x", "y"] },
      FeedLink := "feed", Sources := [] }
    { Title := "t", SiteURL := "site", Items := ["x", "y"] } rfl rfl rfl rfl rfl).2
    { Id := 0, FolderId := none, Title := "t", Link := "site", FeedLink := "feed", Icon := none }
    rfl

/-- The whole trace of a successful subscription: CreateFeed, the three item
calls when ConvertItems returned items, FindFeedFavicon. -/
theorem handleFeedList_success_trace (E : Env ω PI Src) (c : Context) (w : ω)
    (form : FeedCreateForm) (result : DiscoverResult PI Src) (parsed : ParserFeed PI)
    (feed : Feed) (w2 : ω)
    (hm : c.Method = "POST") (hd : E.decodeFeedCreateForm c.Body = some form)
    (hr : (E.DiscoverFeed w form.Url).2 = Except.ok result)
    (hs : result.Sources = []) (hf : result.Feed = some parsed)
    (hc : E.db.CreateFeed (E.DiscoverFeed w form.Url).1 parsed.Title "" parsed.SiteURL
        result.FeedLink form.FolderID = (w2, some feed)) :
    (handleFeedList E c (St.init w)).st.trace =
      [Call.CreateFeed parsed.Title "" parsed.SiteURL result.FeedLink form.FolderID] ++
        (if (E.ConvertItems w2 parsed.Items feed).2 = [] then []
         else [Call.CreateItems (E.ConvertItems w2 parsed.Items feed).2,
               Call.SetFeedSize feed.Id ((E.ConvertItems w2 parsed.Items feed).2.length : Int),
               Call.SyncSearch]) ++
        [Call.FindFeedFavicon feed] := by
  rw [handleFeedList_success E c w form result parsed hm hd hr hs hf, hc]
  exact (subscribe_some E _ parsed feed rfl).1

/-- C5: on the success branch of a POST on /api/feeds, CreateItems, SetFeedSize
and SyncSearch are each called exactly once, in that order, when the list that
ConvertItems returned is non-empty, and none of them is called when it is
empty. -/
theorem handleFeedList_sync_iff_items (E : Env ω PI Src) (c : Context) (w : ω)
    (form : FeedCreateForm) (result : DiscoverResult PI Src) (parsed : ParserFeed PI)
    (feed : Feed) (w2 : ω)
    (hm : c.Method = "POST") (hd : E.decodeFeedCreateForm c.Body = some form)
    (hr : (E.DiscoverFeed w form.Url).2 = Except.ok result)
    (hs : result.Sources = []) (hf : result.Feed = some parsed)
    (hc : E.db.CreateFeed (E.DiscoverFeed w form.Url).1 parsed.Title "" parsed.SiteURL
        result.FeedLink form.FolderID = (w2, some feed)) :
    ((E.ConvertItems w2 parsed.Items feed).2 ≠ [] →
      (handleFeedList E c (St.init w)).st.trace.filter
          (fun k => k.isCreateItems || k.isSetFeedSize || k.isSyncSearch) =
        [Call.CreateItems (E.ConvertItems w2 parsed.Items feed).2,
         Call.SetFeedSize feed.Id ((E.ConvertItems w2 parsed.Items feed).2.length : Int),
         Call.SyncSearch]) ∧
    ((E.ConvertItems w2 parsed.Items feed).2 = [] →
      (handleFeedList E c (St.init w)).st.trace.filter
          (fun k => k.isCreateItems || k.isSetFeedSize || k.isSyncSearch) = []) := by
  rw [handleFeedList_success_trace E c w form result parsed feed w2 hm hd hr hs hf hc]
  constructor
  · intro h
    simp [h, List.filter, Call.isCreateItems, Call.isSetFeedSize, Call.isSyncSearch]
  · intro h
    simp [h, List.filter, Call.isCreateItems, Call.isSetFeedSize, Call.isSyncSearch]

/-- Witness of C5 in the sample environment: the url "feed" has two items, which
are stored, counted and indexed. -/
theorem handleFeedList_sync_iff_items_witness :
    (handleFeedList sampleEnv (sampleContext "POST" "feed") (St.init 0)).st.trace.filter
        (fun k => k.isCreateItems || k.isSetFeedSize || k.isSyncSearch) =
      [Call.CreateItems [{ FeedId := 0, Link := "x", Content := "" },
                         { FeedId := 0, Link := "y", Content := "" }],
       Call.SetFeedSize 0 2, Call.SyncSearch] :=
  (handleFeedList_sync_iff_items sampleEnv (sampleContext "POST" "feed") 0
    { Url := "feed", FolderID := none }
    { Feed := some { Title := "t", SiteURL := "site", Items := ["x", "y"] },
      FeedLink := "feed", Sources := [] }
    { Title := "t", SiteURL := "site", Items := ["x", "y"] }
    { Id := 0, FolderId := none, Title := "t", Link := "site", FeedLink := "feed", Icon := none }
    1 rfl rfl rfl rfl rfl rfl).1 (by decide)

/-- C6: on the success branch of a POST on /api/feeds with a non-empty list of
converted items, SetFeedSize is called, only with the id of the feed that
CreateFeed returned and the length of the list, and that list is the one
(the only one) passed to CreateItems. -/
theorem handleFeedList_feed_size (E : Env ω PI Src) (c : Context) (w : ω)
    (form : FeedCreateForm) (result : DiscoverResult PI Src) (parsed : ParserFeed PI)
    (feed : Feed) (w2 : ω)
    (hm : c.Method = "POST") (hd : E.decodeFeedCreateForm c.Body = some form)
    (hr : (E.DiscoverFeed w form.Url).2 = Except.ok result)
    (hs : result.Sources = []) (hf : result.Feed = some parsed)
    (hc : E.db.CreateFeed (E.DiscoverFeed w form.Url).1 parsed.Title "" parsed.SiteURL
        result.FeedLink form.FolderID = (w2, some feed))
    (hitems : (E.ConvertItems w2 parsed.Items feed).2 ≠ []) :
    (handleFeedList E c (St.init w)).st.trace.filter
        (fun k => k.isCreateItems || k.isSetFeedSize) =
      [Call.CreateItems (E.ConvertItems w2 parsed.Items feed).2,
       Call.SetFeedSize feed.Id ((E.ConvertItems w2 parsed.Items feed).2.length : Int)] ∧
    (∀ (id size : Int), Call.SetFeedSize id size ∈ (handleFeedList E c (St.init w)).st.trace →
      id = feed.Id ∧ size = ((E.ConvertItems w2 parsed.Items feed).2.length : Int)) ∧
    (∀ items : List Item, Call.CreateItems items ∈ (handleFeedList E c (St.init w)).st.trace →
      items = (E.ConvertItems w2 parsed.Items feed).2) := by
  rw [handleFeedList_success_trace E c w form result parsed feed w2 hm hd hr hs hf hc]
  refine ⟨?_, ?_, ?_⟩
  · simp [hitems, List.filter, Call.isCreateItems, Call.isSetFeedSize]
  · intro id size hmem
    simp [hitems] at hmem
    exact hmem
  · intro items hmem
    simp [hitems] at hmem
    exact hmem

/-- Witness of C6 in the sample environment: the feed 0 of two items gets the
size 2. -/
theorem handleFeedList_feed_size_witness :
    (handleFeedList sampleEnv (sampleContext "POST" "feed") (St.init 0)).st.trace.filter
        (fun k => k.isCreateItems || k.isSetFeedSize) =
      [Call.CreateItems [{ FeedId := 0, Link := "x", Content := "" },
                         { FeedId := 0, Link := "y", Content := "" }],
       Call.SetFeedSize 0 2] :=
  (handleFeedList_feed_size sampleEnv (sampleContext "POST" "feed") 0
    { Url := "feed", FolderID := none }
    { Feed := some { Title := "t", SiteURL := "site", Items := ["x", "y"] },
      FeedLink := "feed", Sources := [] }
    { Title := "t", SiteURL := "site", Items := ["x", "y"] }
    { Id := 0, FolderId := none, Title := "t", Link := "site", FeedLink := "feed", Icon := none }
    1 rfl rfl rfl rfl rfl rfl (by decide)).1

/-- C7: a PUT on /api/settings whose body decodes to a map calls UpdateSettings
first; SetRefreshRate is called (once) exactly when UpdateSettings returned
true and the map has the key refresh_rate, with the value that
GetSettingsValueInt64 reads for refresh_rate from the storage as the update
left it; the response is 200 when UpdateSettings returned true and 400
otherwise. -/
theorem handleSettings_refresh_rate (E : Env ω PI Src) (c : Context) (w : ω)
    (settings : GoMap) (hm : c.Method = "PUT") (hd : E.decodeMap c.Body = some settings) :
    (handleSettings E c (St.init w)).st.trace =
      Call.UpdateSettings settings ::
        (if (E.db.UpdateSettings w settings).2 = true ∧
            (settings.lookup "refresh_rate").isSome = true then
          [Call.GetSettingsValueInt64 "refresh_rate",
           Call.SetRefreshRate
             (E.db.GetSettingsValueInt64 (E.db.UpdateSettings w settings).1 "refresh_rate").2]
         else []) ∧
    (handleSettings E c (St.init w)).st.trace.filter Call.isSetRefreshRate =
      (if (E.db.UpdateSettings w settings).2 = true ∧
          (settings.lookup "refresh_rate").isSome = true then
        [Call.SetRefreshRate
          (E.db.GetSettingsValueInt64 (E.db.UpdateSettings w settings).1 "refresh_rate").2]
       else []) ∧
    (handleSettings E c (St.init w)).st.status =
      some (if (E.db.UpdateSettings w settings).2 = true then 200 else 400) ∧
    (handleSettings E c (St.init w)).panicked = false := by
  have hg : ¬ c.Method = "GET" := by rw [hm]; decide
  cases hu : (E.db.UpdateSettings w settings).2 with
  | false =>
    simp [handleSettings, hg, hm, hd, dbUpdateSettings, St.init, hu, St.call, St.WriteHeader,
      Outcome.done, List.filter, Call.isSetRefreshRate]
  | true =>
    cases hk : settings.lookup "refresh_rate" with
    | none =>
      simp [handleSettings, hg, hm, hd, dbUpdateSettings, St.init, hu, hk, St.call,
        St.WriteHeader, Outcome.done, List.filter, Call.isSetRefreshRate]
    | some v =>
      simp [handleSettings, hg, hm, hd, dbUpdateSettings, St.init, hu, hk, St.call,
        St.WriteHeader, Outcome.done, List.filter, Call.isSetRefreshRate,
        dbGetSettingsValueInt64, workerSetRefreshRate]

/-- Witness of C7 in the sample environment: the body "rate" sets the refresh
rate to the stored value 30. -/
theorem handleSettings_refresh_rate_witness :
    (handleSettings sampleEnv (sampleContext "PUT" "rate") (St.init 0)).st.trace.filter
        Call.isSetRefreshRate = [Call.SetRefreshRate 30] ∧
    (handleSettings sampleEnv (sampleContext "PUT" "rate") (St.init 0)).st.status = some 200 :=
  ⟨(handleSettings_refresh_rate sampleEnv (sampleContext "PUT" "rate") 0
      [("refresh_rate", GoValue.float64 30)] rfl rfl).2.1,
   (handleSettings_refresh_rate sampleEnv (sampleContext "PUT" "rate") 0
      [("refresh_rate", GoValue.float64 30)] rfl rfl).2.2.1⟩

/-- C8: a POST on /api/feeds/refresh calls RefreshFeeds exactly once and answers
200, whatever the refresh does; every other method calls nothing and is
answered 405. -/
theorem handleFeedRefresh_post_only (E : Env ω PI Src) (c : Context) (w : ω) :
    (c.Method = "POST" →
      handleFeedRefresh E c (St.init w) = Outcome.done
        { world := E.worker.RefreshFeeds w, trace := [Call.RefreshFeeds], status := some 200,
          payload := none }) ∧
    (c.Method ≠ "POST" →
      handleFeedRefresh E c (St.init w) = Outcome.done
        { world := w, trace := [], status := some 405, payload := none }) := by
  constructor
  · intro hm
    simp [handleFeedRefresh, hm, workerRefreshFeeds, St.call, St.WriteHeader, St.init]
  · intro hm
    simp [handleFeedRefresh, hm, St.WriteHeader, St.init]

/-- Witness of C8 in the sample environment: a POST refreshes once and is
answered 200; a GET is answered 405 and refreshes nothing. -/
theorem handleFeedRefresh_post_only_witness :
    handleFeedRefresh sampleEnv (sampleContext "POST" "") (St.init 0) = Outcome.done
        { world := 0, trace := [Call.RefreshFeeds], status := some 200, payload := none } ∧
    handleFeedRefresh sampleEnv (sampleContext "GET" "") (St.init 0) = Outcome.done
        { world := 0, trace := [], status := some 405, payload := none } :=
  ⟨(handleFeedRefresh_post_only sampleEnv (sampleContext "POST" "") 0).1 rfl,
   (handleFeedRefresh_post_only sampleEnv (sampleContext "GET" "") 0).2 (by decide)⟩

/-- The first loop of an import adds one CreateFeed without folder per feed, in
order, and leaves the response alone. -/
theorem importFeeds_spec (E : Env ω PI Src) (fs : List OpmlFeed) (s : St ω Src) :
    (importFeeds E fs s).trace =
      s.trace ++ fs.map (fun f => Call.CreateFeed f.Title "" f.SiteUrl f.FeedUrl none) ∧
    (importFeeds E fs s).status = s.status ∧
    (importFeeds E fs s).payload = s.payload := by
  induction fs generalizing s with
  | nil => simp [importFeeds]
  | cons f rest ih =>
    obtain ⟨h1, h2, h3⟩ := ih (dbCreateFeed E s f.Title "" f.SiteUrl f.FeedUrl none).1
    simp only [importFeeds]
    rw [h1, h2, h3]
    simp [dbCreateFeed, St.call]

/-- The inner loop of an import under a folder that was created adds one
CreateFeed under its id per feed, in order, does not panic and leaves the
response alone. -/
theorem importFolderFeeds_some (E : Env ω PI Src) (fo : Folder) (fs : List OpmlFeed)
    (s : St ω Src) :
    (importFolderFeeds E (some fo) fs s).panicked = false ∧
    (importFolderFeeds E (some fo) fs s).st.trace =
      s.trace ++
        fs.map (fun ff => Call.CreateFeed ff.Title "" ff.SiteUrl ff.FeedUrl (some fo.Id)) ∧
    (importFolderFeeds E (some fo) fs s).st.status = s.status ∧
    (importFolderFeeds E (some fo) fs s).st.payload = s.payload := by
  induction fs generalizing s with
  | nil => simp [importFolderFeeds, Outcome.done]
  | cons ff rest ih =>
    obtain ⟨h0, h1, h2, h3⟩ :=
      ih (dbCreateFeed E s ff.Title "" ff.SiteUrl ff.FeedUrl (some fo.Id)).1
    simp only [importFolderFeeds]
    rw [h0, h1, h2, h3]
    simp [dbCreateFeed, St.call]

/-- The second loop of an import, over a storage that returns a folder from
CreateFolder for the title of every folder of the list: it does not panic, and
there is one created folder per folder of the list such that the calls added
are, folder after folder, the CreateFolder that returned it and the CreateFeed
calls under its id. -/
theorem importFolders_spec (E : Env ω PI Src) (fs : List OpmlFolder)
    (hcf : ∀ (w : ω) (f : OpmlFolder), f ∈ fs → (E.db.CreateFolder w f.Title).2 ≠ none)
    (s : St ω Src) :
    ∃ created : List Folder, created.length = fs.length ∧
      (importFolders E fs s).panicked = false ∧
      (importFolders E fs s).st.trace =
        s.trace ++ (List.zipWith (folderCalls E.AllFeeds) fs created).flatten ∧
      (importFolders E fs s).st.status = s.status ∧
      (importFolders E fs s).st.payload = s.payload := by
  induction fs generalizing s with
  | nil => exact ⟨[], rfl, by simp [importFolders, Outcome.done]⟩
  | cons f rest ih =>
    cases hfo : (E.db.CreateFolder s.world f.Title).2 with
    | none => exact absurd hfo (hcf s.world f (List.mem_cons_self f rest))
    | some fo =>
      obtain ⟨p0, p1, p2, p3⟩ :=
        importFolderFeeds_some E fo (E.AllFeeds f) (dbCreateFolder E s f.Title).1
      obtain ⟨created, hlen, q0, q1, q2, q3⟩ :=
        ih (fun w g hg => hcf w g (List.mem_cons_of_mem f hg))
          (importFolderFeeds E (some fo) (E.AllFeeds f) (dbCreateFolder E s f.Title).1).st
      refine ⟨fo :: created, by simp [hlen], ?_⟩
      have hstep : importFolders E (f :: rest) s =
          importFolders E rest
            (importFolderFeeds E (some fo) (E.AllFeeds f) (dbCreateFolder E s f.Title).1).st := by
        have hfo2 : (dbCreateFolder E s f.Title).2 = some fo := hfo
        simp only [importFolders, hfo2, p0, Bool.false_eq_true, if_false]
      rw [hstep]
      refine ⟨q0, ?_, ?_, ?_⟩
      · rw [q1, p1]
        simp [dbCreateFolder, hfo, St.call, folderCalls]
      · rw [q2, p2]; simp [dbCreateFolder, St.call]
      · rw [q3, p3]; simp [dbCreateFolder, St.call]

/-- The calls of folderCalls are creations. -/
theorem folderCalls_creations (allFeeds : OpmlFolder → List OpmlFeed) (f : OpmlFolder)
    (fo : Folder) :
    ∀ k ∈ folderCalls allFeeds f fo, k.isCreateFolder = true ∨ k.isCreateFeed = true := by
  intro k hk
  simp [folderCalls] at hk
  rcases hk with hk | ⟨ff, _, hk⟩
  · subst hk; left; rfl
  · subst hk; right; rfl

/-- The number of CreateFeed calls of an import loop over folders. -/
theorem zipWith_folderCalls_count (allFeeds : OpmlFolder → List OpmlFeed)
    (fs : List OpmlFolder) (created : List Folder) (hlen : created.length = fs.length) :
    ((List.zipWith (folderCalls allFeeds) fs created).flatten.filter Call.isCreateFeed).length =
      (fs.map (fun f => (allFeeds f).length)).sum := by
  induction fs generalizing created with
  | nil => simp
  | cons f rest ih =>
    cases created with
    | nil => simp at hlen
    | cons fo more =>
      have hl : more.length = rest.length := by simpa using hlen
      have hf : ((folderCalls allFeeds f fo).filter Call.isCreateFeed).length =
          (allFeeds f).length := by
        simp [folderCalls, List.filter, Call.isCreateFeed, List.filter_map, Function.comp_def]
      simp only [List.zipWith_cons_cons, List.flatten_cons, List.filter_append,
        List.length_append, List.map_cons, List.sum_cons, hf, ih more hl]

/-- An import whose file parses, over a storage that returns a folder from
CreateFolder for the title of every folder of the document: the trace is the
creations of the two loops, then FindFavicons and RefreshFeeds; the handler
returns with 200. -/
theorem handleOPMLImport_parsed (E : Env ω PI Src) (c : Context) (w : ω) (file : String)
    (doc : OpmlFolder) (hm : c.Method = "POST") (hfile : c.FormFile "opml" = some file)
    (hp : E.opmlParse file = some doc)
    (hcf : ∀ (w : ω) (f : OpmlFolder), f ∈ doc.Folders →
      (E.db.CreateFolder w f.Title).2 ≠ none) :
    ∃ created : List Folder, created.length = doc.Folders.length ∧
      (handleOPMLImport E c (St.init w)).panicked = false ∧
      (handleOPMLImport E c (St.init w)).st.trace =
        doc.Feeds.map (fun f => Call.CreateFeed f.Title "" f.SiteUrl f.FeedUrl none) ++
          (List.zipWith (folderCalls E.AllFeeds) doc.Folders created).flatten ++
          [Call.FindFavicons, Call.RefreshFeeds] ∧
      (handleOPMLImport E c (St.init w)).st.status = some 200 := by
  obtain ⟨h1, h2, _⟩ := importFeeds_spec E doc.Feeds (St.init w)
  obtain ⟨created, hlen, q0, q1, q2, _⟩ :=
    importFolders_spec E doc.Folders hcf (importFeeds E doc.Feeds (St.init w))
  refine ⟨created, hlen, ?_⟩
  have hrun : handleOPMLImport E c (St.init w) =
      Outcome.done ((workerRefreshFeeds E (workerFindFavicons E
        (importFolders E doc.Folders (importFeeds E doc.Feeds (St.init w))).st)).WriteHeader
          200) := by
    simp only [handleOPMLImport, hm, hfile, hp, q0, Bool.false_eq_true, if_false, if_true]
  rw [hrun]
  have hst : (importFolders E doc.Folders (importFeeds E doc.Feeds (St.init w))).st.status =
      none := by rw [q2, h2]; rfl
  refine ⟨rfl, ?_, ?_⟩
  · simp only [Outcome.done, St.WriteHeader, workerRefreshFeeds, workerFindFavicons, St.call,
      hst, q1, h1]
    simp [St.init]
  · simp only [Outcome.done, St.WriteHeader, workerRefreshFeeds, workerFindFavicons, St.call,
      hst]

/-- The calls of folderCallsOpt are creations. -/
theorem folderCallsOpt_creations (allFeeds : OpmlFolder → List OpmlFeed) (f : OpmlFolder)
    (cr : Option Folder) :
    ∀ k ∈ folderCallsOpt allFeeds f cr, k.isCreateFolder = true ∨ k.isCreateFeed = true := by
  cases cr with
  | some fo => exact folderCalls_creations allFeeds f fo
  | none =>
    intro k hk
    simp only [folderCallsOpt, List.mem_singleton] at hk
    subst hk; left; rfl

/-- The calls of an import loop over folders, for the pointers that CreateFolder
returned, are creations. -/
theorem zipWith_folderCallsOpt_creations (allFeeds : OpmlFolder → List OpmlFeed)
    (fs : List OpmlFolder) (created : List (Option Folder)) :
    ∀ k ∈ (List.zipWith (folderCallsOpt allFeeds) fs created).flatten,
      k.isCreateFolder = true ∨ k.isCreateFeed = true := by
  induction fs generalizing created with
  | nil => simp
  | cons f rest ih =>
    cases created with
    | nil => simp
    | cons cr more =>
      intro k hk
      simp only [List.zipWith_cons_cons, List.flatten_cons, List.mem_append] at hk
      rcases hk with hk | hk
      · exact folderCallsOpt_creations allFeeds f cr k hk
      · exact ih more k hk

/-- The number of CreateFeed calls of an import loop over folders, when the
folders for which CreateFolder returned nil have no feeds. -/
theorem zipWith_folderCallsOpt_count (allFeeds : OpmlFolder → List OpmlFeed)
    (fs : List OpmlFolder) (created : List (Option Folder))
    (hlen : created.length = fs.length)
    (hside : ∀ p ∈ List.zip fs created, p.2 = none → allFeeds p.1 = []) :
    ((List.zipWith (folderCallsOpt allFeeds) fs created).flatten.filter
      Call.isCreateFeed).length = (fs.map (fun f => (allFeeds f).length)).sum := by
  induction fs generalizing created with
  | nil => simp
  | cons f rest ih =>
    cases created with
    | nil => simp at hlen
    | cons cr more =>
      have hl : more.length = rest.length := by simpa using hlen
      have hrest : ∀ p ∈ List.zip rest more, p.2 = none → allFeeds p.1 = [] := by
        intro p hp
        exact hside p (by simp [hp])
      have hf : ((folderCallsOpt allFeeds f cr).filter Call.isCreateFeed).length =
          (allFeeds f).length := by
        cases cr with
        | some fo =>
          simp [folderCallsOpt, folderCalls, List.filter, Call.isCreateFeed, List.filter_map,
            Function.comp_def]
        | none =>
          have h0 : allFeeds f = [] := hside (f, none) (by simp) rfl
          simp [folderCallsOpt, List.filter, Call.isCreateFeed, h0]
      simp only [List.zipWith_cons_cons, List.flatten_cons, List.filter_append,
        List.length_append, List.map_cons, List.sum_cons, hf, ih more hl hrest]

/-- The second loop of an import, over a storage that returns a folder from
CreateFolder for every folder of the list that has feeds: it does not panic,
and there is one returned pointer per folder of the list, nil only for a
folder without feeds, such that the calls added are, folder after folder, the
CreateFolder that returned it and the CreateFeed calls under its id. -/
theorem importFolders_created (E : Env ω PI Src) (fs : List OpmlFolder)
    (hcf : FoldersCreated E fs) (s : St ω Src) :
    ∃ created : List (Option Folder), created.length = fs.length ∧
      (∀ p ∈ List.zip fs created, p.2 = none → E.AllFeeds p.1 = []) ∧
      (importFolders E fs s).panicked = false ∧
      (importFolders E fs s).st.trace =
        s.trace ++ (List.zipWith (folderCallsOpt E.AllFeeds) fs created).flatten ∧
      (importFolders E fs s).st.status = s.status ∧
      (importFolders E fs s).st.payload = s.payload := by
  induction fs generalizing s with
  | nil => exact ⟨[], rfl, by simp, by simp [importFolders, Outcome.done]⟩
  | cons f rest ih =>
    have hrest : FoldersCreated E rest := fun w g hg => hcf w g (List.mem_cons_of_mem f hg)
    cases hfo : (E.db.CreateFolder s.world f.Title).2 with
    | none =>
      have hall : E.AllFeeds f = [] := by
        by_contra hne
        exact hcf s.world f (List.mem_cons_self f rest) hne hfo
      obtain ⟨created, hlen, hside, q0, q1, q2, q3⟩ := ih hrest (dbCreateFolder E s f.Title).1
      have hfo2 : (dbCreateFolder E s f.Title).2 = none := hfo
      have hstep : importFolders E (f :: rest) s =
          importFolders E rest (dbCreateFolder E s f.Title).1 := by
        simp only [importFolders, hfo2, hall, importFolderFeeds, Outcome.done,
          Bool.false_eq_true, if_false]
      refine ⟨none :: created, by simp [hlen], ?_, ?_⟩
      · intro p hp
        simp only [List.zip_cons_cons, List.mem_cons] at hp
        rcases hp with hp | hp
        · subst hp; intro _; exact hall
        · exact hside p hp
      · rw [hstep]
        refine ⟨q0, ?_, ?_, ?_⟩
        · rw [q1]
          simp [dbCreateFolder, hfo, St.call, folderCallsOpt]
        · rw [q2]; simp [dbCreateFolder, St.call]
        · rw [q3]; simp [dbCreateFolder, St.call]
    | some fo =>
      obtain ⟨p0, p1, p2, p3⟩ :=
        importFolderFeeds_some E fo (E.AllFeeds f) (dbCreateFolder E s f.Title).1
      obtain ⟨created, hlen, hside, q0, q1, q2, q3⟩ :=
        ih hrest
          (importFolderFeeds E (some fo) (E.AllFeeds f) (dbCreateFolder E s f.Title).1).st
      have hstep : importFolders E (f :: rest) s =
          importFolders E rest
            (importFolderFeeds E (some fo) (E.AllFeeds f) (dbCreateFolder E s f.Title).1).st := by
        have hfo2 : (dbCreateFolder E s f.Title).2 = some fo := hfo
        simp only [importFolders, hfo2, p0, Bool.false_eq_true, if_false]
      refine ⟨some fo :: created, by simp [hlen], ?_, ?_⟩
      · intro p hp
        simp only [List.zip_cons_cons, List.mem_cons] at hp
        rcases hp with hp | hp
        · subst hp; intro h; simp at h
        · exact hside p hp
      · rw [hstep]
        refine ⟨q0, ?_, ?_, ?_⟩
        · rw [q1, p1]
          simp [dbCreateFolder, hfo, St.call, folderCallsOpt, folderCalls]
        · rw [q2, p2]; simp [dbCreateFolder, St.call]
        · rw [q3, p3]; simp [dbCreateFolder, St.call]

/-- An import whose file parses, over a storage that returns a folder from
CreateFolder for every folder of the document that has feeds: the trace is the
creations of the two loops, then FindFavicons and RefreshFeeds; the handler
returns with 200. -/
theorem handleOPMLImport_created (E : Env ω PI Src) (c : Context) (w : ω) (file : String)
    (doc : OpmlFolder) (hm : c.Method = "POST") (hfile : c.FormFile "opml" = some file)
    (hp : E.opmlParse file = some doc) (hcf : FoldersCreated E doc.Folders) :
    ∃ created : List (Option Folder), created.length = doc.Folders.length ∧
      (∀ p ∈ List.zip doc.Folders created, p.2 = none → E.AllFeeds p.1 = []) ∧
      (handleOPMLImport E c (St.init w)).panicked = false ∧
      (handleOPMLImport E c (St.init w)).st.trace =
        doc.Feeds.map (fun f => Call.CreateFeed f.Title "" f.SiteUrl f.FeedUrl none) ++
          (List.zipWith (folderCallsOpt E.AllFeeds) doc.Folders created).flatten ++
          [Call.FindFavicons, Call.RefreshFeeds] ∧
      (handleOPMLImport E c (St.init w)).st.status = some 200 := by
  obtain ⟨h1, h2, _⟩ := importFeeds_spec E doc.Feeds (St.init w)
  obtain ⟨created, hlen, hside, q0, q1, q2, _⟩ :=
    importFolders_created E doc.Folders hcf (importFeeds E doc.Feeds (St.init w))
  refine ⟨created, hlen, hside, ?_⟩
  have hrun : handleOPMLImport E c (St.init w) =
      Outcome.done ((workerRefreshFeeds E (workerFindFavicons E
        (importFolders E doc.Folders (importFeeds E doc.Feeds (St.init w))).st)).WriteHeader
          200) := by
    simp only [handleOPMLImport, hm, hfile, hp, q0, Bool.false_eq_true, if_false, if_true]
  rw [hrun]
  have hst : (importFolders E doc.Folders (importFeeds E doc.Feeds (St.init w))).st.status =
      none := by rw [q2, h2]; rfl
  refine ⟨rfl, ?_, ?_⟩
  · simp only [Outcome.done, St.WriteHeader, workerRefreshFeeds, workerFindFavicons, St.call,
      hst, q1, h1]
    simp [St.init]
  · simp only [Outcome.done, St.WriteHeader, workerRefreshFeeds, workerFindFavicons, St.call,
      hst]

/-- The storage of emptyFolderEnv returns a folder from CreateFolder for the
folder of emptyFolderDoc that has feeds. -/
theorem emptyFolderEnv_foldersCreated : FoldersCreated emptyFolderEnv emptyFolderDoc.Folders := by
  intro w f hf hne
  simp only [emptyFolderDoc, OpmlFolder.Folders, List.mem_cons, List.mem_singleton,
    List.not_mem_nil, or_false] at hf
  rcases hf with hf | hf
  · subst hf
    simp [emptyFolderEnv, OpmlFolder.Title]
  · subst hf
    exact absurd rfl hne

/-- The counterexample to C9: the import of sampleDoc over a storage whose
CreateFolder returns nil; the file parses and the folder News has feeds, and
the handler panics after the CreateFolder of News, with no status written; of
the three feeds of the document only the one at the top level was created,
and neither FindFavicons nor RefreshFeeds was called. -/
theorem handleOPMLImport_nil_folder_no_refresh :
    nilFolderEnv.opmlParse "doc" = some sampleDoc ∧
    (handleOPMLImport nilFolderEnv (sampleContext "POST" "") (St.init 0)).panicked = true ∧
    (handleOPMLImport nilFolderEnv (sampleContext "POST" "") (St.init 0)).st.status = none ∧
    (handleOPMLImport nilFolderEnv (sampleContext "POST" "") (St.init 0)).st.trace =
      [Call.CreateFeed "a" "" "a.org" "a.xml" none, Call.CreateFolder "News" none] ∧
    (handleOPMLImport nilFolderEnv (sampleContext "POST" "") (St.init 0)).st.trace.filter
      Call.isFindFavicons = [] ∧
    (handleOPMLImport nilFolderEnv (sampleContext "POST" "") (St.init 0)).st.trace.filter
      Call.isRefreshFeeds = [] := by
  refine ⟨rfl, rfl, rfl, rfl, rfl, rfl⟩

/-- C9: a POST on /opml/import whose file parses (the storage returning a folder
from CreateFolder for every folder of the document that has feeds) calls
FindFavicons and then RefreshFeeds, once each, after all the CreateFolder and
CreateFeed calls of the import, and answers 200; when the file does not parse,
the answer is 400 and nothing is called. -/
theorem handleOPMLImport_favicons_refresh_last (E : Env ω PI Src) (c : Context) (w : ω)
    (file : String) (hm : c.Method = "POST") (hfile : c.FormFile "opml" = some file) :
    (∀ doc : OpmlFolder, E.opmlParse file = some doc → FoldersCreated E doc.Folders →
      ∃ creations : List Call,
        (∀ k ∈ creations, k.isCreateFolder = true ∨ k.isCreateFeed = true) ∧
        (handleOPMLImport E c (St.init w)).st.trace =
          creations ++ [Call.FindFavicons, Call.RefreshFeeds] ∧
        (handleOPMLImport E c (St.init w)).st.status = some 200 ∧
        (handleOPMLImport E c (St.init w)).panicked = false) ∧
    (E.opmlParse file = none →
      handleOPMLImport E c (St.init w) = Outcome.done
        { world := w, trace := [], status := some 400, payload := none }) := by
  constructor
  · intro doc hp hcf
    obtain ⟨created, _, _, h0, h1, h2⟩ :=
      handleOPMLImport_created E c w file doc hm hfile hp hcf
    refine ⟨doc.Feeds.map (fun f => Call.CreateFeed f.Title "" f.SiteUrl f.FeedUrl none) ++
      (List.zipWith (folderCallsOpt E.AllFeeds) doc.Folders created).flatten, ?_, h1, h2, h0⟩
    intro k hk
    rcases List.mem_append.1 hk with hk | hk
    · obtain ⟨f, _, hf⟩ := List.mem_map.1 hk
      subst hf; right; rfl
    · exact zipWith_folderCallsOpt_creations E.AllFeeds doc.Folders created k hk
  · intro hp
    simp [handleOPMLImport, hm, hfile, hp, St.WriteHeader, St.init]

/-- Witness of C9 in the environment emptyFolderEnv, whose CreateFolder returns
nil for the folder without feeds: the import of emptyFolderDoc ends with
FindFavicons and RefreshFeeds and is answered 200. -/
theorem handleOPMLImport_favicons_refresh_last_witness :
    ∃ creations : List Call,
      (∀ k ∈ creations, k.isCreateFolder = true ∨ k.isCreateFeed = true) ∧
      (handleOPMLImport emptyFolderEnv (sampleContext "POST" "") (St.init 0)).st.trace =
        creations ++ [Call.FindFavicons, Call.RefreshFeeds] ∧
      (handleOPMLImport emptyFolderEnv (sampleContext "POST" "") (St.init 0)).st.status =
        some 200 ∧
      (handleOPMLImport emptyFolderEnv (sampleContext "POST" "") (St.init 0)).panicked = false :=
  (handleOPMLImport_favicons_refresh_last emptyFolderEnv (sampleContext "POST" "") 0 "doc"
    rfl rfl).1 emptyFolderDoc rfl emptyFolderEnv_foldersCreated

/-- The counterexample to C10: the import of sampleDoc over a storage whose
CreateFolder returns nil makes one CreateFeed call, where the document has
three feeds: one at the top level and two in the folder News. -/
theorem handleOPMLImport_nil_folder_drops_feeds :
    nilFolderEnv.opmlParse "doc" = some sampleDoc ∧
    ((handleOPMLImport nilFolderEnv (sampleContext "POST" "") (St.init 0)).st.trace.filter
      Call.isCreateFeed).length = 1 ∧
    sampleDoc.Feeds.length +
      (sampleDoc.Folders.map (fun f => (nilFolderEnv.AllFeeds f).length)).sum = 3 ∧
    (handleOPMLImport nilFolderEnv (sampleContext "POST" "") (St.init 0)).st.trace.filter
      Call.isCreateFeed = [Call.CreateFeed "a" "" "a.org" "a.xml" none] := by
  refine ⟨rfl, rfl, rfl, rfl⟩

/-- C10: an import of the parsed document doc (the storage returning a folder
from CreateFolder for every folder of the document that has feeds) calls
CreateFeed without folder once per feed of doc.Feeds, in order; then, for each
folder f of doc.Folders in order, CreateFolder(f.Title) once and CreateFeed
under the id of the folder that this CreateFolder returned once per feed of
f.AllFeeds(), a nil return occurring only for a folder without feeds; the
number of CreateFeed calls is the length of doc.Feeds plus the sum of the
lengths of f.AllFeeds(). -/
theorem handleOPMLImport_creates_feeds (E : Env ω PI Src) (c : Context) (w : ω)
    (file : String) (doc : OpmlFolder) (hm : c.Method = "POST")
    (hfile : c.FormFile "opml" = some file) (hp : E.opmlParse file = some doc)
    (hcf : FoldersCreated E doc.Folders) :
    ∃ created : List (Option Folder), created.length = doc.Folders.length ∧
      (∀ p ∈ List.zip doc.Folders created, p.2 = none → E.AllFeeds p.1 = []) ∧
      (handleOPMLImport E c (St.init w)).st.trace =
        doc.Feeds.map (fun f => Call.CreateFeed f.Title "" f.SiteUrl f.FeedUrl none) ++
          (List.zipWith (folderCallsOpt E.AllFeeds) doc.Folders created).flatten ++
          [Call.FindFavicons, Call.RefreshFeeds] ∧
      ((handleOPMLImport E c (St.init w)).st.trace.filter Call.isCreateFeed).length =
        doc.Feeds.length + (doc.Folders.map (fun f => (E.AllFeeds f).length)).sum := by
  obtain ⟨created, hlen, hside, _, h1, _⟩ :=
    handleOPMLImport_created E c w file doc hm hfile hp hcf
  refine ⟨created, hlen, hside, h1, ?_⟩
  rw [h1]
  have hcount := zipWith_folderCallsOpt_count E.AllFeeds doc.Folders created hlen hside
  have htop : ((doc.Feeds.map
      (fun f => Call.CreateFeed f.Title "" f.SiteUrl f.FeedUrl none)).filter
        Call.isCreateFeed).length = doc.Feeds.length := by
    simp [List.filter_map, Function.comp_def, Call.isCreateFeed]
  simp only [List.filter_append, List.length_append, hcount, htop]
  simp [List.filter, Call.isCreateFeed]

/-- Witness of C10 in the environment emptyFolderEnv: the import of emptyFolderDoc
creates the feed a without folder, the folder News and the feeds b and c under
it, and asks for the folder Empty, which has no feeds: three CreateFeed
calls. -/
theorem handleOPMLImport_creates_feeds_witness :
    ∃ created : List (Option Folder), created.length = emptyFolderDoc.Folders.length ∧
      (∀ p ∈ List.zip emptyFolderDoc.Folders created,
        p.2 = none → emptyFolderEnv.AllFeeds p.1 = []) ∧
      (handleOPMLImport emptyFolderEnv (sampleContext "POST" "") (St.init 0)).st.trace =
        emptyFolderDoc.Feeds.map
            (fun f => Call.CreateFeed f.Title "" f.SiteUrl f.FeedUrl none) ++
          (List.zipWith (folderCallsOpt emptyFolderEnv.AllFeeds) emptyFolderDoc.Folders
            created).flatten ++
          [Call.FindFavicons, Call.RefreshFeeds] ∧
      ((handleOPMLImport emptyFolderEnv (sampleContext "POST" "") (St.init 0)).st.trace.filter
          Call.isCreateFeed).length =
        emptyFolderDoc.Feeds.length +
          (emptyFolderDoc.Folders.map (fun f => (emptyFolderEnv.AllFeeds f).length)).sum :=
  handleOPMLImport_creates_feeds emptyFolderEnv (sampleContext "POST" "") 0 "doc"
    emptyFolderDoc rfl rfl rfl emptyFolderEnv_foldersCreated

/-- C11: on the success branch of a POST on /api/feeds, FindFeedFavicon is
called exactly once, with the feed created, as the last call, after CreateFeed
and (when there are items) CreateItems, SetFeedSize and SyncSearch; and
whatever the method FindFeedFavicon of the worker does, the handler returns
with 200, the status "success" and the feed created. -/
theorem handleFeedList_favicon_nonfatal (E : Env ω PI Src) (c : Context) (w : ω)
    (form : FeedCreateForm) (result : DiscoverResult PI Src) (parsed : ParserFeed PI)
    (feed : Feed) (w2 : ω)
    (hm : c.Method = "POST") (hd : E.decodeFeedCreateForm c.Body = some form)
    (hr : (E.DiscoverFeed w form.Url).2 = Except.ok result)
    (hs : result.Sources = []) (hf : result.Feed = some parsed)
    (hc : E.db.CreateFeed (E.DiscoverFeed w form.Url).1 parsed.Title "" parsed.SiteURL
        result.FeedLink form.FolderID = (w2, some feed)) :
    (handleFeedList E c (St.init w)).st.trace.filter Call.isFindFeedFavicon =
      [Call.FindFeedFavicon feed] ∧
    (handleFeedList E c (St.init w)).st.trace =
      (Call.CreateFeed parsed.Title "" parsed.SiteURL result.FeedLink form.FolderID ::
        (if (E.ConvertItems w2 parsed.Items feed).2 = [] then []
         else [Call.CreateItems (E.ConvertItems w2 parsed.Items feed).2,
               Call.SetFeedSize feed.Id ((E.ConvertItems w2 parsed.Items feed).2.length : Int),
               Call.SyncSearch])) ++
        [Call.FindFeedFavicon feed] ∧
    ∀ find : ω → Feed → ω,
      (handleFeedList (withFindFeedFavicon E find) c (St.init w)).panicked = false ∧
      (handleFeedList (withFindFeedFavicon E find) c (St.init w)).st.status = some 200 ∧
      (handleFeedList (withFindFeedFavicon E find) c (St.init w)).st.payload =
        some (Payload.success (some feed)) := by
  have ht := handleFeedList_success_trace E c w form result parsed feed w2 hm hd hr hs hf hc
  refine ⟨?_, ?_, ?_⟩
  · rw [ht]
    by_cases h : (E.ConvertItems w2 parsed.Items feed).2 = []
    · simp [h, List.filter, Call.isFindFeedFavicon]
    · simp [h, List.filter, Call.isFindFeedFavicon]
  · rw [ht]; simp
  · intro find
    have hsucc := handleFeedList_success (withFindFeedFavicon E find) c w form result parsed
      hm hd hr hs hf
    have hc2 : (withFindFeedFavicon E find).db.CreateFeed
        ((withFindFeedFavicon E find).DiscoverFeed w form.Url).1 parsed.Title ""
        parsed.SiteURL result.FeedLink form.FolderID = (w2, some feed) := hc
    rw [hsucc, hc2]
    exact (subscribe_some (withFindFeedFavicon E find) _ parsed feed rfl).2

/-- Witness of C11 in the sample environment: the favicon lookup is the last call
of the subscription to the url "feed". -/
theorem handleFeedList_favicon_nonfatal_witness :
    (handleFeedList sampleEnv (sampleContext "POST" "feed") (St.init 0)).st.trace.filter
        Call.isFindFeedFavicon =
      [Call.FindFeedFavicon { Id := 0, FolderId := none, Title := "t", Link := "site",
                              FeedLink := "feed", Icon := none }] :=
  (handleFeedList_favicon_nonfatal sampleEnv (sampleContext "POST" "feed") 0
    { Url := "feed", FolderID := none }
    { Feed := some { Title := "t", SiteURL := "site", Items := ["x", "y"] },
      FeedLink := "feed", Sources := [] }
    { Title := "t", SiteURL := "site", Items := ["x", "y"] }
    { Id := 0, FolderId := none, Title := "t", Link := "site", FeedLink := "feed", Icon := none }
    1 rfl rfl rfl rfl rfl rfl).1

/-- C13 (the code at the failing input): a PUT on /api/folders/:id whose body
carries the empty title is not rejected: RenameFolder is called with the
empty title and the answer is 200. -/
theorem handleFolder_empty_title_renames (E : Env ω PI Src) (c : Context) (w : ω)
    (cache : List (String × FeedIcon)) (id : Int) (body : FolderUpdateForm)
    (hid : c.VarInt64 "id" = some id) (hm : c.Method = "PUT")
    (hd : E.decodeFolderUpdateForm c.Body = some body) (ht : body.Title = some "") :
    (handleFolder E c (St.start w cache)).st.status = some 200 ∧
    (handleFolder E c (St.start w cache)).panicked = false ∧
    (handleFolder E c (St.start w cache)).st.trace.filter Call.isRenameFolder =
      [Call.RenameFolder id ""] := by
  cases hx : body.IsExpanded with
  | none =>
    simp [handleFolder, hid, hm, hd, ht, hx, dbRenameFolder, St.call, St.WriteHeader, St.start,
      Outcome.done, List.filter, Call.isRenameFolder]
  | some b =>
    simp [handleFolder, hid, hm, hd, ht, hx, dbRenameFolder, dbToggleFolderExpanded, St.call,
      St.WriteHeader, St.start, Outcome.done, List.filter, Call.isRenameFolder]

/-- Witness of C13 in the sample environment: the folder 7 is renamed to the
empty title, with 200. -/
theorem handleFolder_empty_title_renames_witness :
    (handleFolder sampleEnv (sampleContext "PUT" "") (St.start 0 [])).st.status = some 200 ∧
    (handleFolder sampleEnv (sampleContext "PUT" "") (St.start 0 [])).panicked = false ∧
    (handleFolder sampleEnv (sampleContext "PUT" "") (St.start 0 [])).st.trace.filter
        Call.isRenameFolder = [Call.RenameFolder 7 ""] :=
  handleFolder_empty_title_renames sampleEnv (sampleContext "PUT" "") 0 [] 7
    { Title := some "", IsExpanded := none } rfl rfl rfl rfl

/-- C20: a GET on /api/items/:id whose item exists answers 200 with the item,
its link being AbsoluteUrl(item.Link, feed.Link) when IsAPossibleLink(item.Link)
is false and the feed of the item exists, and the stored link otherwise, and its
content being Sanitize(returned link, stored content); when the item does
not exist, the answer is 400. -/
theorem handleItem_repairs_link (E : Env ω PI Src) (c : Context) (w : ω)
    (cache : List (String × FeedIcon)) (id : Int)
    (hid : c.VarInt64 "id" = some id) (hm : c.Method = "GET") :
    (∀ item : Item, (E.db.GetItem w id).2 = some item →
      ∀ link : String,
        link =
          (if E.IsAPossibleLink item.Link = false then
            match (E.db.GetFeed (E.db.GetItem w id).1 item.FeedId).2 with
            | some feed => E.AbsoluteUrl item.Link feed.Link
            | none => item.Link
          else item.Link) →
        (handleItem E c (St.start w cache)).panicked = false ∧
        (handleItem E c (St.start w cache)).st.status = some 200 ∧
        (handleItem E c (St.start w cache)).st.payload =
          some (Payload.item (some
            { FeedId := item.FeedId, Link := link, Content := E.Sanitize link item.Content }))) ∧
    ((E.db.GetItem w id).2 = none →
      (handleItem E c (St.start w cache)).panicked = false ∧
      (handleItem E c (St.start w cache)).st.status = some 400 ∧
      (handleItem E c (St.start w cache)).st.payload = none) := by
  constructor
  · intro item hitem link hlink
    subst hlink
    by_cases hp : E.IsAPossibleLink item.Link = false
    · cases hfeed : (E.db.GetFeed (E.db.GetItem w id).1 item.FeedId).2 with
      | none =>
        simp [handleItem, hid, hm, dbGetItem, hitem, hp, dbGetFeed, hfeed, St.call, St.start,
          St.JSON, St.WriteHeader, Outcome.done]
      | some feed =>
        simp [handleItem, hid, hm, dbGetItem, hitem, hp, dbGetFeed, hfeed, St.call, St.start,
          St.JSON, St.WriteHeader, Outcome.done]
    · simp [handleItem, hid, hm, dbGetItem, hitem, hp, St.call, St.start, St.JSON,
        St.WriteHeader, Outcome.done]
  · intro hnone
    simp [handleItem, hid, hm, dbGetItem, hnone, St.call, St.start, St.WriteHeader,
      Outcome.done]

/-- Witness of C20 in the environment repairEnv: the item 7 has the relative link
"/post" and its feed 3 has the link "site", so the link returned is
"site/post" and the content is what Sanitize makes of "site/post" and the
stored content "text". -/
theorem handleItem_repairs_link_witness :
    (handleItem repairEnv (sampleContext "GET" "") (St.start 0 [])).panicked = false ∧
    (handleItem repairEnv (sampleContext "GET" "") (St.start 0 [])).st.status = some 200 ∧
    (handleItem repairEnv (sampleContext "GET" "") (St.start 0 [])).st.payload =
      some (Payload.item (some
        { FeedId := 3, Link := "site/post", Content := "site/post|text" })) :=
  (handleItem_repairs_link repairEnv (sampleContext "GET" "") 0 [] 7 rfl rfl).1
    { FeedId := 3, Link := "/post", Content := "text" } rfl "site/post" (by decide)

/-- The two parts of filepath.Split make up the path. -/
theorem filepathSplit_append (p : String) : (filepathSplit p).1 ++ (filepathSplit p).2 = p := by
  cases p with
  | mk cs =>
    simp only [filepathSplit, String.toList]
    show String.mk (_ ++ _) = _
    rw [← List.reverse_append, List.takeWhile_append_dropWhile, List.reverse_reverse]

/-- The second part of filepath.Split has no separator. -/
theorem filepathSplit_name (p : String) : '/' ∉ (filepathSplit p).2.toList := by
  intro h
  simp only [filepathSplit, String.toList, List.mem_reverse] at h
  have := List.mem_takeWhile_imp h
  simp at this

/-- The first part of filepath.Split is empty or ends with the separator. -/
theorem filepathSplit_dir (p : String) :
    (filepathSplit p).1 = "" ∨ hasSuffix (filepathSplit p).1 "/" = true := by
  simp only [filepathSplit, hasSuffix, String.toList]
  cases h : List.dropWhile (fun ch => ch != '/') p.data.reverse with
  | nil => left; rfl
  | cons a l =>
    right
    have ha : a = '/' := by
      have := List.head_dropWhile_not (fun ch => ch != '/') p.data.reverse
      simp [h] at this
      exact this
    subst ha
    simp [List.isSuffixOf]

/-- C12: with (dir, name) the split of the path after its last separator (dir
and name make up the path, name has no separator, dir is empty or ends with
one), handleStatic answers 404 without invoking the file server exactly when
dir is empty and name ends with ".html"; every other path is handed to the
file server, whose status and body are the response. -/
theorem handleStatic_templates (E : Env ω PI Src) (c : Context) (w : ω)
    (cache : List (String × FeedIcon)) :
    ((filepathSplit (c.Vars "path")).1 ++ (filepathSplit (c.Vars "path")).2 = c.Vars "path" ∧
      '/' ∉ (filepathSplit (c.Vars "path")).2.toList ∧
      ((filepathSplit (c.Vars "path")).1 = "" ∨
        hasSuffix (filepathSplit (c.Vars "path")).1 "/" = true)) ∧
    (((filepathSplit (c.Vars "path")).1 = "" ∧
        hasSuffix (filepathSplit (c.Vars "path")).2 ".html" = true) →
      handleStatic E c (St.start w cache) = Outcome.done
        { world := w, trace := [], status := some 404, payload := none, headers := [],
          cache := cache }) ∧
    (¬ ((filepathSplit (c.Vars "path")).1 = "" ∧
        hasSuffix (filepathSplit (c.Vars "path")).2 ".html" = true) →
      handleStatic E c (St.start w cache) = Outcome.done
        { world := (E.FileServer w c).1, trace := [Call.FileServer],
          status := some (E.FileServer w c).2.1,
          payload := some (Payload.bytes (E.FileServer w c).2.2), headers := [],
          cache := cache }) ∧
    (((handleStatic E c (St.start w cache)).st.status = some 404 ∧
        (handleStatic E c (St.start w cache)).st.trace = []) ↔
      ((filepathSplit (c.Vars "path")).1 = "" ∧
        hasSuffix (filepathSplit (c.Vars "path")).2 ".html" = true)) := by
  have h404 : ((filepathSplit (c.Vars "path")).1 = "" ∧
        hasSuffix (filepathSplit (c.Vars "path")).2 ".html" = true) →
      handleStatic E c (St.start w cache) = Outcome.done
        { world := w, trace := [], status := some 404, payload := none, headers := [],
          cache := cache } := by
    intro h
    simp [handleStatic, h, St.WriteHeader, St.start]
  have hserve : ¬ ((filepathSplit (c.Vars "path")).1 = "" ∧
        hasSuffix (filepathSplit (c.Vars "path")).2 ".html" = true) →
      handleStatic E c (St.start w cache) = Outcome.done
        { world := (E.FileServer w c).1, trace := [Call.FileServer],
          status := some (E.FileServer w c).2.1,
          payload := some (Payload.bytes (E.FileServer w c).2.2), headers := [],
          cache := cache } := by
    intro h
    simp only [handleStatic, h, if_false]
    simp [fileServer, St.call, St.WriteHeader, St.Write, St.start]
  refine ⟨⟨filepathSplit_append _, filepathSplit_name _, filepathSplit_dir _⟩, h404, hserve, ?_⟩
  constructor
  · intro hst
    by_contra hn
    rw [hserve hn] at hst
    simp [Outcome.done] at hst
  · intro h
    rw [h404 h]
    simp [Outcome.done]

/-- Witness of C12 in the sample environment: index.html at the top is answered
404, sub/index.html goes to the file server. -/
theorem handleStatic_templates_witness :
    handleStatic sampleEnv (staticContext "index.html") (St.start 0 []) = Outcome.done
        { world := 0, trace := [], status := some 404, payload := none, headers := [],
          cache := [] } ∧
    handleStatic sampleEnv (staticContext "sub/index.html") (St.start 0 []) = Outcome.done
        { world := 0, trace := [Call.FileServer], status := some 200,
          payload := some (Payload.bytes []), headers := [], cache := [] } :=
  ⟨(handleStatic_templates sampleEnv (staticContext "index.html") 0 []).2.1 (by decide),
   (handleStatic_templates sampleEnv (staticContext "sub/index.html") 0 []).2.2.1
     (by decide)⟩

/-- C19: merging is idempotent: after a merge of the items of a feed, a second
merge of the same items inserts zero items and leaves the stored items, hence
their count, as they are. -/
theorem Merge_idempotent (store : List StoredItem) (feedId : Int) (items : List ParsedItem) :
    (Merge (Merge store feedId items).1 feedId items).2 = 0 ∧
    (Merge (Merge store feedId items).1 feedId items).1 = (Merge store feedId items).1 ∧
    (Merge (Merge store feedId items).1 feedId items).1.length =
      (Merge store feedId items).1.length := by
  have hnone : items.filter (fun i =>
      !((((Merge store feedId items).1.filter (fun r => r.feedId = feedId)).map
          (fun r => r.fingerprint)).contains (fingerprint i))) = [] := by
    rw [List.filter_eq_nil_iff]
    intro i hi
    simp only [Merge, List.filter_append, List.map_append, Bool.not_eq_true,
      Bool.not_eq_false', List.contains_iff_exists_mem_beq, List.mem_append, List.mem_map,
      List.mem_filter, decide_eq_true_eq]
    by_cases hseen : ((store.filter (fun r => r.feedId = feedId)).map
        (fun r => r.fingerprint)).contains (fingerprint i) = true
    · rw [List.contains_iff_exists_mem_beq] at hseen
      obtain ⟨a, ha, hab⟩ := hseen
      simp only [List.mem_map, List.mem_filter, decide_eq_true_eq] at ha
      exact ⟨a, Or.inl ha, hab⟩
    · refine ⟨fingerprint i, Or.inr ⟨⟨feedId, fingerprint i, i⟩, ⟨?_, rfl⟩, rfl⟩, by simp⟩
      refine ⟨i, ⟨hi, ?_⟩, rfl⟩
      simpa using hseen
  have h2 : (Merge (Merge store feedId items).1 feedId items) =
      ((Merge store feedId items).1, 0) := by
    conv_lhs => rw [Merge]
    simp only [hnone, List.map_nil, List.append_nil, List.length_nil]
  rw [h2]
  exact ⟨rfl, rfl, rfl⟩

/-- A binding of another key does not change what a key is bound to. -/
theorem lookup_insert_other (key k : String) (v : GoValue) (b1 b2 : GoMap) (h : key ≠ k) :
    (b1 ++ (k, v) :: b2).lookup key = (b1 ++ b2).lookup key := by
  induction b1 with
  | nil =>
    have hb : (key == k) = false := by simpa using h
    simp [List.lookup, hb]
  | cons p rest ih =>
    obtain ⟨a, b⟩ := p
    by_cases hk : key = a
    · subst hk
      simp [List.lookup]
    · have hb : (key == a) = false := by simpa using hk
      simp only [List.cons_append, List.lookup, hb]
      exact ih

/-- The edits of a feed depend on the body through its keys title and folder_id
only. -/
theorem editFeed_congr (E : Env ω PI Src) (s : St ω Src) (id : Int) (body body2 : GoMap)
    (ht : body.lookup "title" = body2.lookup "title")
    (hf : body.lookup "folder_id" = body2.lookup "folder_id") :
    editFeed E s id body = editFeed E s id body2 := by
  simp only [editFeed, renameStep, moveStep, ht, hf]

/-- The counterexample to C14: the body of a PUT on /api/feeds/7 has the key
colour, which the handler does not know; the request is answered 200 and the
feed is renamed. -/
theorem handleFeed_unknown_key_accepted :
    knownFeedEnv.decodeMap (sampleContext "PUT" "colour").Body =
      some [("colour", GoValue.string "red"), ("title", GoValue.string "x")] ∧
    (handleFeed knownFeedEnv (sampleContext "PUT" "colour") (St.start 0 [])).st.status =
      some 200 ∧
    (handleFeed knownFeedEnv (sampleContext "PUT" "colour") (St.start 0 [])).st.trace =
      [Call.GetFeed 7, Call.RenameFeed 7 "x"] ∧
    (handleFeed knownFeedEnv (sampleContext "PUT" "colour") (St.start 0 [])).st.trace.any
      Call.isStorageWrite = true :=
  ⟨rfl, rfl, rfl, rfl⟩

/-- The status of a PUT on /api/settings follows UpdateSettings, which is the
first call and gets the whole map. -/
theorem handleSettings_status (E : Env ω PI Src) (c : Context) (w : ω)
    (cache : List (String × FeedIcon)) (settings : GoMap)
    (hm : c.Method = "PUT") (hd : E.decodeMap c.Body = some settings) :
    (handleSettings E c (St.start w cache)).st.trace.head? =
      some (Call.UpdateSettings settings) ∧
    (handleSettings E c (St.start w cache)).st.status =
      some (if (E.db.UpdateSettings w settings).2 = true then 200 else 400) := by
  have hg : ¬ c.Method = "GET" := by rw [hm]; decide
  cases hu : (E.db.UpdateSettings w settings).2 with
  | false =>
    simp [handleSettings, hg, hm, hd, dbUpdateSettings, St.start, hu, St.call, St.WriteHeader,
      Outcome.done]
  | true =>
    cases hk : settings.lookup "refresh_rate" with
    | none =>
      simp [handleSettings, hg, hm, hd, dbUpdateSettings, St.start, hu, hk, St.call,
        St.WriteHeader, Outcome.done]
    | some v =>
      simp [handleSettings, hg, hm, hd, dbUpdateSettings, St.start, hu, hk, St.call,
        St.WriteHeader, Outcome.done, dbGetSettingsValueInt64, workerSetRefreshRate]

/-- C14 as amended: a key of the body that a PUT on /api/feeds/:id does not know
(any key but title and folder_id) is ignored: the outcome (calls, response) is
that of the same request without the key; and a PUT on /api/settings hands the
whole decoded map to UpdateSettings and answers 200 exactly when
UpdateSettings returns true, 400 otherwise. -/
theorem unknown_keys_ignored (E : Env ω PI Src) (w : ω) (cache : List (String × FeedIcon)) :
    (∀ (c c2 : Context) (b1 b2 : GoMap) (k : String) (v : GoValue),
      c.VarInt64 "id" = c2.VarInt64 "id" → c.Method = c2.Method →
      E.decodeMap c.Body = some (b1 ++ (k, v) :: b2) →
      E.decodeMap c2.Body = some (b1 ++ b2) →
      k ≠ "title" → k ≠ "folder_id" →
      handleFeed E c (St.start w cache) = handleFeed E c2 (St.start w cache)) ∧
    (∀ (c : Context) (settings : GoMap),
      c.Method = "PUT" → E.decodeMap c.Body = some settings →
      (handleSettings E c (St.start w cache)).st.trace.head? =
        some (Call.UpdateSettings settings) ∧
      (handleSettings E c (St.start w cache)).st.status =
        some (if (E.db.UpdateSettings w settings).2 = true then 200 else 400)) := by
  constructor
  · intro c c2 b1 b2 k v hid hm hd hd2 hk1 hk2
    have ht := lookup_insert_other "title" k v b1 b2 (Ne.symm hk1)
    have hf := lookup_insert_other "folder_id" k v b1 b2 (Ne.symm hk2)
    simp only [handleFeed, hid, hm, hd, hd2]
    cases c2.VarInt64 "id" with
    | none => rfl
    | some id =>
      simp only [editFeed_congr E _ id _ _ ht hf]
  · intro c settings hm hd
    exact handleSettings_status E c w cache settings hm hd

/-- Witness of C14 as amended in the environment knownFeedEnv: the body with the
key colour has the outcome of the body without it. -/
theorem unknown_keys_ignored_witness :
    handleFeed knownFeedEnv (sampleContext "PUT" "colour") (St.start 0 []) =
      handleFeed knownFeedEnv (sampleContext "PUT" "title") (St.start 0 []) :=
  (unknown_keys_ignored knownFeedEnv 0 []).1 (sampleContext "PUT" "colour")
    (sampleContext "PUT" "title") [] [("title", GoValue.string "x")] "colour"
    (GoValue.string "red") rfl rfl rfl rfl (by decide) (by decide)

/-- A PUT on /api/feeds/:id for a known feed and a decoded body goes on with the
edits. -/
theorem handleFeed_put (E : Env ω PI Src) (c : Context) (w : ω)
    (cache : List (String × FeedIcon)) (id : Int) (fd : Feed) (body : GoMap)
    (hid : c.VarInt64 "id" = some id) (hm : c.Method = "PUT")
    (hfeed : (E.db.GetFeed w id).2 = some fd) (hd : E.decodeMap c.Body = some body) :
    handleFeed E c (St.start w cache) =
      editFeed E
        { world := (E.db.GetFeed w id).1, trace := [Call.GetFeed id], status := none,
          payload := none, headers := [], cache := cache } id body := by
  simp [handleFeed, hid, hm, dbGetFeed, hfeed, hd, St.call, St.start]

/-- The edits for a body whose title is null: a panic before any edit. -/
theorem editFeed_null_title (E : Env ω PI Src) (s : St ω Src) (id : Int) (body : GoMap)
    (ht : body.lookup "title" = some GoValue.null) :
    editFeed E s id body = Outcome.panic s := by
  simp [editFeed, renameStep, ht, GoValue.kind]

/-- The edits for a body whose title is not null follow the fields of the body:
the rename, then the move, and the answer 200. -/
theorem editFeed_follows_fields (E : Env ω PI Src) (s : St ω Src) (id : Int) (body : GoMap)
    (ht : body.lookup "title" ≠ some GoValue.null) (hstatus : s.status = none) :
    (editFeed E s id body).panicked = false ∧
    (editFeed E s id body).st.trace =
      s.trace ++ renameCalls id body ++ moveCalls E.int64OutOfRange id body ∧
    (editFeed E s id body).st.status = some 200 := by
  have hr : ∃ s1, renameStep E s id body = some s1 ∧
      s1.trace = s.trace ++ renameCalls id body ∧ s1.status = none := by
    cases hl : body.lookup "title" with
    | none => exact ⟨s, by simp [renameStep, hl], by simp [renameCalls, hl], hstatus⟩
    | some title =>
      cases title with
      | null => exact absurd hl ht
      | string t =>
        exact ⟨dbRenameFeed E s id t,
          by simp [renameStep, hl, GoValue.kind, GoValue.assertString],
          by simp [renameCalls, hl, dbRenameFeed, St.call],
          by simp [dbRenameFeed, St.call, hstatus]⟩
      | bool b =>
        exact ⟨s, by simp [renameStep, hl, GoValue.kind], by simp [renameCalls, hl], hstatus⟩
      | float64 x =>
        exact ⟨s, by simp [renameStep, hl, GoValue.kind], by simp [renameCalls, hl], hstatus⟩
      | array xs =>
        exact ⟨s, by simp [renameStep, hl, GoValue.kind], by simp [renameCalls, hl], hstatus⟩
      | object kvs =>
        exact ⟨s, by simp [renameStep, hl, GoValue.kind], by simp [renameCalls, hl], hstatus⟩
  obtain ⟨s1, h1, h1t, h1s⟩ := hr
  have hmv : ∃ s2, moveStep E s1 id body = some s2 ∧
      s2.trace = s1.trace ++ moveCalls E.int64OutOfRange id body ∧ s2.status = none := by
    cases hl : body.lookup "folder_id" with
    | none => exact ⟨s1, by simp [moveStep, hl], by simp [moveCalls, hl], h1s⟩
    | some f_id =>
      cases f_id with
      | null =>
        exact ⟨dbUpdateFeedFolder E s1 id none,
          by simp [moveStep, hl, GoValue.isNil],
          by simp [moveCalls, hl, dbUpdateFeedFolder, St.call],
          by simp [dbUpdateFeedFolder, St.call, h1s]⟩
      | float64 x =>
        exact ⟨dbUpdateFeedFolder E s1 id (some (int64OfFloat64 E.int64OutOfRange x)),
          by simp [moveStep, hl, GoValue.isNil, GoValue.kind, GoValue.assertFloat64],
          by simp [moveCalls, hl, dbUpdateFeedFolder, St.call],
          by simp [dbUpdateFeedFolder, St.call, h1s]⟩
      | bool b =>
        exact ⟨s1, by simp [moveStep, hl, GoValue.isNil, GoValue.kind],
          by simp [moveCalls, hl], h1s⟩
      | string t =>
        exact ⟨s1, by simp [moveStep, hl, GoValue.isNil, GoValue.kind],
          by simp [moveCalls, hl], h1s⟩
      | array xs =>
        exact ⟨s1, by simp [moveStep, hl, GoValue.isNil, GoValue.kind],
          by simp [moveCalls, hl], h1s⟩
      | object kvs =>
        exact ⟨s1, by simp [moveStep, hl, GoValue.isNil, GoValue.kind],
          by simp [moveCalls, hl], h1s⟩
  obtain ⟨s2, h2, h2t, h2s⟩ := hmv
  simp [editFeed, h1, h2, Outcome.done, St.WriteHeader, h2s, h2t, h1t]

/-- C17 (the code at the failing input): a PUT on /api/feeds/:id for a known
feed whose body has the keys title and folder_id both null does not move the
feed and does not answer 200: the handler panics on the title, after GetFeed. -/
theorem handleFeed_null_title_no_move (E : Env ω PI Src) (c : Context) (w : ω)
    (cache : List (String × FeedIcon)) (id : Int) (fd : Feed) (body : GoMap)
    (hid : c.VarInt64 "id" = some id) (hm : c.Method = "PUT")
    (hfeed : (E.db.GetFeed w id).2 = some fd) (hd : E.decodeMap c.Body = some body)
    (ht : body.lookup "title" = some GoValue.null)
    (hf : body.lookup "folder_id" = some GoValue.null) :
    moveCalls E.int64OutOfRange id body = [Call.UpdateFeedFolder id none] ∧
    (handleFeed E c (St.start w cache)).st.trace.filter Call.isUpdateFeedFolder = [] ∧
    (handleFeed E c (St.start w cache)).st.status ≠ some 200 ∧
    (handleFeed E c (St.start w cache)).st.trace = [Call.GetFeed id] := by
  rw [handleFeed_put E c w cache id fd body hid hm hfeed hd, editFeed_null_title E _ id body ht]
  simp [moveCalls, hf, Outcome.panic, List.filter, Call.isUpdateFeedFolder]

/-- Witness of C17 in the environment knownFeedEnv: the body "null" leaves the
feed 7 where it is. -/
theorem handleFeed_null_title_no_move_witness :
    moveCalls knownFeedEnv.int64OutOfRange 7
        [("title", GoValue.null), ("folder_id", GoValue.null)] =
      [Call.UpdateFeedFolder 7 none] ∧
    (handleFeed knownFeedEnv (sampleContext "PUT" "null") (St.start 0 [])).st.trace.filter
        Call.isUpdateFeedFolder = [] ∧
    (handleFeed knownFeedEnv (sampleContext "PUT" "null") (St.start 0 [])).st.status ≠
      some 200 ∧
    (handleFeed knownFeedEnv (sampleContext "PUT" "null") (St.start 0 [])).st.trace =
      [Call.GetFeed 7] :=
  handleFeed_null_title_no_move knownFeedEnv (sampleContext "PUT" "null") 0 [] 7
    { Id := 7, FolderId := none, Title := "old", Link := "site", FeedLink := "feed",
      Icon := some [1, 2, 3] }
    [("title", GoValue.null), ("folder_id", GoValue.null)] rfl rfl rfl rfl rfl rfl

/-! ### What the steps leave alone -/

@[simp] theorem St.call_cache (s : St ω Src) (k : Call) (w : ω) : (s.call k w).cache = s.cache :=
  rfl

@[simp] theorem St.call_status (s : St ω Src) (k : Call) (w : ω) :
    (s.call k w).status = s.status := rfl

@[simp] theorem St.call_trace (s : St ω Src) (k : Call) (w : ω) :
    (s.call k w).trace = s.trace ++ [k] := rfl

@[simp] theorem St.WriteHeader_cache (s : St ω Src) (code : Nat) :
    (s.WriteHeader code).cache = s.cache := by
  unfold St.WriteHeader; split <;> rfl

@[simp] theorem St.WriteHeader_trace (s : St ω Src) (code : Nat) :
    (s.WriteHeader code).trace = s.trace := by
  unfold St.WriteHeader; split <;> rfl

@[simp] theorem St.WriteHeader_status (s : St ω Src) (code : Nat) :
    (s.WriteHeader code).status = some (s.status.getD code) := by
  unfold St.WriteHeader; split <;> simp [*]

@[simp] theorem St.JSON_cache (s : St ω Src) (code : Nat) (data : Payload Src) :
    (s.JSON code data).cache = s.cache := by
  simp [St.JSON]

@[simp] theorem St.JSON_trace (s : St ω Src) (code : Nat) (data : Payload Src) :
    (s.JSON code data).trace = s.trace := by
  simp [St.JSON]

@[simp] theorem St.JSON_status (s : St ω Src) (code : Nat) (data : Payload Src) :
    (s.JSON code data).status = some (s.status.getD code) := by
  simp [St.JSON]

@[simp] theorem St.Write_cache (s : St ω Src) (data : Payload Src) :
    (s.Write data).cache = s.cache := by
  simp [St.Write]

@[simp] theorem St.Write_trace (s : St ω Src) (data : Payload Src) :
    (s.Write data).trace = s.trace := by
  simp [St.Write]

@[simp] theorem St.Write_status (s : St ω Src) (data : Payload Src) :
    (s.Write data).status = some (s.status.getD 200) := by
  simp [St.Write]

@[simp] theorem St.setHeader_cache (s : St ω Src) (key value : String) :
    (s.setHeader key value).cache = s.cache := rfl

@[simp] theorem St.setHeader_trace (s : St ω Src) (key value : String) :
    (s.setHeader key value).trace = s.trace := rfl

@[simp] theorem St.setHeader_status (s : St ω Src) (key value : String) :
    (s.setHeader key value).status = s.status := rfl

@[simp] theorem St.cacheSet_trace (s : St ω Src) (key : String) (icon : FeedIcon) :
    (s.cacheSet key icon).trace = s.trace := rfl

@[simp] theorem St.cacheSet_status (s : St ω Src) (key : String) (icon : FeedIcon) :
    (s.cacheSet key icon).status = s.status := rfl

/-- The first loop of an import leaves the cache alone. -/
theorem importFeeds_cache (E : Env ω PI Src) (fs : List OpmlFeed) (s : St ω Src) :
    (importFeeds E fs s).cache = s.cache := by
  induction fs generalizing s with
  | nil => rfl
  | cons f rest ih =>
    simp only [importFeeds]
    rw [ih]
    simp [dbCreateFeed]

/-- The inner loop of an import leaves the status and the cache alone, also when
it panics. -/
theorem importFolderFeeds_frame (E : Env ω PI Src) (folder : Option Folder)
    (fs : List OpmlFeed) (s : St ω Src) :
    (importFolderFeeds E folder fs s).st.status = s.status ∧
    (importFolderFeeds E folder fs s).st.cache = s.cache := by
  induction fs generalizing s with
  | nil => simp [importFolderFeeds, Outcome.done]
  | cons ff rest ih =>
    cases folder with
    | none => simp [importFolderFeeds, Outcome.panic]
    | some fo =>
      simp only [importFolderFeeds]
      obtain ⟨h1, h2⟩ := ih (dbCreateFeed E s ff.Title "" ff.SiteUrl ff.FeedUrl (some fo.Id)).1
      rw [h1, h2]
      simp [dbCreateFeed]

/-- The second loop of an import leaves the status and the cache alone, also
when it panics. -/
theorem importFolders_frame (E : Env ω PI Src) (fs : List OpmlFolder) (s : St ω Src) :
    (importFolders E fs s).st.status = s.status ∧
    (importFolders E fs s).st.cache = s.cache := by
  induction fs generalizing s with
  | nil => simp [importFolders, Outcome.done]
  | cons f rest ih =>
    obtain ⟨h1, h2⟩ :=
      importFolderFeeds_frame E (dbCreateFolder E s f.Title).2 (E.AllFeeds f)
        (dbCreateFolder E s f.Title).1
    simp only [importFolders]
    split
    · rw [h1, h2]; simp [dbCreateFolder]
    · obtain ⟨q1, q2⟩ := ih (importFolderFeeds E (dbCreateFolder E s f.Title).2 (E.AllFeeds f)
        (dbCreateFolder E s f.Title).1).st
      rw [q1, q2, h1, h2]; simp [dbCreateFolder]

/-! ### The handlers and the icon cache -/

/-- The handler handleIndex leaves the icon cache alone. -/
theorem handleIndex_cache (cfg : Config) (E : Env ω PI Src) (c : Context) (s : St ω Src) :
    (handleIndex cfg E c s).st.cache = s.cache := by
  simp only [handleIndex, dbGetSettings]
  all_goals simp [Outcome.done]

/-- The handler handleStatic leaves the icon cache alone. -/
theorem handleStatic_cache (E : Env ω PI Src) (c : Context) (s : St ω Src) :
    (handleStatic E c s).st.cache = s.cache := by
  simp only [handleStatic, fileServer]
  repeat' split
  all_goals simp [Outcome.done]

/-- The handler handleManifest leaves the icon cache alone. -/
theorem handleManifest_cache (cfg : Config) (E : Env ω PI Src) (c : Context) (s : St ω Src) :
    (handleManifest cfg E c s).st.cache = s.cache := by
  simp only [handleManifest]
  all_goals simp [Outcome.done]

/-- The handler handleStatus leaves the icon cache alone. -/
theorem handleStatus_cache (E : Env ω PI Src) (c : Context) (s : St ω Src) :
    (handleStatus E c s).st.cache = s.cache := by
  simp only [handleStatus, workerFeedsPending, dbFeedStats]
  all_goals simp [Outcome.done]

/-- The handler handleFolderList leaves the icon cache alone. -/
theorem handleFolderList_cache (E : Env ω PI Src) (c : Context) (s : St ω Src) :
    (handleFolderList E c s).st.cache = s.cache := by
  simp only [handleFolderList, dbListFolders, dbCreateFolder]
  repeat' split
  all_goals simp [Outcome.done]

/-- The handler handleFolder leaves the icon cache alone. -/
theorem handleFolder_cache (E : Env ω PI Src) (c : Context) (s : St ω Src) :
    (handleFolder E c s).st.cache = s.cache := by
  simp only [handleFolder, dbRenameFolder, dbToggleFolderExpanded, dbDeleteFolder]
  repeat' split
  all_goals simp [Outcome.done]

/-- The handler handleFeedRefresh leaves the icon cache alone. -/
theorem handleFeedRefresh_cache (E : Env ω PI Src) (c : Context) (s : St ω Src) :
    (handleFeedRefresh E c s).st.cache = s.cache := by
  simp only [handleFeedRefresh, workerRefreshFeeds]
  repeat' split
  all_goals simp [Outcome.done]

/-- The handler handleFeedErrors leaves the icon cache alone. -/
theorem handleFeedErrors_cache (E : Env ω PI Src) (c : Context) (s : St ω Src) :
    (handleFeedErrors E c s).st.cache = s.cache := by
  simp only [handleFeedErrors, dbGetFeedErrors]
  all_goals simp [Outcome.done]

/-- The handler handleItem leaves the icon cache alone. -/
theorem handleItem_cache (E : Env ω PI Src) (c : Context) (s : St ω Src) :
    (handleItem E c s).st.cache = s.cache := by
  simp only [handleItem, dbGetItem, dbGetFeed, dbUpdateItemStatus]
  repeat' split
  all_goals (try simp only [Prod.mk.injEq] at *)
  all_goals (try casesm* _ ∧ _)
  all_goals (try subst_vars)
  all_goals simp [Outcome.done]

/-- The handler handleItemList leaves the icon cache alone. -/
theorem handleItemList_cache (E : Env ω PI Src) (c : Context) (s : St ω Src) :
    (handleItemList E c s).st.cache = s.cache := by
  simp only [handleItemList, dbListItems, dbMarkItemsRead]
  repeat' split
  all_goals simp [Outcome.done]

/-- The handler handleOPMLExport leaves the icon cache alone. -/
theorem handleOPMLExport_cache (E : Env ω PI Src) (c : Context) (s : St ω Src) :
    (handleOPMLExport E c s).st.cache = s.cache := by
  simp only [handleOPMLExport, dbListFeeds, dbListFolders]
  repeat' split
  all_goals simp [Outcome.done]

/-- The handler handlePageCrawl leaves the icon cache alone. -/
theorem handlePageCrawl_cache (E : Env ω PI Src) (c : Context) (s : St ω Src) :
    (handlePageCrawl E c s).st.cache = s.cache := by
  simp only [handlePageCrawl, getBody]
  repeat' split
  all_goals (try simp only [Prod.mk.injEq] at *)
  all_goals (try casesm* _ ∧ _)
  all_goals (try subst_vars)
  all_goals simp [Outcome.done]

/-- The handler handleLogout leaves the icon cache alone. -/
theorem handleLogout_cache (cfg : Config) (E : Env ω PI Src) (c : Context) (s : St ω Src) :
    (handleLogout cfg E c s).st.cache = s.cache := by
  simp only [handleLogout]
  all_goals simp [Outcome.done]

/-- The body of a subscription leaves the icon cache alone. -/
theorem subscribe_cache (E : Env ω PI Src) (s : St ω Src) (parsed : ParserFeed PI)
    (feed : Option Feed) : (subscribe E s parsed feed).st.cache = s.cache := by
  simp only [subscribe, convertItems, dbCreateItems, dbSetFeedSize, dbSyncSearch,
    workerFindFeedFavicon]
  repeat' split
  all_goals simp [Outcome.done, Outcome.panic]

/-- The handler handleFeedList leaves the icon cache alone. -/
theorem handleFeedList_cache (E : Env ω PI Src) (c : Context) (s : St ω Src) :
    (handleFeedList E c s).st.cache = s.cache := by
  simp only [handleFeedList, dbListFeeds, discoverFeed, dbCreateFeed]
  repeat' split
  all_goals (try simp only [Prod.mk.injEq] at *)
  all_goals (try casesm* _ ∧ _)
  all_goals (try subst_vars)
  all_goals simp [Outcome.done, subscribe_cache]

/-- The rename of a feed leaves the icon cache and the status alone. -/
theorem renameStep_frame (E : Env ω PI Src) (s s1 : St ω Src) (id : Int) (body : GoMap)
    (h : renameStep E s id body = some s1) : s1.cache = s.cache ∧ s1.status = s.status := by
  simp only [renameStep, dbRenameFeed] at h
  repeat' split at h
  all_goals (try simp only [Option.some.injEq] at h)
  all_goals (try subst h)
  all_goals simp at *

/-- The move of a feed leaves the icon cache and the status alone. -/
theorem moveStep_frame (E : Env ω PI Src) (s s1 : St ω Src) (id : Int) (body : GoMap)
    (h : moveStep E s id body = some s1) : s1.cache = s.cache ∧ s1.status = s.status := by
  simp only [moveStep, dbUpdateFeedFolder] at h
  repeat' split at h
  all_goals (try simp only [Option.some.injEq] at h)
  all_goals (try subst h)
  all_goals simp at *

/-- The edits of a feed leave the icon cache alone, and they answer 200 or panic
without an answer. -/
theorem editFeed_frame (E : Env ω PI Src) (s : St ω Src) (id : Int) (body : GoMap) :
    (editFeed E s id body).st.cache = s.cache ∧
    (s.status = none → (editFeed E s id body).st.status ≠ some 400) := by
  unfold editFeed
  cases h1 : renameStep E s id body with
  | none =>
    refine ⟨rfl, ?_⟩
    intro h; simp [Outcome.panic, h]
  | some s1 =>
    obtain ⟨c1, t1⟩ := renameStep_frame E s s1 id body h1
    cases h2 : moveStep E s1 id body with
    | none =>
      simp only [h2]
      refine ⟨c1, ?_⟩
      intro h; simp [Outcome.panic, t1, h]
    | some s2 =>
      obtain ⟨c2, t2⟩ := moveStep_frame E s1 s2 id body h2
      simp only [h2]
      refine ⟨by simp [Outcome.done, c1, c2], ?_⟩
      intro h; simp [Outcome.done, t1, t2, h]

/-- The handler handleFeed leaves the icon cache alone. -/
theorem handleFeed_cache (E : Env ω PI Src) (c : Context) (s : St ω Src) :
    (handleFeed E c s).st.cache = s.cache := by
  simp only [handleFeed, dbGetFeed, dbDeleteFeed]
  repeat' split
  all_goals (try simp only [Prod.mk.injEq] at *)
  all_goals (try casesm* _ ∧ _)
  all_goals (try subst_vars)
  all_goals simp [Outcome.done, (editFeed_frame E _ _ _).1]

/-- The handler handleSettings leaves the icon cache alone. -/
theorem handleSettings_cache (E : Env ω PI Src) (c : Context) (s : St ω Src) :
    (handleSettings E c s).st.cache = s.cache := by
  simp only [handleSettings, dbGetSettings, dbUpdateSettings, dbGetSettingsValueInt64,
    workerSetRefreshRate]
  repeat' split
  all_goals (try simp only [Prod.mk.injEq] at *)
  all_goals (try casesm* _ ∧ _)
  all_goals (try subst_vars)
  all_goals simp [Outcome.done]

/-- The handler handleOPMLImport leaves the icon cache alone. -/
theorem handleOPMLImport_cache (E : Env ω PI Src) (c : Context) (s : St ω Src) :
    (handleOPMLImport E c s).st.cache = s.cache := by
  simp only [handleOPMLImport, workerFindFavicons, workerRefreshFeeds]
  repeat' split
  all_goals simp [Outcome.done, (importFolders_frame E _ _).2, importFeeds_cache]

/-- The handler handleFeedIcon keeps every entry of the icon cache: a key that
is bound stays bound to the same icon. -/
theorem handleFeedIcon_cache (E : Env ω PI Src) (c : Context) (s : St ω Src)
    (key : String) (icon : FeedIcon) (h : s.cache.lookup key = some icon) :
    (handleFeedIcon E c s).st.cache.lookup key = some icon := by
  unfold handleFeedIcon
  cases hid : c.VarInt64 "id" with
  | none => simp [Outcome.done, h]
  | some id =>
    cases hc : s.cache.lookup (cacheKey id) with
    | some cachedat =>
      simp only [hc, serveIcon]
      split <;> simp [Outcome.done, h]
    | none =>
      have hne : (key == cacheKey id) = false := by
        cases hk : key == cacheKey id with
        | false => rfl
        | true =>
          have hkey : key = cacheKey id := by simpa using hk
          rw [hkey, hc] at h
          exact absurd h (by simp)
      simp only [hc, dbGetFeed]
      cases hf : (E.db.GetFeed s.world id).2 with
      | none => simp [Outcome.done, h]
      | some feed =>
        cases hi : feed.Icon with
        | none => simp [hi, Outcome.done, h]
        | some bytes =>
          cases he : etagOf (E.md5Sum bytes) with
          | none => simp [hi, he, Outcome.panic, h]
          | some etag =>
            simp only [hi, he, serveIcon]
            split <;> simp [Outcome.done, St.cacheSet, List.lookup, hne, h]

/-- No handler of routes.go evicts or overwrites an entry of the icon cache. -/
theorem serve_cache (cfg : Config) (E : Env ω PI Src) (r : Route) (c : Context)
    (s : St ω Src) (key : String) (icon : FeedIcon) (h : s.cache.lookup key = some icon) :
    (serve cfg E r c s).st.cache.lookup key = some icon := by
  cases r with
  | feedIcon => exact handleFeedIcon_cache E c s key icon h
  | index => simp only [serve, handleIndex_cache, h]
  | static => simp only [serve, handleStatic_cache, h]
  | manifest => simp only [serve, handleManifest_cache, h]
  | status => simp only [serve, handleStatus_cache, h]
  | folderList => simp only [serve, handleFolderList_cache, h]
  | folder => simp only [serve, handleFolder_cache, h]
  | feedRefresh => simp only [serve, handleFeedRefresh_cache, h]
  | feedErrors => simp only [serve, handleFeedErrors_cache, h]
  | feedList => simp only [serve, handleFeedList_cache, h]
  | feed => simp only [serve, handleFeed_cache, h]
  | item => simp only [serve, handleItem_cache, h]
  | itemList => simp only [serve, handleItemList_cache, h]
  | settings => simp only [serve, handleSettings_cache, h]
  | opmlImport => simp only [serve, handleOPMLImport_cache, h]
  | opmlExport => simp only [serve, handleOPMLExport_cache, h]
  | pageCrawl => simp only [serve, handlePageCrawl_cache, h]
  | logout => simp only [serve, handleLogout_cache, h]

/-- The first request for the icon of a feed, on a server whose cache does not
have it, puts it into the cache under the key of the feed. -/
theorem handleFeedIcon_fills_cache (E : Env ω PI Src) (c : Context) (w : ω)
    (cache : List (String × FeedIcon)) (id : Int) (feed : Feed) (bytes : List Nat)
    (etag : String) (hid : c.VarInt64 "id" = some id)
    (hmiss : cache.lookup (cacheKey id) = none)
    (hfeed : (E.db.GetFeed w id).2 = some feed) (hicon : feed.Icon = some bytes)
    (hetag : etagOf (E.md5Sum bytes) = some etag) :
    (handleFeedIcon E c (St.start w cache)).st.cache.lookup (cacheKey id) =
      some { ctype := E.DetectContentType bytes, bytes := bytes, etag := etag } := by
  simp only [handleFeedIcon, hid, St.start, hmiss, dbGetFeed, hfeed, hicon, hetag, serveIcon]
  split <;> simp [Outcome.done, St.cacheSet, List.lookup]

/-- C16: when the icon cache holds the key of a feed, a DELETE on /api/feeds/:id
for that feed deletes the feed in the storage and leaves the cache as it is; no
request on any route removes or changes the entry; and a request for the icon
of the feed is answered from the cache, in any world, without a call on the
storage: 304 when If-None-Match is the cached etag, and otherwise 200 with
the cached bytes, content type and etag. -/
theorem icon_cache_survives_delete (cfg : Config) (E : Env ω PI Src) (w : ω)
    (cache : List (String × FeedIcon)) (id : Int) (icon : FeedIcon)
    (hc : cache.lookup (cacheKey id) = some icon) :
    (∀ c : Context, c.VarInt64 "id" = some id → c.Method = "DELETE" →
      handleFeed E c (St.start w cache) = Outcome.done
        { world := E.db.DeleteFeed w id, trace := [Call.DeleteFeed id], status := some 204,
          payload := none, headers := [], cache := cache }) ∧
    (∀ (r : Route) (c : Context),
      (serve cfg E r c (St.start w cache)).st.cache.lookup (cacheKey id) = some icon) ∧
    (∀ c : Context, c.VarInt64 "id" = some id →
      handleFeedIcon E c (St.start w cache) =
        if c.Header "If-None-Match" = icon.etag then
          Outcome.done
            { world := w, trace := [], status := some 304, payload := none, headers := [],
              cache := cache }
        else
          Outcome.done
            { world := w, trace := [], status := some 200,
              payload := some (Payload.bytes icon.bytes),
              headers := [("Etag", icon.etag), ("Content-Type", icon.ctype)],
              cache := cache }) := by
  refine ⟨?_, ?_, ?_⟩
  · intro c hid hm
    have hp : ¬ c.Method = "PUT" := by rw [hm]; decide
    simp [handleFeed, hid, hm, dbDeleteFeed, St.call, St.WriteHeader, St.start]
  · intro r c
    exact serve_cache cfg E r c (St.start w cache) (cacheKey id) icon hc
  · intro c hid
    simp only [handleFeedIcon, hid, St.start, hc, serveIcon]
    split <;> simp [St.WriteHeader, St.Write, St.setHeader]

/-- Witness of C16 in the environment knownFeedEnv: with the icon of feed 7 in
the cache, the feed is deleted, the cache is as before, and the icon is still
served, with 200. -/
theorem icon_cache_survives_delete_witness :
    handleFeed knownFeedEnv (sampleContext "DELETE" "") (St.start 0
        [(cacheKey 7, { ctype := "image/png", bytes := [1, 2, 3], etag := "0303030303030303" })]) =
      Outcome.done
        { world := 0, trace := [Call.DeleteFeed 7], status := some 204, payload := none,
          headers := [],
          cache := [(cacheKey 7,
            { ctype := "image/png", bytes := [1, 2, 3], etag := "0303030303030303" })] } ∧
    handleFeedIcon sampleEnv (sampleContext "GET" "") (St.start 0
        [(cacheKey 7, { ctype := "image/png", bytes := [1, 2, 3], etag := "0303030303030303" })]) =
      Outcome.done
        { world := 0, trace := [], status := some 200, payload := some (Payload.bytes [1, 2, 3]),
          headers := [("Etag", "0303030303030303"), ("Content-Type", "image/png")],
          cache := [(cacheKey 7,
            { ctype := "image/png", bytes := [1, 2, 3], etag := "0303030303030303" })] } :=
  ⟨(icon_cache_survives_delete { BasePath := "", Username := "", Password := "" } knownFeedEnv 0
      [(cacheKey 7, { ctype := "image/png", bytes := [1, 2, 3], etag := "0303030303030303" })]
      7 { ctype := "image/png", bytes := [1, 2, 3], etag := "0303030303030303" }
      (by decide)).1 (sampleContext "DELETE" "") rfl rfl,
   (icon_cache_survives_delete { BasePath := "", Username := "", Password := "" } sampleEnv 0
      [(cacheKey 7, { ctype := "image/png", bytes := [1, 2, 3], etag := "0303030303030303" })]
      7 { ctype := "image/png", bytes := [1, 2, 3], etag := "0303030303030303" }
      (by decide)).2.2 (sampleContext "GET" "") rfl⟩

/-! ### The requests answered 400 -/

/-- The handler handleIndex calls no method of the worker before it answers 400. -/
theorem handleIndex_clean (cfg : Config) (E : Env ω PI Src) (c : Context) (w : ω)
    (cache : List (String × FeedIcon)) : Clean400 (handleIndex cfg E c (St.start w cache)) := by
  simp only [handleIndex, dbGetSettings]
  all_goals simp [Clean400, Outcome.done, Outcome.panic, St.start, Call.isWorker]

/-- The handler handleStatic calls no method of the worker before it answers 400. -/
theorem handleStatic_clean (E : Env ω PI Src) (c : Context) (w : ω)
    (cache : List (String × FeedIcon)) : Clean400 (handleStatic E c (St.start w cache)) := by
  simp only [handleStatic, fileServer]
  repeat' split
  all_goals simp [Clean400, Outcome.done, Outcome.panic, St.start, Call.isWorker]

/-- The handler handleManifest calls no method of the worker before it answers 400. -/
theorem handleManifest_clean (cfg : Config) (E : Env ω PI Src) (c : Context) (w : ω)
    (cache : List (String × FeedIcon)) : Clean400 (handleManifest cfg E c (St.start w cache)) := by
  simp only [handleManifest]
  all_goals simp [Clean400, Outcome.done, Outcome.panic, St.start, Call.isWorker]

/-- The handler handleStatus calls no method of the worker before it answers 400. -/
theorem handleStatus_clean (E : Env ω PI Src) (c : Context) (w : ω)
    (cache : List (String × FeedIcon)) : Clean400 (handleStatus E c (St.start w cache)) := by
  simp only [handleStatus, workerFeedsPending, dbFeedStats]
  all_goals simp [Clean400, Outcome.done, Outcome.panic, St.start, Call.isWorker]

/-- The handler handleFolderList calls no method of the worker before it answers 400. -/
theorem handleFolderList_clean (E : Env ω PI Src) (c : Context) (w : ω)
    (cache : List (String × FeedIcon)) : Clean400 (handleFolderList E c (St.start w cache)) := by
  simp only [handleFolderList, dbListFolders, dbCreateFolder]
  repeat' split
  all_goals simp [Clean400, Outcome.done, Outcome.panic, St.start, Call.isWorker]

/-- The handler handleFolder calls no method of the worker before it answers 400. -/
theorem handleFolder_clean (E : Env ω PI Src) (c : Context) (w : ω)
    (cache : List (String × FeedIcon)) : Clean400 (handleFolder E c (St.start w cache)) := by
  simp only [handleFolder, dbRenameFolder, dbToggleFolderExpanded, dbDeleteFolder]
  repeat' split
  all_goals simp [Clean400, Outcome.done, Outcome.panic, St.start, Call.isWorker]

/-- The handler handleFeedRefresh calls no method of the worker before it answers 400. -/
theorem handleFeedRefresh_clean (E : Env ω PI Src) (c : Context) (w : ω)
    (cache : List (String × FeedIcon)) : Clean400 (handleFeedRefresh E c (St.start w cache)) := by
  simp only [handleFeedRefresh, workerRefreshFeeds]
  repeat' split
  all_goals simp [Clean400, Outcome.done, Outcome.panic, St.start, Call.isWorker]

/-- The handler handleFeedErrors calls no method of the worker before it answers 400. -/
theorem handleFeedErrors_clean (E : Env ω PI Src) (c : Context) (w : ω)
    (cache : List (String × FeedIcon)) : Clean400 (handleFeedErrors E c (St.start w cache)) := by
  simp only [handleFeedErrors, dbGetFeedErrors]
  all_goals simp [Clean400, Outcome.done, Outcome.panic, St.start, Call.isWorker]

/-- The handler handleFeedIcon calls no method of the worker before it answers 400. -/
theorem handleFeedIcon_clean (E : Env ω PI Src) (c : Context) (w : ω)
    (cache : List (String × FeedIcon)) : Clean400 (handleFeedIcon E c (St.start w cache)) := by
  simp only [handleFeedIcon, dbGetFeed, serveIcon]
  repeat' split
  all_goals (try simp only [Prod.mk.injEq] at *)
  all_goals (try casesm* _ ∧ _)
  all_goals (try subst_vars)
  all_goals simp [Clean400, Outcome.done, Outcome.panic, St.start, Call.isWorker]

/-- The handler handleItem calls no method of the worker before it answers 400. -/
theorem handleItem_clean (E : Env ω PI Src) (c : Context) (w : ω)
    (cache : List (String × FeedIcon)) : Clean400 (handleItem E c (St.start w cache)) := by
  simp only [handleItem, dbGetItem, dbGetFeed, dbUpdateItemStatus]
  repeat' split
  all_goals (try simp only [Prod.mk.injEq] at *)
  all_goals (try casesm* _ ∧ _)
  all_goals (try subst_vars)
  all_goals simp [Clean400, Outcome.done, Outcome.panic, St.start, Call.isWorker]

/-- The handler handleItemList calls no method of the worker before it answers 400. -/
theorem handleItemList_clean (E : Env ω PI Src) (c : Context) (w : ω)
    (cache : List (String × FeedIcon)) : Clean400 (handleItemList E c (St.start w cache)) := by
  simp only [handleItemList, dbListItems, dbMarkItemsRead]
  repeat' split
  all_goals simp [Clean400, Outcome.done, Outcome.panic, St.start, Call.isWorker]

/-- The handler handleSettings calls no method of the worker before it answers 400. -/
theorem handleSettings_clean (E : Env ω PI Src) (c : Context) (w : ω)
    (cache : List (String × FeedIcon)) : Clean400 (handleSettings E c (St.start w cache)) := by
  simp only [handleSettings, dbGetSettings, dbUpdateSettings, dbGetSettingsValueInt64, workerSetRefreshRate]
  repeat' split
  all_goals (try simp only [Prod.mk.injEq] at *)
  all_goals (try casesm* _ ∧ _)
  all_goals (try subst_vars)
  all_goals simp [Clean400, Outcome.done, Outcome.panic, St.start, Call.isWorker]

/-- The handler handleOPMLExport calls no method of the worker before it answers 400. -/
theorem handleOPMLExport_clean (E : Env ω PI Src) (c : Context) (w : ω)
    (cache : List (String × FeedIcon)) : Clean400 (handleOPMLExport E c (St.start w cache)) := by
  simp only [handleOPMLExport, dbListFeeds, dbListFolders]
  repeat' split
  all_goals simp [Clean400, Outcome.done, Outcome.panic, St.start, Call.isWorker]

/-- The handler handlePageCrawl calls no method of the worker before it answers 400. -/
theorem handlePageCrawl_clean (E : Env ω PI Src) (c : Context) (w : ω)
    (cache : List (String × FeedIcon)) : Clean400 (handlePageCrawl E c (St.start w cache)) := by
  simp only [handlePageCrawl, getBody]
  repeat' split
  all_goals (try simp only [Prod.mk.injEq] at *)
  all_goals (try casesm* _ ∧ _)
  all_goals (try subst_vars)
  all_goals simp [Clean400, Outcome.done, Outcome.panic, St.start, Call.isWorker]

/-- The handler handleLogout calls no method of the worker before it answers 400. -/
theorem handleLogout_clean (cfg : Config) (E : Env ω PI Src) (c : Context) (w : ω)
    (cache : List (String × FeedIcon)) : Clean400 (handleLogout cfg E c (St.start w cache)) := by
  simp only [handleLogout]
  all_goals simp [Clean400, Outcome.done, Outcome.panic, St.start, Call.isWorker]

/-- A subscription does not answer 400. -/
theorem subscribe_status (E : Env ω PI Src) (s : St ω Src) (parsed : ParserFeed PI)
    (feed : Option Feed) (hstatus : s.status = none) :
    (subscribe E s parsed feed).st.status ≠ some 400 := by
  cases feed with
  | none => simp [subscribe_none, Outcome.panic, hstatus]
  | some fd => simp [(subscribe_some E s parsed fd hstatus).2.2.1]

/-- The handler handleFeedList calls no method of the worker before it answers
400. -/
theorem handleFeedList_clean (E : Env ω PI Src) (c : Context) (w : ω)
    (cache : List (String × FeedIcon)) : Clean400 (handleFeedList E c (St.start w cache)) := by
  simp only [handleFeedList, dbListFeeds, discoverFeed, dbCreateFeed]
  repeat' split
  all_goals (try simp only [Prod.mk.injEq] at *)
  all_goals (try casesm* _ ∧ _)
  all_goals (try subst_vars)
  all_goals (try simp [Clean400, Outcome.done, St.start, Call.isWorker])
  all_goals
    intro h
    exact absurd h (subscribe_status E _ _ _ rfl)

/-- The handler handleFeed calls no method of the worker before it answers 400. -/
theorem handleFeed_clean (E : Env ω PI Src) (c : Context) (w : ω)
    (cache : List (String × FeedIcon)) : Clean400 (handleFeed E c (St.start w cache)) := by
  simp only [handleFeed, dbGetFeed, dbDeleteFeed]
  repeat' split
  all_goals (try simp only [Prod.mk.injEq] at *)
  all_goals (try casesm* _ ∧ _)
  all_goals (try subst_vars)
  all_goals (try simp [Clean400, Outcome.done, St.start, Call.isWorker])
  all_goals
    intro h
    exact absurd h ((editFeed_frame E _ _ _).2 rfl)

/-- The handler handleOPMLImport calls no method of the worker before it answers
400. -/
theorem handleOPMLImport_clean (E : Env ω PI Src) (c : Context) (w : ω)
    (cache : List (String × FeedIcon)) :
    Clean400 (handleOPMLImport E c (St.start w cache)) := by
  simp only [handleOPMLImport, workerFindFavicons, workerRefreshFeeds]
  repeat' split
  all_goals
    simp [Clean400, Outcome.done, St.start, Call.isWorker, (importFolders_frame E _ _).1,
      (importFeeds_spec E _ _).2.1]

/-- C15: no handler of routes.go ends a request with the status 400 after a call
of a method of the worker (FeedsPending, RefreshFeeds, SetRefreshRate,
FindFavicons, FindFeedFavicon). -/
theorem rejected_request_leaves_worker (cfg : Config) (E : Env ω PI Src) (r : Route)
    (c : Context) (w : ω) (cache : List (String × FeedIcon))
    (h400 : (serve cfg E r c (St.start w cache)).st.status = some 400) :
    ∀ k ∈ (serve cfg E r c (St.start w cache)).st.trace, k.isWorker = false := by
  have hclean : Clean400 (serve cfg E r c (St.start w cache)) := by
    cases r with
    | index => exact handleIndex_clean cfg E c w cache
    | static => exact handleStatic_clean E c w cache
    | manifest => exact handleManifest_clean cfg E c w cache
    | status => exact handleStatus_clean E c w cache
    | folderList => exact handleFolderList_clean E c w cache
    | folder => exact handleFolder_clean E c w cache
    | feedRefresh => exact handleFeedRefresh_clean E c w cache
    | feedErrors => exact handleFeedErrors_clean E c w cache
    | feedIcon => exact handleFeedIcon_clean E c w cache
    | feedList => exact handleFeedList_clean E c w cache
    | feed => exact handleFeed_clean E c w cache
    | item => exact handleItem_clean E c w cache
    | itemList => exact handleItemList_clean E c w cache
    | settings => exact handleSettings_clean E c w cache
    | opmlImport => exact handleOPMLImport_clean E c w cache
    | opmlExport => exact handleOPMLExport_clean E c w cache
    | pageCrawl => exact handlePageCrawl_clean E c w cache
    | logout => exact handleLogout_clean cfg E c w cache
  exact hclean h400

/-- Witness of C15 in the sample environment: a PUT on /api/settings that the
storage refuses is answered 400 and has called no method of the worker. -/
theorem rejected_request_leaves_worker_witness :
    (serve { BasePath := "", Username := "", Password := "" } sampleEnv Route.settings
        (sampleContext "PUT" "bad") (St.start 0 [])).st.status = some 400 ∧
    ∀ k ∈ (serve { BasePath := "", Username := "", Password := "" } sampleEnv Route.settings
        (sampleContext "PUT" "bad") (St.start 0 [])).st.trace, k.isWorker = false :=
  ⟨rfl, rejected_request_leaves_worker { BasePath := "", Username := "", Password := "" }
    sampleEnv Route.settings (sampleContext "PUT" "bad") 0 [] rfl⟩

/-! ### Page extraction, item lists -/

/-- C21: with u the redirect of the url when there is one and the url otherwise,
a request on /page fetches the body of u exactly when VideoIFrame(u) is empty;
the answer is 400 exactly when the body was fetched and the fetch failed;
otherwise it is 200 with the content Sanitize(u, VideoIFrame(u)) when the
iframe is not empty, "error: " and the text of the error when ExtractContent
fails, and Sanitize(u, extracted content) otherwise. -/
theorem handlePageCrawl_cases (E : Env ω PI Src) (c : Context) (w : ω)
    (cache : List (String × FeedIcon)) (u : String)
    (hu : u = if E.RedirectURL (c.Query "url") ≠ "" then E.RedirectURL (c.Query "url")
              else c.Query "url") :
    (handlePageCrawl E c (St.start w cache)).st.trace =
      (if E.VideoIFrame u = "" then [Call.GetBody u] else []) ∧
    ((handlePageCrawl E c (St.start w cache)).st.status = some 400 ↔
      (E.VideoIFrame u = "" ∧ ∃ err, (E.GetBody w u).2 = Except.error err)) ∧
    (E.VideoIFrame u ≠ "" →
      (handlePageCrawl E c (St.start w cache)).st.status = some 200 ∧
      (handlePageCrawl E c (St.start w cache)).st.payload =
        some (Payload.stringMap [("content", E.Sanitize u (E.VideoIFrame u))])) ∧
    (E.VideoIFrame u = "" → ∀ body : String, (E.GetBody w u).2 = Except.ok body →
      (∀ err : String, E.ExtractContent body = Except.error err →
        (handlePageCrawl E c (St.start w cache)).st.status = some 200 ∧
        (handlePageCrawl E c (St.start w cache)).st.payload =
          some (Payload.stringMap [("content", "error: " ++ err)])) ∧
      (∀ content : String, E.ExtractContent body = Except.ok content →
        (handlePageCrawl E c (St.start w cache)).st.status = some 200 ∧
        (handlePageCrawl E c (St.start w cache)).st.payload =
          some (Payload.stringMap [("content", E.Sanitize u content)]))) := by
  simp only [handlePageCrawl, ← hu, getBody]
  by_cases hv : E.VideoIFrame u = ""
  · cases hb : (E.GetBody w u).2 with
    | error err =>
      simp [hv, St.start, hb, Outcome.done]
    | ok body =>
      cases hx : E.ExtractContent body with
      | error err => simp [hv, St.start, hb, hx, Outcome.done, St.JSON, St.WriteHeader]
      | ok content => simp [hv, St.start, hb, hx, Outcome.done, St.JSON, St.WriteHeader]
  · simp [hv, St.start, Outcome.done, St.JSON, St.WriteHeader]

/-- Witness of C21 in the environment onlineEnv: the page "p" is fetched and its
extracted content is the answer. -/
theorem handlePageCrawl_cases_witness :
    (handlePageCrawl onlineEnv (pageContext "p") (St.start 0 [])).st.trace =
      [Call.GetBody "p"] ∧
    (handlePageCrawl onlineEnv (pageContext "p") (St.start 0 [])).st.status = some 200 ∧
    (handlePageCrawl onlineEnv (pageContext "p") (St.start 0 [])).st.payload =
      some (Payload.stringMap [("content", "p")]) :=
  ⟨(handlePageCrawl_cases onlineEnv (pageContext "p") 0 [] "p" (by decide)).1,
   ((handlePageCrawl_cases onlineEnv (pageContext "p") 0 [] "p" (by decide)).2.2.2 rfl "p"
      rfl).2 "p" rfl⟩

/-- C22: a GET on /api/items asks ListItems for 21 items; when the storage
returns at most 21 items, the list of the response is the returned list with
has_more false when it has at most 20 items, and its first 20 items with
has_more true when it has 21; so the list of the response has at most 20 items
and has_more is true exactly when the storage returned 21 items. -/
theorem handleItemList_paging (E : Env ω PI Src) (c : Context) (w : ω)
    (cache : List (String × FeedIcon)) (items : List Item) (hm : c.Method = "GET")
    (hitems : (E.db.ListItems w (itemFilter E c) 21 (c.Query "oldest_first" != "true")
      false).2 = items) :
    (handleItemList E c (St.start w cache)).st.trace =
      [Call.ListItems (itemFilter E c) 21 (c.Query "oldest_first" != "true") false] ∧
    (handleItemList E c (St.start w cache)).st.status = some 200 ∧
    (items.length ≤ 20 →
      (handleItemList E c (St.start w cache)).st.payload =
        some (Payload.itemList items false)) ∧
    (items.length = 21 →
      (handleItemList E c (St.start w cache)).st.payload =
        some (Payload.itemList (items.take 20) true)) ∧
    (items.length ≤ 21 →
      ∃ (list : List Item) (hasMore : Bool),
        (handleItemList E c (St.start w cache)).st.payload =
          some (Payload.itemList list hasMore) ∧
        list.length ≤ 20 ∧ (hasMore = true ↔ items.length = 21)) := by
  have hcast : ((20 + 1 : Nat) : Int) = 21 := by norm_num
  by_cases h21 : items.length = 21
  · have hrun : (handleItemList E c (St.start w cache)) = Outcome.done
        (((St.start w cache).call
            (Call.ListItems (itemFilter E c) 21 (c.Query "oldest_first" != "true") false)
            (E.db.ListItems w (itemFilter E c) 21 (c.Query "oldest_first" != "true")
              false).1).JSON 200 (Payload.itemList (items.take 20) true)) := by
      simp only [handleItemList, hm, dbListItems, hcast, St.start, hitems, h21]
      simp
    rw [hrun]
    refine ⟨by simp [Outcome.done, St.start], by simp [Outcome.done, St.start], ?_, ?_, ?_⟩
    · intro h; omega
    · intro _; simp [Outcome.done, St.JSON]
    · intro _
      exact ⟨items.take 20, true, by simp [Outcome.done, St.JSON], by simp, by simp [h21]⟩
  · have hrun : (handleItemList E c (St.start w cache)) = Outcome.done
        (((St.start w cache).call
            (Call.ListItems (itemFilter E c) 21 (c.Query "oldest_first" != "true") false)
            (E.db.ListItems w (itemFilter E c) 21 (c.Query "oldest_first" != "true")
              false).1).JSON 200 (Payload.itemList items false)) := by
      simp only [handleItemList, hm, dbListItems, hcast, St.start, hitems]
      simp [h21]
    rw [hrun]
    refine ⟨by simp [Outcome.done, St.start], by simp [Outcome.done, St.start], ?_, ?_, ?_⟩
    · intro _; simp [Outcome.done, St.JSON]
    · intro h; exact absurd h h21
    · intro hle
      exact ⟨items, false, by simp [Outcome.done, St.JSON], by omega, by simp [h21]⟩

/-- Witness of C22 in the environment onlineEnv, whose storage returns 21 items:
the response has 20 of them and has_more is true. -/
theorem handleItemList_paging_witness :
    (handleItemList onlineEnv (itemsContext "GET") (St.start 0 [])).st.payload =
      some (Payload.itemList
        (List.replicate 20 { FeedId := 1, Link := "http://x", Content := "" }) true) :=
  (handleItemList_paging onlineEnv (itemsContext "GET") 0 []
    (List.replicate 21 { FeedId := 1, Link := "http://x", Content := "" }) rfl rfl).2.2.2.1 rfl

/-- C23 (the code at the failing input): a PUT on /api/feeds/:id for a known
feed whose body has a null title does not terminate normally: the handler
panics, and no status is written. -/
theorem handleFeed_null_title_panics (E : Env ω PI Src) (c : Context) (w : ω)
    (cache : List (String × FeedIcon)) (id : Int) (fd : Feed) (body : GoMap)
    (hid : c.VarInt64 "id" = some id) (hm : c.Method = "PUT")
    (hfeed : (E.db.GetFeed w id).2 = some fd) (hd : E.decodeMap c.Body = some body)
    (ht : body.lookup "title" = some GoValue.null) :
    (handleFeed E c (St.start w cache)).panicked = true ∧
    (handleFeed E c (St.start w cache)).st.status = none := by
  rw [handleFeed_put E c w cache id fd body hid hm hfeed hd, editFeed_null_title E _ id body ht]
  simp [Outcome.panic]

/-- Witness of C23 in the environment knownFeedEnv: the body "nulltitle", whose
only key is a null title, makes the handler panic. -/
theorem handleFeed_null_title_panics_witness :
    (handleFeed knownFeedEnv (sampleContext "PUT" "nulltitle") (St.start 0 [])).panicked =
      true ∧
    (handleFeed knownFeedEnv (sampleContext "PUT" "nulltitle") (St.start 0 [])).st.status =
      none :=
  handleFeed_null_title_panics knownFeedEnv (sampleContext "PUT" "nulltitle") 0 [] 7
    { Id := 7, FolderId := none, Title := "old", Link := "site", FeedLink := "feed",
      Icon := some [1, 2, 3] }
    [("title", GoValue.null)] rfl rfl rfl rfl rfl

/-- C25: the filter that handleItemList passes to the storage has FolderID
(FeedID, and After for a GET) set to n exactly when the query parameter
folder_id (feed_id, after) parses as the integer n; a PUT whose folder_id and
feed_id both fail to parse calls MarkItemsRead with the empty filter. -/
theorem handleItemList_filters (E : Env ω PI Src) (c : Context) (w : ω)
    (cache : List (String × FeedIcon)) :
    (c.Method = "GET" →
      ∃ filter : ItemFilter,
        (handleItemList E c (St.start w cache)).st.trace =
          [Call.ListItems filter 21 (c.Query "oldest_first" != "true") false] ∧
        (∀ n : Int, filter.FolderID = some n ↔ c.QueryInt64 "folder_id" = some n) ∧
        (∀ n : Int, filter.FeedID = some n ↔ c.QueryInt64 "feed_id" = some n) ∧
        (∀ n : Int, filter.After = some n ↔ c.QueryInt64 "after" = some n) ∧
        (filter.FolderID = none ↔ c.QueryInt64 "folder_id" = none) ∧
        (filter.FeedID = none ↔ c.QueryInt64 "feed_id" = none) ∧
        (filter.After = none ↔ c.QueryInt64 "after" = none)) ∧
    (c.Method = "PUT" →
      ∃ filter : MarkFilter,
        (handleItemList E c (St.start w cache)).st.trace = [Call.MarkItemsRead filter] ∧
        (∀ n : Int, filter.FolderID = some n ↔ c.QueryInt64 "folder_id" = some n) ∧
        (∀ n : Int, filter.FeedID = some n ↔ c.QueryInt64 "feed_id" = some n) ∧
        (filter.FolderID = none ↔ c.QueryInt64 "folder_id" = none) ∧
        (filter.FeedID = none ↔ c.QueryInt64 "feed_id" = none)) ∧
    (c.Method = "PUT" → c.QueryInt64 "folder_id" = none → c.QueryInt64 "feed_id" = none →
      (handleItemList E c (St.start w cache)).st.trace =
        [Call.MarkItemsRead { FolderID := none, FeedID := none }]) := by
  have hcast : ((20 + 1 : Nat) : Int) = 21 := by norm_num
  refine ⟨?_, ?_, ?_⟩
  · intro hm
    refine ⟨itemFilter E c, ?_, ?_⟩
    · rw [handleItemList, if_pos hm]
      simp only [dbListItems, hcast, St.start]
      split <;> simp [Outcome.done]
    · simp [itemFilter]
  · intro hm
    have hg : ¬ c.Method = "GET" := by rw [hm]; decide
    refine ⟨{ FolderID := c.QueryInt64 "folder_id", FeedID := c.QueryInt64 "feed_id" }, ?_, ?_⟩
    · simp [handleItemList, hm, dbMarkItemsRead, St.start, Outcome.done]
    · simp
  · intro hm h1 h2
    have hg : ¬ c.Method = "GET" := by rw [hm]; decide
    simp [handleItemList, hm, dbMarkItemsRead, St.start, Outcome.done, h1, h2]

/-- Witness of C25 in the sample environment: a PUT with folder_id = 4 and a
feed_id that does not parse marks the items of folder 4 read; a PUT without
parameters marks with the empty filter. -/
theorem handleItemList_filters_witness :
    (∃ filter : MarkFilter,
      (handleItemList sampleEnv (itemsContext "PUT") (St.start 0 [])).st.trace =
        [Call.MarkItemsRead filter] ∧
      (∀ n : Int, filter.FolderID = some n ↔ (itemsContext "PUT").QueryInt64 "folder_id" = some n) ∧
      (∀ n : Int, filter.FeedID = some n ↔ (itemsContext "PUT").QueryInt64 "feed_id" = some n) ∧
      (filter.FolderID = none ↔ (itemsContext "PUT").QueryInt64 "folder_id" = none) ∧
      (filter.FeedID = none ↔ (itemsContext "PUT").QueryInt64 "feed_id" = none)) ∧
    (handleItemList sampleEnv (sampleContext "PUT" "") (St.start 0 [])).st.trace =
      [Call.MarkItemsRead { FolderID := none, FeedID := none }] :=
  ⟨(handleItemList_filters sampleEnv (itemsContext "PUT") 0 []).2.1 rfl,
   (handleItemList_filters sampleEnv (sampleContext "PUT" "") 0 []).2.2 rfl rfl rfl⟩

/-! ### The etag of an icon -/

/-- The text %x of a slice of bytes has two characters per byte. -/
theorem hexChars_length (bytes : List Nat) : (hexChars bytes).length = 2 * bytes.length := by
  induction bytes with
  | nil => rfl
  | cons b rest ih =>
    simp only [hexChars, List.flatMap_cons, List.length_append, List.length_cons,
      List.length_nil] at ih ⊢
    omega

/-- A hexadecimal digit is one of 0-9 and a-f. -/
theorem hexDigit_mem (n : Nat) (h : n < 16) : hexDigit n ∈ "0123456789abcdef".toList := by
  interval_cases n <;> decide

/-- The text %x of a slice of bytes is made of lowercase hexadecimal digits. -/
theorem hexChars_mem (bytes : List Nat) :
    ∀ ch ∈ hexChars bytes, ch ∈ "0123456789abcdef".toList := by
  intro ch hch
  simp only [hexChars, List.mem_flatMap, List.mem_cons, List.mem_singleton] at hch
  obtain ⟨b, _, hb⟩ := hch
  rcases hb with hb | hb | hb
  · rw [hb]; exact hexDigit_mem _ (Nat.mod_lt _ (by norm_num))
  · rw [hb]; exact hexDigit_mem _ (Nat.mod_lt _ (by norm_num))
  · exact absurd hb (List.not_mem_nil _)

/-- The etag of a digest of 16 bytes is the first 16 characters of its
hexadecimal text. -/
theorem etagOf_md5 (E : Env ω PI Src) (hmd5 : ∀ b, (E.md5Sum b).length = 16)
    (bytes : List Nat) : etagOf (E.md5Sum bytes) = some (md5Etag E bytes) := by
  have hl := hexChars_length (E.md5Sum bytes)
  rw [hmd5] at hl
  simp [etagOf, md5Etag, hl]

/-- The etag of a digest of 16 bytes has 16 characters, all lowercase
hexadecimal digits. -/
theorem md5Etag_shape (E : Env ω PI Src) (hmd5 : ∀ b, (E.md5Sum b).length = 16)
    (bytes : List Nat) :
    (md5Etag E bytes).length = 16 ∧
    ∀ ch ∈ (md5Etag E bytes).toList, ch ∈ "0123456789abcdef".toList := by
  have hl := hexChars_length (E.md5Sum bytes)
  rw [hmd5] at hl
  constructor
  · simp [md5Etag, String.length, hl]
  · intro ch hch
    exact hexChars_mem _ ch (List.mem_of_mem_take hch)

/-- The table of the digits reads a hexadecimal digit back as its value. -/
theorem hexValue_hexDigit (n : Nat) (h : n < 16) : hexValue (hexDigit n) = some n := by
  interval_cases n <;> rfl

/-- The text %x of a slice of bytes reads back as the bytes. -/
theorem decodeHex_hexChars (bytes : List Nat) :
    decodeHex (hexChars bytes) = some (bytes.map (fun b => b % 256)) := by
  induction bytes with
  | nil => rfl
  | cons b rest ih =>
    have hrest : hexChars (b :: rest) =
        hexDigit (b / 16 % 16) :: hexDigit (b % 16) :: hexChars rest := by
      simp [hexChars]
    have hb : 16 * (b / 16 % 16) + b % 16 = b % 256 := by omega
    rw [hrest]
    simp only [decodeHex, hexValue_hexDigit _ (Nat.mod_lt _ (by norm_num : 0 < 16)), ih,
      List.map_cons, hb]

/-- The first 2n characters of the text %x of a slice of bytes are the text of
its first n bytes. -/
theorem hexChars_take (n : Nat) (bytes : List Nat) :
    (hexChars bytes).take (2 * n) = hexChars (bytes.take n) := by
  induction n generalizing bytes with
  | zero => simp [hexChars]
  | succ k ih =>
    cases bytes with
    | nil => simp [hexChars]
    | cons b rest =>
      have h2 : 2 * (k + 1) = 2 * k + 1 + 1 := by ring
      have hrest : ∀ l : List Nat, hexChars (b :: l) =
          hexDigit (b / 16 % 16) :: hexDigit (b % 16) :: hexChars l := by
        intro l; simp [hexChars]
      rw [h2, hrest, List.take_succ_cons, List.take_succ_cons, ih rest, List.take_succ_cons,
        hrest]

/-- The etag of the bytes reads, as hexadecimal text, as the first 8 bytes of
their digest. -/
theorem md5Etag_decode (E : Env ω PI Src) (bytes : List Nat) :
    decodeHex (md5Etag E bytes).toList =
      some (((E.md5Sum bytes).take 8).map (fun b => b % 256)) := by
  have h := hexChars_take 8 (E.md5Sum bytes)
  simp only [md5Etag]
  rw [show (16 : Nat) = 2 * 8 from rfl, h]
  exact decodeHex_hexChars _

/-- What a key is bound to in an association list is in the list. -/
theorem lookup_mem (cache : List (String × FeedIcon)) (key : String) (icon : FeedIcon)
    (h : cache.lookup key = some icon) : (key, icon) ∈ cache := by
  induction cache with
  | nil => simp [List.lookup] at h
  | cons p rest ih =>
    obtain ⟨a, b⟩ := p
    by_cases hk : key = a
    · subst hk
      simp [List.lookup] at h
      simp [h]
    · have hb : (key == a) = false := by simpa using hk
      simp only [List.lookup, hb] at h
      exact List.mem_cons_of_mem _ (ih h)

/-- The handler handleFeedIcon keeps the cache well formed. -/
theorem handleFeedIcon_wellFormed (E : Env ω PI Src) (c : Context) (s : St ω Src)
    (h : CacheWellFormed E s.cache) : CacheWellFormed E (handleFeedIcon E c s).st.cache := by
  unfold handleFeedIcon
  cases hid : c.VarInt64 "id" with
  | none => simpa [Outcome.done] using h
  | some id =>
    cases hc : s.cache.lookup (cacheKey id) with
    | some cachedat =>
      simp only [hc, serveIcon]
      split <;> simpa [Outcome.done] using h
    | none =>
      simp only [hc, dbGetFeed]
      cases hf : (E.db.GetFeed s.world id).2 with
      | none => simpa [Outcome.done] using h
      | some feed =>
        cases hi : feed.Icon with
        | none => simpa [hi, Outcome.done] using h
        | some bytes =>
          cases he : etagOf (E.md5Sum bytes) with
          | none => simpa [hi, he, Outcome.panic] using h
          | some etag =>
            have hnew : CacheWellFormed E
                ((cacheKey id, { ctype := E.DetectContentType bytes, bytes := bytes,
                                 etag := etag }) :: s.cache) := by
              intro p hp
              rcases List.mem_cons.1 hp with hp | hp
              · subst hp; exact he
              · exact h p hp
            simp only [hi, he, serveIcon]
            split <;> simpa [Outcome.done, St.cacheSet] using hnew

/-- Every handler of routes.go keeps the cache well formed. -/
theorem serve_wellFormed (cfg : Config) (E : Env ω PI Src) (r : Route) (c : Context)
    (s : St ω Src) (h : CacheWellFormed E s.cache) :
    CacheWellFormed E (serve cfg E r c s).st.cache := by
  cases r with
  | feedIcon => exact handleFeedIcon_wellFormed E c s h
  | index => simpa only [serve, handleIndex_cache] using h
  | static => simpa only [serve, handleStatic_cache] using h
  | manifest => simpa only [serve, handleManifest_cache] using h
  | status => simpa only [serve, handleStatus_cache] using h
  | folderList => simpa only [serve, handleFolderList_cache] using h
  | folder => simpa only [serve, handleFolder_cache] using h
  | feedRefresh => simpa only [serve, handleFeedRefresh_cache] using h
  | feedErrors => simpa only [serve, handleFeedErrors_cache] using h
  | feedList => simpa only [serve, handleFeedList_cache] using h
  | feed => simpa only [serve, handleFeed_cache] using h
  | item => simpa only [serve, handleItem_cache] using h
  | itemList => simpa only [serve, handleItemList_cache] using h
  | settings => simpa only [serve, handleSettings_cache] using h
  | opmlImport => simpa only [serve, handleOPMLImport_cache] using h
  | opmlExport => simpa only [serve, handleOPMLExport_cache] using h
  | pageCrawl => simpa only [serve, handlePageCrawl_cache] using h
  | logout => simpa only [serve, handleLogout_cache] using h

/-- The answer of handleFeedIcon once the icon is at hand, on a new request. -/
theorem serveIcon_spec (c : Context) (s : St ω Src) (icon : FeedIcon)
    (hstatus : s.status = none) (hpayload : s.payload = none) :
    (((serveIcon c s icon).st.status = some 304 ∧ (serveIcon c s icon).st.payload = none) ↔
      c.Header "If-None-Match" = icon.etag) ∧
    (c.Header "If-None-Match" ≠ icon.etag →
      (serveIcon c s icon).st.status = some 200 ∧
      (serveIcon c s icon).st.payload = some (Payload.bytes icon.bytes) ∧
      (serveIcon c s icon).st.headers.lookup "Etag" = some icon.etag) := by
  by_cases h : c.Header "If-None-Match" = icon.etag
  · simp [serveIcon, h, Outcome.done, St.WriteHeader, hstatus, hpayload]
  · simp [serveIcon, h, Outcome.done, St.WriteHeader, St.Write, St.setHeader, hstatus,
      List.lookup]

/-- A request for the icon of a feed that finds an icon goes on to serve an icon
with the bytes found and their etag. -/
theorem handleFeedIcon_found (E : Env ω PI Src) (c : Context) (w : ω)
    (cache : List (String × FeedIcon)) (id : Int) (bytes : List Nat)
    (hid : c.VarInt64 "id" = some id) (hmd5 : ∀ b, (E.md5Sum b).length = 16)
    (hwf : CacheWellFormed E cache) (hfound : foundIconBytes E w cache id = some bytes) :
    ∃ (s1 : St ω Src) (icon : FeedIcon),
      handleFeedIcon E c (St.start w cache) = serveIcon c s1 icon ∧
      s1.status = none ∧ s1.payload = none ∧ icon.bytes = bytes ∧
      icon.etag = md5Etag E bytes := by
  unfold foundIconBytes at hfound
  cases hc : cache.lookup (cacheKey id) with
  | some cachedat =>
    rw [hc] at hfound
    have hb : cachedat.bytes = bytes := by simpa using hfound
    have hmem := hwf _ (lookup_mem cache (cacheKey id) cachedat hc)
    rw [etagOf_md5 E hmd5] at hmem
    refine ⟨St.start w cache, cachedat, ?_, rfl, rfl, hb, ?_⟩
    · simp [handleFeedIcon, hid, St.start, hc]
    · have : md5Etag E cachedat.bytes = cachedat.etag := by simpa using hmem
      rw [← this, hb]
  | none =>
    rw [hc] at hfound
    cases hf : (E.db.GetFeed w id).2 with
    | none => rw [hf] at hfound; simp at hfound
    | some feed =>
      rw [hf] at hfound
      have hi : feed.Icon = some bytes := by simpa using hfound
      refine ⟨((St.start w cache).call (Call.GetFeed id) (E.db.GetFeed w id).1).cacheSet
          (cacheKey id)
          { ctype := E.DetectContentType bytes, bytes := bytes, etag := md5Etag E bytes },
        { ctype := E.DetectContentType bytes, bytes := bytes, etag := md5Etag E bytes },
        ?_, rfl, rfl, rfl, rfl⟩
      simp [handleFeedIcon, hid, St.start, hc, dbGetFeed, hf, hi, etagOf_md5 E hmd5, St.call,
        St.cacheSet]

/-- C24: for a request on /api/feeds/:id/icon that finds an icon (in the cache
or in the storage), the etag is the first 16 lowercase hexadecimal characters
of the MD5 digest of the bytes of the icon: it has 16 characters, all among
0-9 and a-f, and they read, as hexadecimal, as the first 8 bytes of the
digest; the answer is 304 without a body
exactly when the header If-None-Match equals that etag, and otherwise the body
is the bytes of the icon, with the header Etag set to it; the etag has 16
characters, so a request without the header If-None-Match is not answered 304.
The entries of the cache have the etag of their bytes, and every handler keeps
them so. -/
theorem handleFeedIcon_etag (cfg : Config) (E : Env ω PI Src) (c : Context) (w : ω)
    (cache : List (String × FeedIcon)) (id : Int) (bytes : List Nat)
    (hid : c.VarInt64 "id" = some id) (hmd5 : ∀ b, (E.md5Sum b).length = 16)
    (hwf : CacheWellFormed E cache) (hfound : foundIconBytes E w cache id = some bytes) :
    ((md5Etag E bytes).length = 16 ∧
      (∀ ch ∈ (md5Etag E bytes).toList, ch ∈ "0123456789abcdef".toList) ∧
      decodeHex (md5Etag E bytes).toList =
        some (((E.md5Sum bytes).take 8).map (fun b => b % 256))) ∧
    (((handleFeedIcon E c (St.start w cache)).st.status = some 304 ∧
        (handleFeedIcon E c (St.start w cache)).st.payload = none) ↔
      c.Header "If-None-Match" = md5Etag E bytes) ∧
    (c.Header "If-None-Match" ≠ md5Etag E bytes →
      (handleFeedIcon E c (St.start w cache)).st.status = some 200 ∧
      (handleFeedIcon E c (St.start w cache)).st.payload = some (Payload.bytes bytes) ∧
      (handleFeedIcon E c (St.start w cache)).st.headers.lookup "Etag" =
        some (md5Etag E bytes)) ∧
    (c.Header "If-None-Match" = "" →
      (handleFeedIcon E c (St.start w cache)).st.status ≠ some 304) ∧
    (CacheWellFormed E ([] : List (String × FeedIcon)) ∧
      ∀ (r : Route) (c2 : Context),
        CacheWellFormed E (serve cfg E r c2 (St.start w cache)).st.cache) := by
  obtain ⟨s1, icon, hrun, hst, hpl, hb, he⟩ :=
    handleFeedIcon_found E c w cache id bytes hid hmd5 hwf hfound
  obtain ⟨h304, h200⟩ := serveIcon_spec c s1 icon hst hpl
  have hshape := md5Etag_shape E hmd5 bytes
  rw [hrun]
  rw [he, hb] at h200
  rw [he] at h304
  refine ⟨⟨hshape.1, hshape.2, md5Etag_decode E bytes⟩, h304, h200, ?_, ?_, ?_⟩
  · intro hempty
    have hne : c.Header "If-None-Match" ≠ md5Etag E bytes := by
      intro heq
      have hl := hshape.1
      rw [← heq, hempty] at hl
      simp at hl
    rw [(h200 hne).1]
    simp
  · intro p hp
    exact absurd hp (List.not_mem_nil _)
  · intro r c2
    exact serve_wellFormed cfg E r c2 (St.start w cache) hwf

/-- The digest of the sample environments has 16 bytes. -/
theorem sampleEnv_md5 : ∀ b, (knownFeedEnv.md5Sum b).length = 16 := by
  intro b
  simp only [knownFeedEnv, sampleEnv]
  split <;> simp

/-- Witness of C24 in the environment knownFeedEnv: the icon of feed 7 comes from
the storage and is the bytes 1, 2, 3, whose MD5 digest is, in hexadecimal,
5289df737df57326fcdd22597afb1fac; a request without If-None-Match is answered
200 with the bytes and the etag "5289df737df57326". -/
theorem handleFeedIcon_etag_witness :
    decodeHex "5289df737df57326".toList = some [82, 137, 223, 115, 125, 245, 115, 38] ∧
    (handleFeedIcon knownFeedEnv (sampleContext "GET" "") (St.start 0 [])).st.status =
      some 200 ∧
    (handleFeedIcon knownFeedEnv (sampleContext "GET" "") (St.start 0 [])).st.payload =
      some (Payload.bytes [1, 2, 3]) ∧
    (handleFeedIcon knownFeedEnv (sampleContext "GET" "") (St.start 0 [])).st.headers.lookup
      "Etag" = some "5289df737df57326" :=
  ⟨(handleFeedIcon_etag { BasePath := "", Username := "", Password := "" } knownFeedEnv
      (sampleContext "GET" "") 0 [] 7 [1, 2, 3] rfl sampleEnv_md5
      (fun p hp => absurd hp (List.not_mem_nil _)) rfl).1.2.2,
   (handleFeedIcon_etag { BasePath := "", Username := "", Password := "" } knownFeedEnv
      (sampleContext "GET" "") 0 [] 7 [1, 2, 3] rfl sampleEnv_md5
      (fun p hp => absurd hp (List.not_mem_nil _)) rfl).2.2.1 (by decide)⟩

/-! ### The exported document -/

/-- Reading the map feedsByFolderID after an assignment. -/
theorem mapGet_mapSet (m : List (Int × List Feed)) (id id2 : Int) (v : List Feed) :
    mapGet (mapSet m id v) id2 = if id2 = id then v else mapGet m id2 := by
  by_cases h : id2 = id
  · subst h
    simp [mapGet, mapSet, List.lookup]
  · have hb : (id2 == id) = false := by simpa using h
    have hl : ∀ l : List (Int × List Feed),
        (l.filter (fun p => p.1 != id)).lookup id2 = l.lookup id2 := by
      intro l
      induction l with
      | nil => rfl
      | cons p rest ih =>
        obtain ⟨a, b⟩ := p
        by_cases ha : a = id
        · subst ha
          simp [List.filter, List.lookup, hb, ih]
        · have hne : (a != id) = true := by simpa using ha
          by_cases h2 : id2 = a
          · subst h2
            simp [List.filter, hne, List.lookup]
          · have hb2 : (id2 == a) = false := by simpa using h2
            simp [List.filter, hne, List.lookup, hb2, ih]
    simp [mapGet, mapSet, List.lookup, hb, hl, h]

/-- The first loop of an export: the feeds without folder are added to the top
level, and the map gets, under each folder, the feeds of that folder. -/
theorem exportSplit_spec (feeds : List Feed) (top : List OpmlFeed)
    (m : List (Int × List Feed)) :
    (exportSplit feeds (top, m)).1 = top ++ (feedsWithoutFolder feeds).map exportFeed ∧
    ∀ id : Int, mapGet (exportSplit feeds (top, m)).2 id = mapGet m id ++ feedsOfFolder feeds id := by
  induction feeds generalizing top m with
  | nil => simp [exportSplit, feedsWithoutFolder, feedsOfFolder]
  | cons f rest ih =>
    cases hf : f.FolderId with
    | none =>
      obtain ⟨h1, h2⟩ := ih (top ++ [exportFeed f]) m
      simp only [exportSplit, hf]
      refine ⟨?_, ?_⟩
      · rw [h1]; simp [feedsWithoutFolder, List.filter, hf]
      · intro id; rw [h2]; simp [feedsOfFolder, List.filter, hf]
    | some fid =>
      obtain ⟨h1, h2⟩ := ih top (mapSet m fid (mapGet m fid ++ [f]))
      simp only [exportSplit, hf]
      refine ⟨?_, ?_⟩
      · rw [h1]; simp [feedsWithoutFolder, List.filter, hf]
      · intro id
        rw [h2, mapGet_mapSet]
        by_cases hid : id = fid
        · subst hid; simp [feedsOfFolder, List.filter, hf]
        · have hne : ¬ fid = id := fun h => hid h.symm
          simp [feedsOfFolder, List.filter, hf, hid, hne]

/-- The second loop of an export adds one entry per folder that has feeds in the
map. -/
theorem exportFolders_spec (byFolder : List (Int × List Feed)) (folders : List Folder)
    (acc : List OpmlFolder) :
    exportFolders byFolder folders acc =
      acc ++ (folders.filter (fun fo => !(mapGet byFolder fo.Id).isEmpty)).map
        (fun fo => OpmlFolder.mk fo.Title ((mapGet byFolder fo.Id).map exportFeed) []) := by
  induction folders generalizing acc with
  | nil => simp [exportFolders]
  | cons fo rest ih =>
    by_cases h : (mapGet byFolder fo.Id).length = 0
    · have he : (mapGet byFolder fo.Id).isEmpty = true := by
        simpa [List.isEmpty_iff] using h
      simp [exportFolders, h, ih, List.filter, he]
    · have he : (mapGet byFolder fo.Id).isEmpty = false := by
        cases hl : mapGet byFolder fo.Id with
        | nil => simp [hl] at h
        | cons a l => rfl
      simp [exportFolders, h, ih, List.filter, he]

/-- The document of an export: the feeds without folder at the top level, then
one entry per folder that has feeds, with the feeds of the folder. -/
theorem exportDoc_spec (feeds : List Feed) (folders : List Folder) :
    (exportDoc feeds folders).Feeds = (feedsWithoutFolder feeds).map exportFeed ∧
    (exportDoc feeds folders).Folders =
      (foldersWithFeeds feeds folders).map
        (fun fo => OpmlFolder.mk fo.Title ((feedsOfFolder feeds fo.Id).map exportFeed) []) := by
  obtain ⟨h1, h2⟩ := exportSplit_spec feeds [] []
  have hget : ∀ id : Int, mapGet (exportSplit feeds ([], [])).2 id = feedsOfFolder feeds id := by
    intro id
    rw [h2]
    simp [mapGet, List.lookup]
  constructor
  · simp [exportDoc, OpmlFolder.Feeds, h1]
  · simp only [exportDoc, OpmlFolder.Folders, exportFolders_spec, List.nil_append, hget,
      foldersWithFeeds]

/-- The number of occurrences of a feed among the feeds that satisfy a test. -/
theorem count_filter_ite (feeds : List Feed) (p : Feed → Bool) (x : Feed) :
    List.count x (feeds.filter p) = if p x = true then List.count x feeds else 0 := by
  by_cases h : p x = true
  · simp [h, List.count_filter h]
  · have : x ∉ feeds.filter p := by
      intro hm
      exact h (List.mem_filter.1 hm).2
    simp [h, List.count_eq_zero_of_not_mem this]

/-- The number of occurrences of a feed among the feeds of the folders, folder
after folder. -/
theorem count_flatMap_feedsOfFolder (feeds : List Feed) (folders : List Folder) (x : Feed) :
    List.count x (folders.flatMap (fun fo => feedsOfFolder feeds fo.Id)) =
      List.count x feeds *
        (match x.FolderId with
         | some id => List.count id (folders.map (fun fo => fo.Id))
         | none => 0) := by
  induction folders with
  | nil => cases x.FolderId <;> simp
  | cons fo rest ih =>
    rw [List.flatMap_cons, List.count_append, ih, feedsOfFolder, count_filter_ite]
    cases hx : x.FolderId with
    | none => simp
    | some id =>
      by_cases h : id = fo.Id
      · subst h
        simp [List.count_cons, Nat.mul_add, Nat.add_comm]
      · have h2 : ¬ fo.Id = id := fun e => h e.symm
        simp [List.count_cons, h, h2]

/-- Under the referential condition, the feeds without folder and the feeds of
the folders are the feeds, each once. -/
theorem partition_perm (feeds : List Feed) (folders : List Folder)
    (href : Referential feeds folders) :
    (feedsWithoutFolder feeds ++ folders.flatMap (fun fo => feedsOfFolder feeds fo.Id)).Perm
      feeds := by
  rw [List.perm_iff_count]
  intro x
  rw [List.count_append, count_flatMap_feedsOfFolder, feedsWithoutFolder, count_filter_ite]
  by_cases hmem : x ∈ feeds
  · cases hx : x.FolderId with
    | none => simp
    | some id =>
      have hin := href.2 x hmem id hx
      have h1 : List.count id (folders.map (fun fo => fo.Id)) = 1 :=
        List.count_eq_one_of_mem href.1 hin
      simp [h1]
  · have h0 : List.count x feeds = 0 := List.count_eq_zero_of_not_mem hmem
    simp [h0]

/-- Leaving out the folders without feeds does not change the feeds of the
folders. -/
theorem flatMap_foldersWithFeeds (feeds : List Feed) (folders : List Folder) :
    (foldersWithFeeds feeds folders).flatMap (fun fo => feedsOfFolder feeds fo.Id) =
      folders.flatMap (fun fo => feedsOfFolder feeds fo.Id) := by
  induction folders with
  | nil => rfl
  | cons fo rest ih =>
    unfold foldersWithFeeds at ih ⊢
    cases hl : feedsOfFolder feeds fo.Id with
    | nil => simp [List.filter, hl, ih]
    | cons a l => simp [List.filter, hl, ih]

/-- The entries of the exported document are the feeds without folder, then the
feeds of the folders, folder after folder. -/
theorem docEntries_exportDoc (feeds : List Feed) (folders : List Folder) :
    docEntries (exportDoc feeds folders) =
      (feedsWithoutFolder feeds ++
        folders.flatMap (fun fo => feedsOfFolder feeds fo.Id)).map exportFeed := by
  obtain ⟨h1, h2⟩ := exportDoc_spec feeds folders
  rw [docEntries, h1, h2, ← flatMap_foldersWithFeeds]
  simp [List.flatMap_map, List.map_flatMap, OpmlFolder.Feeds]

/-- C26: the document that an export builds has the feeds without folder at the
top level, in the order of ListFeeds, and one entry per folder that has feeds,
in the order of ListFolders, titled after the folder and holding the feeds of
the folder in the order of ListFeeds, each feed as (Title, FeedLink, Link); a
folder without feed has no entry; when the ids of the folders are pairwise
distinct and the folder of every feed is nil or one of them, the entries of
the document are the feeds of ListFeeds, each exactly once. -/
theorem handleOPMLExport_lists_feeds (E : Env ω PI Src) (c : Context) (w : ω)
    (cache : List (String × FeedIcon)) (feeds : List Feed) (folders : List Folder)
    (hm : c.Method = "GET") (hfeeds : (E.db.ListFeeds w).2 = feeds)
    (hfolders : (E.db.ListFolders (E.db.ListFeeds w).1).2 = folders) :
    (handleOPMLExport E c (St.start w cache)).st.payload =
      some (Payload.text (E.OPML (exportDoc feeds folders))) ∧
    (exportDoc feeds folders).Feeds = (feedsWithoutFolder feeds).map exportFeed ∧
    (exportDoc feeds folders).Folders =
      (foldersWithFeeds feeds folders).map
        (fun fo => OpmlFolder.mk fo.Title ((feedsOfFolder feeds fo.Id).map exportFeed) []) ∧
    (Referential feeds folders →
      (docEntries (exportDoc feeds folders)).Perm (feeds.map exportFeed)) := by
  refine ⟨?_, (exportDoc_spec feeds folders).1, (exportDoc_spec feeds folders).2, ?_⟩
  · simp [handleOPMLExport, hm, dbListFeeds, dbListFolders, St.start, St.setHeader, St.call,
      hfeeds, hfolders, Outcome.done, St.Write]
  · intro href
    rw [docEntries_exportDoc]
    exact (partition_perm feeds folders href).map exportFeed

/-- The feeds and folders of the environment exportEnv satisfy the referential
condition. -/
theorem exportEnv_referential :
    Referential (exportEnv.db.ListFeeds 0).2 (exportEnv.db.ListFolders 0).2 := by
  constructor
  · decide
  · intro f hf id hid
    simp only [exportEnv, List.mem_cons, List.mem_singleton, List.not_mem_nil, or_false] at hf
    rcases hf with hf | hf | hf <;> subst hf <;> simp at hid <;> subst hid <;> decide

/-- Witness of C26 in the environment exportEnv: the feed a is at the top level,
the folder News has the feeds b and c, the folder Empty has no entry, and
the entries are the three feeds. -/
theorem handleOPMLExport_lists_feeds_witness :
    (exportDoc (exportEnv.db.ListFeeds 0).2 (exportEnv.db.ListFolders 0).2).Feeds =
      [{ Title := "a", FeedUrl := "a.xml", SiteUrl := "a.org" }] ∧
    (docEntries (exportDoc (exportEnv.db.ListFeeds 0).2 (exportEnv.db.ListFolders 0).2)).Perm
      ((exportEnv.db.ListFeeds 0).2.map exportFeed) :=
  ⟨(handleOPMLExport_lists_feeds exportEnv (sampleContext "GET" "") 0 []
      (exportEnv.db.ListFeeds 0).2 (exportEnv.db.ListFolders 0).2 rfl rfl rfl).2.1,
   (handleOPMLExport_lists_feeds exportEnv (sampleContext "GET" "") 0 []
      (exportEnv.db.ListFeeds 0).2 (exportEnv.db.ListFolders 0).2 rfl rfl rfl).2.2.2
      exportEnv_referential⟩

/-- The calls of the import loop over the exported entries of the folders. -/
theorem zipWith_folderCalls_export (allFeeds : OpmlFolder → List OpmlFeed)
    (hall : ∀ (title : String) (fs : List OpmlFeed), allFeeds (OpmlFolder.mk title fs []) = fs)
    (feeds : List Feed) (fos : List Folder) (created : List Folder) :
    List.zipWith (folderCalls allFeeds)
        (fos.map (fun fo =>
          OpmlFolder.mk fo.Title ((feedsOfFolder feeds fo.Id).map exportFeed) []))
        created =
      List.zipWith (reimportCalls feeds) fos created := by
  rw [List.zipWith_map_left]
  congr 1
  funext fo cr
  simp [folderCalls, reimportCalls, hall, OpmlFolder.Title, exportFeed, Function.comp_def]

/-- The counterexample to C27: the export of nilFolderExportEnv, whose feeds and
folders satisfy the referential condition, uploaded to an import over the
same storage, whose CreateFolder returns nil; the text parses back to the
exported document, and the import panics after the CreateFolder of News: it
has made one CreateFeed call, where ListFeeds has three feeds. -/
theorem export_then_import_nil_folder :
    Referential (nilFolderExportEnv.db.ListFeeds 0).2 (nilFolderExportEnv.db.ListFolders 0).2 ∧
    (handleOPMLExport nilFolderExportEnv (sampleContext "GET" "") (St.start 0 [])).st.payload =
      some (Payload.text "export") ∧
    uploadContext.FormFile "opml" = some "export" ∧
    nilFolderExportEnv.opmlParse "export" =
      some (exportDoc (nilFolderExportEnv.db.ListFeeds 0).2
        (nilFolderExportEnv.db.ListFolders 0).2) ∧
    (handleOPMLImport nilFolderExportEnv uploadContext (St.init 0)).panicked = true ∧
    (handleOPMLImport nilFolderExportEnv uploadContext (St.init 0)).st.trace =
      [Call.CreateFeed "a" "" "a.org" "a.xml" none, Call.CreateFolder "News" none] ∧
    ((handleOPMLImport nilFolderExportEnv uploadContext (St.init 0)).st.trace.filter
      Call.isCreateFeed).length = 1 ∧
    (nilFolderExportEnv.db.ListFeeds 0).2.length = 3 := by
  refine ⟨exportEnv_referential, rfl, rfl, rfl, rfl, rfl, rfl, rfl⟩

/-- C27: when the document that an export builds from the feeds and folders of
the storage is uploaded to an import (its text parsing back to the document,
AllFeeds of a folder without sub-folders being its feeds, the storage
returning a folder from CreateFolder for the title of every folder that has
at least one feed), the import calls CreateFeed
without folder for every feed without folder, then, for every folder that
has at least one feed, CreateFolder with its title and CreateFeed under the
folder created for every feed of the folder, always with the title, site url
and feed url of the feed; under the referential condition that is one
CreateFeed per feed of ListFeeds. -/
theorem export_then_import (E : Env ω PI Src) (c1 c2 : Context) (w w2 : ω)
    (cache : List (String × FeedIcon)) (feeds : List Feed) (folders : List Folder)
    (hm1 : c1.Method = "GET") (hfeeds : (E.db.ListFeeds w).2 = feeds)
    (hfolders : (E.db.ListFolders (E.db.ListFeeds w).1).2 = folders)
    (hm2 : c2.Method = "POST")
    (hfile : c2.FormFile "opml" = some (E.OPML (exportDoc feeds folders)))
    (hround : E.opmlParse (E.OPML (exportDoc feeds folders)) = some (exportDoc feeds folders))
    (hall : ∀ (title : String) (fs : List OpmlFeed), E.AllFeeds (OpmlFolder.mk title fs []) = fs)
    (hcf : ∀ (w3 : ω) (fo : Folder), fo ∈ foldersWithFeeds feeds folders →
      (E.db.CreateFolder w3 fo.Title).2 ≠ none) :
    (handleOPMLExport E c1 (St.start w cache)).st.payload =
      some (Payload.text (E.OPML (exportDoc feeds folders))) ∧
    ∃ created : List Folder, created.length = (foldersWithFeeds feeds folders).length ∧
      (handleOPMLImport E c2 (St.init w2)).st.trace =
        (feedsWithoutFolder feeds).map
            (fun f => Call.CreateFeed f.Title "" f.Link f.FeedLink none) ++
          (List.zipWith (reimportCalls feeds) (foldersWithFeeds feeds folders) created).flatten ++
          [Call.FindFavicons, Call.RefreshFeeds] ∧
      ((handleOPMLImport E c2 (St.init w2)).st.trace.filter Call.isCreateFolder).length =
        (foldersWithFeeds feeds folders).length ∧
      (Referential feeds folders →
        ((handleOPMLImport E c2 (St.init w2)).st.trace.filter Call.isCreateFeed).length =
          feeds.length) := by
  obtain ⟨hd1, hd2⟩ := exportDoc_spec feeds folders
  have hcf2 : ∀ (w3 : ω) (f : OpmlFolder), f ∈ (exportDoc feeds folders).Folders →
      (E.db.CreateFolder w3 f.Title).2 ≠ none := by
    intro w3 f hf
    rw [hd2] at hf
    obtain ⟨fo, hfo, hf2⟩ := List.mem_map.1 hf
    subst hf2
    exact hcf w3 fo hfo
  obtain ⟨created, hlen, _, htrace, _⟩ :=
    handleOPMLImport_parsed E c2 w2 _ (exportDoc feeds folders) hm2 hfile hround hcf2
  have hcount := zipWith_folderCalls_count E.AllFeeds (exportDoc feeds folders).Folders created
    hlen
  rw [hd2] at hcount
  rw [hd1, hd2, zipWith_folderCalls_export E.AllFeeds hall, List.map_map] at htrace
  rw [hd2, List.length_map] at hlen
  have htop : (fun f => Call.CreateFeed f.Title "" f.SiteUrl f.FeedUrl none) ∘ exportFeed =
      fun f : Feed => Call.CreateFeed f.Title "" f.Link f.FeedLink none := by
    funext f; rfl
  rw [htop] at htrace
  refine ⟨?_, created, hlen, htrace, ?_, ?_⟩
  · simp [handleOPMLExport, hm1, dbListFeeds, dbListFolders, St.start, St.setHeader, St.call,
      hfeeds, hfolders, Outcome.done, St.Write]
  · rw [htrace]
    have hz : ∀ (fos created : List Folder), created.length = fos.length →
        ((List.zipWith (reimportCalls feeds) fos created).flatten.filter
          Call.isCreateFolder).length = fos.length := by
      intro fos
      induction fos with
      | nil => intro created _; simp
      | cons fo rest ih =>
        intro created hl
        cases created with
        | nil => simp at hl
        | cons cr more =>
          have hl2 : more.length = rest.length := by simpa using hl
          have hone : ((reimportCalls feeds fo cr).filter Call.isCreateFolder).length = 1 := by
            simp [reimportCalls, List.filter, Call.isCreateFolder, List.filter_map,
              Function.comp_def]
          simp only [List.zipWith_cons_cons, List.flatten_cons, List.filter_append,
            List.length_append, hone, ih more hl2, List.length_cons]
          omega
    have htopf : ((feedsWithoutFolder feeds).map
        (fun f => Call.CreateFeed f.Title "" f.Link f.FeedLink none)).filter
          Call.isCreateFolder = [] := by
      simp [List.filter_map, Function.comp_def, Call.isCreateFolder]
    simp only [List.filter_append, List.length_append, htopf, hz _ created hlen]
    simp [List.filter, Call.isCreateFolder]
  · intro href
    have hperm := (partition_perm feeds folders href).length_eq
    rw [List.length_append, ← flatMap_foldersWithFeeds, List.length_flatMap] at hperm
    have hc10 : ((handleOPMLImport E c2 (St.init w2)).st.trace.filter Call.isCreateFeed).length =
        (feedsWithoutFolder feeds).length +
          ((foldersWithFeeds feeds folders).map
            (fun fo => (feedsOfFolder feeds fo.Id).length)).sum := by
      rw [htrace]
      have hz : ∀ (fos created : List Folder), created.length = fos.length →
          ((List.zipWith (reimportCalls feeds) fos created).flatten.filter
            Call.isCreateFeed).length =
            (fos.map (fun fo => (feedsOfFolder feeds fo.Id).length)).sum := by
        intro fos
        induction fos with
        | nil => intro created _; simp
        | cons fo rest ih =>
          intro created hl
          cases created with
          | nil => simp at hl
          | cons cr more =>
            have hl2 : more.length = rest.length := by simpa using hl
            have hone : ((reimportCalls feeds fo cr).filter Call.isCreateFeed).length =
                (feedsOfFolder feeds fo.Id).length := by
              simp [reimportCalls, List.filter, Call.isCreateFeed, List.filter_map,
                Function.comp_def]
            simp only [List.zipWith_cons_cons, List.flatten_cons, List.filter_append,
              List.length_append, hone, ih more hl2, List.map_cons, List.sum_cons]
      have htopc : ((feedsWithoutFolder feeds).map
          (fun f => Call.CreateFeed f.Title "" f.Link f.FeedLink none)).filter
            Call.isCreateFeed =
          (feedsWithoutFolder feeds).map
            (fun f => Call.CreateFeed f.Title "" f.Link f.FeedLink none) := by
        rw [List.filter_eq_self]
        intro k hk
        obtain ⟨f, _, hf⟩ := List.mem_map.1 hk
        subst hf
        rfl
      simp only [List.filter_append, List.length_append, htopc, List.length_map,
        hz _ created hlen]
      simp [List.filter, Call.isCreateFeed]
    rw [hc10]
    exact hperm

/-- Witness of C27 in the environment exportEnv: the import of the exported
document creates the feed a without folder, the folder News, and the feeds b
and c under it: three CreateFeed calls for the three feeds, one CreateFolder. -/
theorem export_then_import_witness :
    ∃ created : List Folder,
      created.length =
        (foldersWithFeeds (exportEnv.db.ListFeeds 0).2 (exportEnv.db.ListFolders 0).2).length ∧
      (handleOPMLImport exportEnv uploadContext (St.init 0)).st.trace =
        (feedsWithoutFolder (exportEnv.db.ListFeeds 0).2).map
            (fun f => Call.CreateFeed f.Title "" f.Link f.FeedLink none) ++
          (List.zipWith (reimportCalls (exportEnv.db.ListFeeds 0).2)
            (foldersWithFeeds (exportEnv.db.ListFeeds 0).2 (exportEnv.db.ListFolders 0).2)
            created).flatten ++
          [Call.FindFavicons, Call.RefreshFeeds] ∧
      ((handleOPMLImport exportEnv uploadContext (St.init 0)).st.trace.filter
          Call.isCreateFolder).length = 1 ∧
      ((handleOPMLImport exportEnv uploadContext (St.init 0)).st.trace.filter
          Call.isCreateFeed).length = 3 :=
  match (export_then_import exportEnv (sampleContext "GET" "") uploadContext
    0 0 [] (exportEnv.db.ListFeeds 0).2 (exportEnv.db.ListFolders 0).2 rfl rfl rfl rfl rfl rfl
    (fun _ _ => rfl) (fun w fo _ => by simp [exportEnv, sampleStorage])).2 with
  | ⟨created, h1, h2, h3, h4⟩ => ⟨created, h1, h2, h3, h4 exportEnv_referential⟩

/-! ### Subscribing, authentication -/

/-- The counterexample to C28: a POST on /api/feeds with a decodable body, over a
storage whose CreateFeed returns nil; DiscoverFeed returns no error, no source
and a feed, and the request is not answered 200: no status and no body are
written. -/
theorem handleFeedList_nil_feed_no_status :
    (nilFeedEnv.decodeFeedCreateForm (sampleContext "POST" "empty").Body =
      some { Url := "empty", FolderID := none }) ∧
    (nilFeedEnv.DiscoverFeed 0 "empty").2 =
      Except.ok { Feed := some { Title := "t", SiteURL := "site", Items := [] },
                  FeedLink := "empty", Sources := [] } ∧
    (handleFeedList nilFeedEnv (sampleContext "POST" "empty") (St.init 0)).st.status ≠
      some 200 ∧
    (handleFeedList nilFeedEnv (sampleContext "POST" "empty") (St.init 0)).st.status = none ∧
    (handleFeedList nilFeedEnv (sampleContext "POST" "empty") (St.init 0)).st.payload = none ∧
    (handleFeedList nilFeedEnv (sampleContext "POST" "empty") (St.init 0)).panicked = true := by
  refine ⟨rfl, rfl, ?_, rfl, rfl, rfl⟩
  have h : (handleFeedList nilFeedEnv (sampleContext "POST" "empty") (St.init 0)).st.status =
      none := rfl
  rw [h]
  exact fun h2 => Option.noConfusion h2

/-- C28: a POST on /api/feeds with a decodable body is answered 200 with the
status "notfound" when DiscoverFeed returned an error, else "multiple" when
there are sources, else "success" (with the feed that CreateFeed returned)
when there is a feed and CreateFeed returns a feed (not nil), else "notfound"
when there is no feed; outside of the case of a feed no call is made, so
CreateFeed, CreateItems, SetFeedSize and SyncSearch are called in that case
only. -/
theorem handleFeedList_three_statuses (E : Env ω PI Src) (c : Context) (w : ω)
    (form : FeedCreateForm) (hm : c.Method = "POST")
    (hd : E.decodeFeedCreateForm c.Body = some form) :
    (∀ err : String, (E.DiscoverFeed w form.Url).2 = Except.error err →
      handleFeedList E c (St.init w) = Outcome.done
        { world := (E.DiscoverFeed w form.Url).1, trace := [], status := some 200,
          payload := some (Payload.stringMap [("status", "notfound")]) }) ∧
    (∀ result : DiscoverResult PI Src, (E.DiscoverFeed w form.Url).2 = Except.ok result →
      (result.Sources ≠ [] →
        handleFeedList E c (St.init w) = Outcome.done
          { world := (E.DiscoverFeed w form.Url).1, trace := [], status := some 200,
            payload := some (Payload.multiple result.Sources) }) ∧
      (result.Sources = [] → result.Feed = none →
        handleFeedList E c (St.init w) = Outcome.done
          { world := (E.DiscoverFeed w form.Url).1, trace := [], status := some 200,
            payload := some (Payload.stringMap [("status", "notfound")]) }) ∧
      (result.Sources = [] → ∀ parsed : ParserFeed PI, result.Feed = some parsed →
        ∀ feed : Feed,
          (E.db.CreateFeed (E.DiscoverFeed w form.Url).1 parsed.Title "" parsed.SiteURL
            result.FeedLink form.FolderID).2 = some feed →
          (handleFeedList E c (St.init w)).panicked = false ∧
          (handleFeedList E c (St.init w)).st.status = some 200 ∧
          (handleFeedList E c (St.init w)).st.payload =
            some (Payload.success (some feed)))) ∧
    ((∃ k ∈ (handleFeedList E c (St.init w)).st.trace,
        k.isCreateFeed = true ∨ k.isCreateItems = true ∨ k.isSetFeedSize = true ∨
          k.isSyncSearch = true) →
      ∃ (result : DiscoverResult PI Src) (parsed : ParserFeed PI),
        (E.DiscoverFeed w form.Url).2 = Except.ok result ∧ result.Sources = [] ∧
        result.Feed = some parsed) := by
  have herr : ∀ err : String, (E.DiscoverFeed w form.Url).2 = Except.error err →
      handleFeedList E c (St.init w) = Outcome.done
        { world := (E.DiscoverFeed w form.Url).1, trace := [], status := some 200,
          payload := some (Payload.stringMap [("status", "notfound")]) } := by
    intro err hr
    simp [handleFeedList, hm, hd, discoverFeed, St.init, hr, St.JSON, St.WriteHeader]
  have hmulti : ∀ result : DiscoverResult PI Src,
      (E.DiscoverFeed w form.Url).2 = Except.ok result → result.Sources ≠ [] →
      handleFeedList E c (St.init w) = Outcome.done
        { world := (E.DiscoverFeed w form.Url).1, trace := [], status := some 200,
          payload := some (Payload.multiple result.Sources) } := by
    intro result hr hs
    have hl : result.Sources.length > 0 := List.length_pos.2 hs
    simp [handleFeedList, hm, hd, discoverFeed, St.init, hr, hl, St.JSON, St.WriteHeader]
  have hnone : ∀ result : DiscoverResult PI Src,
      (E.DiscoverFeed w form.Url).2 = Except.ok result → result.Sources = [] →
      result.Feed = none →
      handleFeedList E c (St.init w) = Outcome.done
        { world := (E.DiscoverFeed w form.Url).1, trace := [], status := some 200,
          payload := some (Payload.stringMap [("status", "notfound")]) } := by
    intro result hr hs hf
    simp [handleFeedList, hm, hd, discoverFeed, St.init, hr, hs, hf, St.JSON, St.WriteHeader]
  refine ⟨herr, ?_, ?_⟩
  · intro result hr
    refine ⟨hmulti result hr, hnone result hr, ?_⟩
    intro hs parsed hf feed hc
    rw [handleFeedList_success E c w form result parsed hm hd hr hs hf, hc]
    exact (subscribe_some E _ parsed feed rfl).2
  · rintro ⟨k, hk, _⟩
    cases hr : (E.DiscoverFeed w form.Url).2 with
    | error err =>
      rw [herr err hr] at hk
      simp [Outcome.done] at hk
    | ok result =>
      by_cases hs : result.Sources = []
      · cases hf : result.Feed with
        | none =>
          rw [hnone result hr hs hf] at hk
          simp [Outcome.done] at hk
        | some parsed => exact ⟨result, parsed, rfl, hs, hf⟩
      · rw [hmulti result hr hs] at hk
        simp [Outcome.done] at hk

/-- Witness of C28 in the sample environment: the url "nowhere" is not found,
the url "feed" is subscribed as feed 0. -/
theorem handleFeedList_three_statuses_witness :
    handleFeedList sampleEnv (sampleContext "POST" "nowhere") (St.init 0) = Outcome.done
        { world := 0, trace := [], status := some 200,
          payload := some (Payload.stringMap [("status", "notfound")]) } ∧
    (handleFeedList sampleEnv (sampleContext "POST" "feed") (St.init 0)).st.payload =
      some (Payload.success (some { Id := 0, FolderId := none, Title := "t", Link := "site",
                                     FeedLink := "feed", Icon := none })) :=
  ⟨(handleFeedList_three_statuses sampleEnv (sampleContext "POST" "nowhere") 0
      { Url := "nowhere", FolderID := none } rfl rfl).1 "not found" rfl,
   (((handleFeedList_three_statuses sampleEnv (sampleContext "POST" "feed") 0
      { Url := "feed", FolderID := none } rfl rfl).2.1
      { Feed := some { Title := "t", SiteURL := "site", Items := ["x", "y"] },
        FeedLink := "feed", Sources := [] } rfl).2.2 rfl
      { Title := "t", SiteURL := "site", Items := ["x", "y"] } rfl
      { Id := 0, FolderId := none, Title := "t", Link := "site", FeedLink := "feed",
        Icon := none } rfl).2.2⟩

/-- C29: handler() installs the authentication middleware exactly when Username
and Password are both non-empty, and that is the value of the flag
authenticated that handleIndex passes to the template index.html; a
configuration with one of the two empty installs the gzip middleware only. -/
theorem auth_iff_authenticated (cfg : Config) (E : Env ω PI Src) (c : Context) (w : ω)
    (cache : List (String × FeedIcon)) :
    ((handler cfg).middlewares.any Middleware.isAuth = true ↔
      (cfg.Username ≠ "" ∧ cfg.Password ≠ "")) ∧
    (handleIndex cfg E c (St.start w cache)).st.payload =
      some (Payload.html "index.html" (E.db.GetSettings w).2
        ((handler cfg).middlewares.any Middleware.isAuth)) ∧
    ((cfg.Username ≠ "" ∧ cfg.Password ≠ "") →
      (handler cfg).middlewares =
        [Middleware.gzip,
         Middleware.auth cfg.BasePath cfg.Username cfg.Password ["/static", "/fever"]]) ∧
    ((cfg.Username = "" ∨ cfg.Password = "") →
      (handler cfg).middlewares = [Middleware.gzip]) := by
  by_cases h : cfg.Username ≠ "" ∧ cfg.Password ≠ ""
  · have hmw : (handler cfg).middlewares =
        [Middleware.gzip,
         Middleware.auth cfg.BasePath cfg.Username cfg.Password ["/static", "/fever"]] := by
      simp [handler, h, Router.For, Router.Use, NewRouter]
    have hu : (cfg.Username != "") = true := by simpa using h.1
    have hp : (cfg.Password != "") = true := by simpa using h.2
    refine ⟨?_, ?_, fun _ => hmw, ?_⟩
    · rw [hmw]; simp [Middleware.isAuth, h]
    · rw [hmw]
      simp [handleIndex, dbGetSettings, St.start, St.call, St.JSON, St.WriteHeader, Outcome.done,
        Middleware.isAuth, hu, hp]
    · intro h2
      rcases h2 with h2 | h2
      · exact absurd h2 h.1
      · exact absurd h2 h.2
  · have hmw : (handler cfg).middlewares = [Middleware.gzip] := by
      simp only [handler, h, Router.For, Router.Use, NewRouter]
      simp
    have hb : (cfg.Username != "" && cfg.Password != "") = false := by
      cases hx : (cfg.Username != "" && cfg.Password != "") with
      | false => rfl
      | true =>
        exfalso
        apply h
        simpa [Bool.and_eq_true] using hx
    refine ⟨?_, ?_, fun h2 => absurd h2 h, fun _ => hmw⟩
    · rw [hmw]; simp [Middleware.isAuth, h]
    · rw [hmw]
      simp only [handleIndex, dbGetSettings, St.start, St.call, St.JSON, St.WriteHeader,
        Outcome.done, hb]
      simp [Middleware.isAuth]

/-- Witness of C29: with a username and no password, no authentication is
installed. -/
theorem auth_iff_authenticated_witness :
    (handler { BasePath := "", Username := "admin", Password := "" }).middlewares =
      [Middleware.gzip] :=
  (auth_iff_authenticated { BasePath := "", Username := "admin", Password := "" } sampleEnv
    (sampleContext "GET" "") 0 []).2.2.2 (Or.inr rfl)

end Theorems

end Yarr
